import Mathlib

/-!
UPnP service-client framework

A shallow embedding of the generic service client (`upnpserviceclientbase.h`), the
AVTransport client (`upnp.avtransport.client.cpp`), the event server and callback table of
`Client2` (`upnp.client.cpp`), the HTTP client (`upnp.http.client.cpp`), the generic service
host (`upnpdeviceservice.h`), the AVTransport service (`upnpavtransportservice.cpp`) and the
control point (`upnpcontrolpoint.cpp`), together with the properties checked against them.

Conventions of the embedding:

* C++ exceptions are values of `Thrown`; a function that may throw returns `Except Thrown _`,
  paired with the state it leaves behind.  A `try`/`catch` is a `match` on that result.
* Calls that leave the service client (to the `IClient`, to signals and virtual handlers) are
  appended to `State.calls`, lines written to the log to `State.log`, in program order.
  Emitting a signal is recorded and returns; the slots connected to it are not modelled.
* `std::map` and `std::set` are lists kept in the container's iteration order.
* What the sources use but do not contain (the `IClient`, the XML wrapper, the string
  conversions of a service, the transport implementation, the renderer and the media server)
  is a parameter, quantified over in the statements.
* A loop that may not end is run with fuel: the result is `none` when the loop is still
  running after the given number of rounds.
-/

namespace upnp

/-! ## Ordering of keys, `std::map`, `std::set` -/

/-- Lexicographic "less than" on sequences of character codes: the comparison that
`std::less<std::string>` performs (a proper leading part of a string is smaller than the string). -/
def lexLess : List Nat → List Nat → Bool
  | _, [] => false
  | [], _ :: _ => true
  | a :: as, b :: bs => if a < b then true else if b < a then false else lexLess as bs

/-- Key types of the ordered containers.  `rank` gives the sequence of codes by which
`operator<` compares two keys: the characters of a `std::string`, the underlying value of an
enumerator. -/
class StdKey (K : Type) where
  /-- Codes compared by `operator<`. -/
  rank : K → List Nat
  /-- Different keys have different codes. -/
  rank_inj : ∀ a b : K, rank a = rank b → a = b

/-- The `operator<` of a key type. -/
def keyLess {K : Type} [StdKey K] (a b : K) : Bool :=
  lexLess (StdKey.rank a) (StdKey.rank b)

/-- Equivalence of keys as the ordered containers see it: neither is less than the other. -/
def keyEquiv {K : Type} [StdKey K] (a b : K) : Bool :=
  !keyLess a b && !keyLess b a

theorem charCodes_inj : ∀ a b : List Char, a.map Char.toNat = b.map Char.toNat → a = b
  | [], [], _ => rfl
  | [], _ :: _, h => by simp at h
  | _ :: _, [], h => by simp at h
  | x :: xs, y :: ys, h => by
    simp only [List.map_cons, List.cons.injEq] at h
    have hxy : x = y := by
      apply Char.ext
      apply UInt32.ext
      exact h.1
    rw [hxy, charCodes_inj xs ys h.2]

instance instStdKeyString : StdKey String where
  rank s := s.data.map Char.toNat
  rank_inj a b h := by
    have hd : a.data = b.data := charCodes_inj a.data b.data h
    cases a
    cases b
    simp only at hd
    rw [hd]

/-- A `std::map<K, V>`: its entries in iteration order (ascending keys, one entry per key). -/
structure StdMap (K V : Type) where
  /-- Entries from `begin()` to `end()`. -/
  entries : List (K × V)

/-- Insertion into the entry list of a `std::map`: the new pair goes before the first larger
key; when an equivalent key is present the container is left as it is (`insert`/`emplace`
do not assign). -/
def insertEntries {K V : Type} [StdKey K] (k : K) (v : V) : List (K × V) → List (K × V)
  | [] => [(k, v)]
  | (k', v') :: rest =>
    if keyLess k k' then (k, v) :: (k', v') :: rest
    else if keyLess k' k then (k', v') :: insertEntries k v rest
    else (k', v') :: rest

/-- The empty map. -/
def StdMap.empty {K V : Type} : StdMap K V := ⟨[]⟩

/-- `std::map::insert(std::make_pair(k, v))`. -/
def StdMap.insert {K V : Type} [StdKey K] (m : StdMap K V) (k : K) (v : V) : StdMap K V :=
  ⟨insertEntries k v m.entries⟩

/-- Construction of a `std::map` from a braced list of pairs: the pairs are inserted one after
the other, in the order written. -/
def StdMap.ofList {K V : Type} [StdKey K] (l : List (K × V)) : StdMap K V :=
  l.foldl (fun m p => m.insert p.1 p.2) StdMap.empty

/-- First value of an association list stored under a key equivalent to `k`. -/
def findEntry {K V : Type} [StdKey K] (k : K) : List (K × V) → Option V
  | [] => none
  | (k', v') :: rest => if keyEquiv k' k then some v' else findEntry k rest

/-- `std::map::find`, as an optional value. -/
def StdMap.find {K V : Type} [StdKey K] (m : StdMap K V) (k : K) : Option V :=
  findEntry k m.entries

/-- Strictly ascending keys. -/
def Ascending {K V : Type} [StdKey K] (l : List (K × V)) : Prop :=
  l.Pairwise (fun x y => keyLess x.1 y.1 = true)

/-- A `std::set<K>`: its elements in iteration order. -/
structure StdSet (K : Type) where
  /-- Elements from `begin()` to `end()`. -/
  elems : List K

/-- Insertion into the element list of a `std::set`; an equivalent element is kept. -/
def insertElem {K : Type} [StdKey K] (k : K) : List K → List K
  | [] => [k]
  | k' :: rest =>
    if keyLess k k' then k :: k' :: rest
    else if keyLess k' k then k' :: insertElem k rest
    else k' :: rest

/-- The empty set. -/
def StdSet.empty {K : Type} : StdSet K := ⟨[]⟩

/-- `std::set::insert`. -/
def StdSet.insert {K : Type} [StdKey K] (s : StdSet K) (k : K) : StdSet K :=
  ⟨insertElem k s.elems⟩

/-- `s.find(k) != s.end()`. -/
def StdSet.contains {K : Type} [StdKey K] (s : StdSet K) (k : K) : Bool :=
  s.elems.any (fun k' => keyEquiv k' k)

/-! ## Data model -/

/-- `ServiceType::Type` of `upnp.types.h`. -/
inductive ServiceType.Tag where
  | ContentDirectory
  | RenderingControl
  | ConnectionManager
  | AVTransport
  | Unknown
  deriving DecidableEq, Repr

/-- `struct ServiceType` of `upnp.types.h`; a default-constructed value is `Unknown`, version 0. -/
structure ServiceType where
  /-- The kind of service. -/
  type : ServiceType.Tag := ServiceType.Tag.Unknown
  /-- The version, a `uint32_t`. -/
  version : Nat := 0
  deriving DecidableEq, Repr

/-- The service descriptor a device owns (`Service` of `upnpdevice.h`, which is not among the
sources; the members are those the service client reads, named as it names them). -/
structure Service where
  /-- Service type. -/
  m_Type : ServiceType := {}
  /-- Service id. -/
  m_Id : String := ""
  /-- URL of the service description (SCPD). -/
  m_SCPDUrl : String := ""
  /-- URL to which actions are posted. -/
  m_ControlURL : String := ""
  /-- URL to which subscriptions are sent. -/
  m_EventSubscriptionURL : String := ""
  deriving DecidableEq, Repr

/-- An `Action`: name, control URL, service type and the argument elements of its SOAP body,
first child first. -/
structure Action where
  /-- Action name. -/
  name : String
  /-- Control URL. -/
  url : String
  /-- Type of the service addressed. -/
  serviceType : ServiceType
  /-- Children of the action element, in document order. -/
  arguments : List (String × String)
  deriving DecidableEq, Repr

/-- Constructor `Action(name, url, serviceType)`: an action without arguments. -/
def Action.new (name url : String) (serviceType : ServiceType) : Action :=
  ⟨name, url, serviceType, []⟩

/-- Modelled from the spec: the body of `Action::addArgument` is not among the sources
(`upnp.action.h` only declares it).  The spec: "argumentList (ordered key→value) ... The
argument order is preserved as insertion order": the new argument becomes the last child. -/
def Action.addArgument (a : Action) (name value : String) : Action :=
  { a with arguments := a.arguments ++ [(name, value)] }

/-- Exceptions.  Every exception class of the code base derives from `std::exception`:
`upnp` stands for the classes that carry a UPnP error code (`UPnPException`, `Exception`),
`other` for the rest. -/
inductive Thrown where
  | upnp (errorCode : Int) (what : String)
  | other (what : String)
  deriving DecidableEq, Repr

/-- `std::exception::what()`. -/
def Thrown.what : Thrown → String
  | Thrown.upnp _ w => w
  | Thrown.other w => w

/-- Levels of `utils::log`. -/
inductive LogLevel where
  | debug
  | info
  | warn
  | error
  deriving DecidableEq, Repr

/-- Calls by which a service client acts on its surroundings. -/
inductive Effect (V : Type) where
  /-- `m_Client.UPnPEventOccurredEvent.connect(..., this)`. -/
  | connect
  /-- `m_Client.UPnPEventOccurredEvent.disconnect(this)`. -/
  | disconnect
  /-- `m_Client.subscribeToService(url, timeout, ...)`. -/
  | subscribeToService (publisherUrl : String) (timeout : Int)
  /-- `m_Client.unsubscribeFromService(sid)`. -/
  | unsubscribeFromService (sid : String)
  /-- `m_Client.downloadXmlDocument(url)`. -/
  | downloadXmlDocument (url : String)
  /-- `m_Client.sendAction(action)`. -/
  | sendAction (action : Action)
  /-- The virtual `handleStateVariableEvent(changedVariable, variables)`. -/
  | handleStateVariableEvent (changedVariable : V) (vars : List (V × String))
  /-- The signal `StateVariableEvent(changedVariable, variables)`. -/
  | StateVariableEvent (changedVariable : V) (vars : List (V × String))
  /-- The signal `LastChangeEvent(variables)` of the AVTransport client. -/
  | LastChangeEvent (vars : List (V × String))
  deriving DecidableEq, Repr

/-- State variable descriptor of an SCPD, reduced to its name. -/
structure StateVariable where
  /-- Name of the variable. -/
  name : String
  deriving DecidableEq, Repr

/-- The `IClient` a service client talks to.  Its implementation is not part of the service
client: each operation is a transition of an arbitrary client state `κ` that either returns or
throws. `D` is the type of XML documents. -/
structure IClient (κ D : Type) where
  /-- `subscribeToService(url, timeout, callback, cookie)`; the outcome arrives through the
  callback. -/
  subscribeToServiceCb : String → Int → κ → Except Thrown Unit × κ
  /-- `subscribeToService(url, timeout)`, returning the subscription id. -/
  subscribeToService : String → Int → κ → Except Thrown String × κ
  /-- `unsubscribeFromService(sid)`. -/
  unsubscribeFromService : String → κ → Except Thrown Unit × κ
  /-- `downloadXmlDocument(url)`. -/
  downloadXmlDocument : String → κ → Except Thrown D × κ
  /-- `sendAction(action)`. -/
  sendAction : Action → κ → Except Thrown D × κ

/-- The XML wrapper (`upnpxmlutils.h`, not among the sources) as the service client uses it:
documents `D`, elements `E`.  Every operation may throw. -/
structure XmlAdapter (D E : Type) where
  /-- `xml::Document(const std::string&)`: parse a text. -/
  parse : String → Except Thrown D
  /-- `Document::getFirstChild()`. -/
  getFirstChild : D → Except Thrown E
  /-- `Element::getChildNodes()`. -/
  getChildNodes : E → Except Thrown (List E)
  /-- `Element::getName()`. -/
  getName : E → Except Thrown String
  /-- `Element::getValue()`. -/
  getValue : E → Except Thrown String
  /-- `Element::getAttribute(name)`. -/
  getAttribute : E → String → Except Thrown String
  /-- `Element::getChildElement(name)`. -/
  getChildElement : E → String → Except Thrown E
  /-- `Element::toString()`. -/
  toString : E → Except Thrown String
  /-- `xml::utils::getActionsFromDescription(doc)`. -/
  getActionsFromDescription : D → Except Thrown (List String)
  /-- `xml::utils::getStateVariablesFromDescription(doc)`. -/
  getStateVariablesFromDescription : D → Except Thrown (List StateVariable)

/-- The virtual member functions a concrete service client supplies. -/
structure ServiceTraits (A V : Type) where
  /-- `actionFromString`; throws on an unknown name. -/
  actionFromString : String → Except Thrown A
  /-- `actionToString`. -/
  actionToString : A → String
  /-- `variableFromString`; throws on an unknown name. -/
  variableFromString : String → Except Thrown V
  /-- `variableToString`. -/
  variableToString : V → String
  /-- `getType`. -/
  getType : ServiceType
  /-- `getSubscriptionTimeout`, in seconds. -/
  getSubscriptionTimeout : Int
  /-- `handleStateVariableEvent`: the signals the override emits (none in the base class). -/
  handleStateVariableEvent : V → List (V × String) → List (Effect V)
  /-- `handleUPnPResult`. -/
  handleUPnPResult : Int → Except Thrown Unit

/-- Data members of `ServiceClientBase<ActionType, VariableType>`. -/
structure ServiceClientBase (A V : Type) where
  /-- `m_StateVariables`. -/
  m_StateVariables : List StateVariable := []
  /-- `m_Service`. -/
  m_Service : Service := {}
  /-- `m_SupportedActions`. -/
  m_SupportedActions : StdSet A := StdSet.empty
  /-- `m_SubscriptionId`. -/
  m_SubscriptionId : String := ""

/-- A service client in its surroundings: the object, the state of its `IClient`, the calls made
so far (oldest first) and the lines logged so far. -/
structure State (κ A V : Type) where
  /-- The service client object. -/
  self : ServiceClientBase A V
  /-- State of the `IClient`. -/
  client : κ
  /-- Calls made, oldest first. -/
  calls : List (Effect V) := []
  /-- Lines logged, oldest first. -/
  log : List (LogLevel × String) := []

/-- Record a call. -/
def State.called {κ A V : Type} (s : State κ A V) (e : Effect V) : State κ A V :=
  { s with calls := s.calls ++ [e] }

/-- Record a log line. -/
def State.logged {κ A V : Type} (s : State κ A V) (l : LogLevel) (msg : String) : State κ A V :=
  { s with log := s.log ++ [(l, msg)] }

/-- `UPNP_E_SUCCESS` of the UPnP SDK header `upnp/upnp.h`. -/
def UPNP_E_SUCCESS : Int := 0

/-! ## `ServiceClientBase::executeAction` -/

/-- Lines 182-186 of `upnpserviceclientbase.h`: the `Action` built from the action type and the
argument map; the loop visits the map from `begin()` to `end()`. -/
def ServiceClientBase.buildAction {A V : Type} (traits : ServiceTraits A V)
    (self : ServiceClientBase A V) (actionType : A) (args : StdMap String String) : Action :=
  args.entries.foldl (fun action arg => action.addArgument arg.1 arg.2)
    (Action.new (traits.actionToString actionType) self.m_Service.m_ControlURL traits.getType)

/-- How a call of `executeAction` ends. -/
inductive ExecResult (D : Type) where
  /-- `return m_Client.sendAction(action)`. -/
  | returned (doc : D)
  /-- An exception leaves the function. -/
  | raised (e : Thrown)
  /-- Control reaches `assert(false); return xml::Document();`. -/
  | assertFalse
  deriving DecidableEq, Repr

/-- `ServiceClientBase::executeAction(actionType, args)`.  Only a `UPnPException` is caught; it
is handed to `handleUPnPResult`. -/
def ServiceClientBase.executeAction {κ D A V : Type} (traits : ServiceTraits A V)
    (client : IClient κ D) (actionType : A) (args : StdMap String String)
    (s : State κ A V) : ExecResult D × State κ A V :=
  let action := ServiceClientBase.buildAction traits s.self actionType args
  let s₁ := s.called (Effect.sendAction action)
  match client.sendAction action s₁.client with
  | (Except.ok doc, c) => (ExecResult.returned doc, { s₁ with client := c })
  | (Except.error (Thrown.upnp errorCode _), c) =>
    match traits.handleUPnPResult errorCode with
    | Except.error e => (ExecResult.raised e, { s₁ with client := c })
    | Except.ok () => (ExecResult.assertFalse, { s₁ with client := c })
  | (Except.error (Thrown.other w), c) => (ExecResult.raised (Thrown.other w), { s₁ with client := c })

/-! ## Subscriptions of a service client -/

/-- `ServiceClientBase::unsubscribe()`.  The subscription id is cleared after
`unsubscribeFromService` has returned; an exception of that call leaves the function. -/
def ServiceClientBase.unsubscribe {κ D A V : Type} (client : IClient κ D)
    (s : State κ A V) : Except Thrown Unit × State κ A V :=
  if s.self.m_SubscriptionId = "" then (Except.ok (), s)
  else
    let s₁ := (s.called Effect.disconnect).called
      (Effect.unsubscribeFromService s.self.m_SubscriptionId)
    match client.unsubscribeFromService s.self.m_SubscriptionId s₁.client with
    | (Except.error e, k) => (Except.error e, { s₁ with client := k })
    | (Except.ok (), k) =>
      (Except.ok (), { s₁ with client := k, self := { s₁.self with m_SubscriptionId := "" } })

/-- Lines 73-74, the first statement of `subscribe()`:
`try { unsubscribe(); } catch (std::exception& e) { utils::log::warn(e.what()); }`. -/
def ServiceClientBase.subscribeTeardown {κ D A V : Type} (client : IClient κ D)
    (s : State κ A V) : Except Thrown Unit × State κ A V :=
  match ServiceClientBase.unsubscribe client s with
  | (Except.ok (), s₁) => (Except.ok (), s₁)
  | (Except.error e, s₁) => (Except.ok (), s₁.logged LogLevel.warn e.what)

/-- `ServiceClientBase::subscribe()`. -/
def ServiceClientBase.subscribe {κ D A V : Type} (traits : ServiceTraits A V)
    (client : IClient κ D) (s : State κ A V) : Except Thrown Unit × State κ A V :=
  match ServiceClientBase.subscribeTeardown client s with
  | (Except.error e, s₁) => (Except.error e, s₁)
  | (Except.ok (), s₁) =>
    let s₂ := (s₁.called Effect.connect).called
      (Effect.subscribeToService s₁.self.m_Service.m_EventSubscriptionURL
        traits.getSubscriptionTimeout)
    match client.subscribeToServiceCb s₁.self.m_Service.m_EventSubscriptionURL
        traits.getSubscriptionTimeout s₂.client with
    | (Except.error e, k) => (Except.error e, { s₂ with client := k })
    | (Except.ok (), k) => (Except.ok (), { s₂ with client := k })

/-- The destructor `~ServiceClientBase()`:
`try { unsubscribe(); } catch (std::exception& e) { utils::log::error(e.what()); }`. -/
def ServiceClientBase.destructor {κ D A V : Type} (client : IClient κ D)
    (s : State κ A V) : Except Thrown Unit × State κ A V :=
  match ServiceClientBase.unsubscribe client s with
  | (Except.ok (), s₁) => (Except.ok (), s₁)
  | (Except.error e, s₁) => (Except.ok (), s₁.logged LogLevel.error e.what)

/-! ## Service description (`setDevice`) -/

/-- A device, reduced to its services (`m_Services`, a map from service type to service). -/
structure Device where
  /-- Entries of `m_Services`. -/
  m_Services : List (ServiceType × Service)

/-- Modelled from the spec: `Device::implementsService` (`upnpdevice.h`) is not among the
sources.  The spec: "Device descriptor: ... services: map<ServiceType, Service>" and "if the
device implements this service type": the device has a service of that type, types being
compared by `ServiceType::operator==`, that is by tag. -/
def Device.implementsService (d : Device) (t : ServiceType) : Bool :=
  d.m_Services.any (fun p => decide (p.1.type = t.type))

/-- `device->m_Services[type]`: the service stored under the type (a default `Service` when
there is none). -/
def Device.service (d : Device) (t : ServiceType) : Service :=
  match d.m_Services.find? (fun p => decide (p.1.type = t.type)) with
  | some p => p.2
  | none => {}

/-- `ServiceClientBase::supportsAction`. -/
def ServiceClientBase.supportsAction {A V : Type} [StdKey A] (self : ServiceClientBase A V)
    (action : A) : Bool :=
  self.m_SupportedActions.contains action

/-- Lines 106-116: the loop over the action names of the description; a name that
`actionFromString` rejects is logged and skipped. -/
def ServiceClientBase.insertActions {κ A V : Type} [StdKey A] (traits : ServiceTraits A V) :
    List String → State κ A V → State κ A V
  | [], s => s
  | action :: rest, s =>
    match traits.actionFromString action with
    | Except.ok a =>
      ServiceClientBase.insertActions traits rest
        { s with self := { s.self with m_SupportedActions := s.self.m_SupportedActions.insert a } }
    | Except.error e =>
      ServiceClientBase.insertActions traits rest (s.logged LogLevel.error e.what)

/-- Lines 105-118: the body of the `try` block of `parseServiceDescription`. -/
def ServiceClientBase.parseServiceDescriptionBody {κ D E A V : Type} [StdKey A]
    (traits : ServiceTraits A V) (xml : XmlAdapter D E) (client : IClient κ D)
    (descriptionUrl : String) (s : State κ A V) : Except Thrown Unit × State κ A V :=
  let s₁ := s.called (Effect.downloadXmlDocument descriptionUrl)
  match client.downloadXmlDocument descriptionUrl s₁.client with
  | (Except.error e, k) => (Except.error e, { s₁ with client := k })
  | (Except.ok doc, k) =>
    match xml.getActionsFromDescription doc with
    | Except.error e => (Except.error e, { s₁ with client := k })
    | Except.ok actions =>
      let s₂ := ServiceClientBase.insertActions traits actions { s₁ with client := k }
      match xml.getStateVariablesFromDescription doc with
      | Except.error e => (Except.error e, s₂)
      | Except.ok vars => (Except.ok (), { s₂ with self := { s₂.self with m_StateVariables := vars } })

/-- `ServiceClientBase::parseServiceDescription`: the body above inside
`try { ... } catch (std::exception& e) { utils::log::error(e.what()); }`. -/
def ServiceClientBase.parseServiceDescription {κ D E A V : Type} [StdKey A]
    (traits : ServiceTraits A V) (xml : XmlAdapter D E) (client : IClient κ D)
    (descriptionUrl : String) (s : State κ A V) : Except Thrown Unit × State κ A V :=
  match ServiceClientBase.parseServiceDescriptionBody traits xml client descriptionUrl s with
  | (Except.ok (), s₁) => (Except.ok (), s₁)
  | (Except.error e, s₁) => (Except.ok (), s₁.logged LogLevel.error e.what)

/-- `ServiceClientBase::setDevice`. -/
def ServiceClientBase.setDevice {κ D E A V : Type} [StdKey A]
    (traits : ServiceTraits A V) (xml : XmlAdapter D E) (client : IClient κ D)
    (device : Device) (s : State κ A V) : Except Thrown Unit × State κ A V :=
  if device.implementsService traits.getType then
    ServiceClientBase.parseServiceDescription traits xml client
      (device.service traits.getType).m_SCPDUrl
      { s with self := { s.self with m_Service := device.service traits.getType } }
  else (Except.ok (), s)

/-! ## Events of a service client (`eventOccurred`) -/

/-- `Upnp_Event` of the UPnP SDK: the subscription id and the changed variables, a parsed
document. -/
structure Upnp_Event (D : Type) where
  /-- `Sid`. -/
  Sid : String
  /-- `ChangedVariables`. -/
  ChangedVariables : D

/-- Lines 140-144: the changed variable and the `InstanceID` node of its value. -/
def ServiceClientBase.instanceIDNode {D E A V : Type} (traits : ServiceTraits A V)
    (xml : XmlAdapter D E) (var : E) : Except Thrown (V × E) :=
  match xml.getName var with
  | Except.error e => Except.error e
  | Except.ok name =>
    match traits.variableFromString name with
    | Except.error e => Except.error e
    | Except.ok changedVar =>
      match xml.getValue var with
      | Except.error e => Except.error e
      | Except.ok value =>
        match xml.parse value with
        | Except.error e => Except.error e
        | Except.ok changeDoc =>
          match xml.getFirstChild changeDoc with
          | Except.error e => Except.error e
          | Except.ok eventNode =>
            match xml.getChildElement eventNode "InstanceID" with
            | Except.error e => Except.error e
            | Except.ok node => Except.ok (changedVar, node)

/-- Lines 147-152: the loop over the children of the `InstanceID` node, filling `vars`. -/
def ServiceClientBase.insertVars {κ D E A V : Type} [StdKey V] (traits : ServiceTraits A V)
    (xml : XmlAdapter D E) :
    List E → StdMap V String → State κ A V → Except Thrown (StdMap V String) × State κ A V
  | [], vars, s => (Except.ok vars, s)
  | elem :: rest, vars, s =>
    match xml.getAttribute elem "val" with
    | Except.error e => (Except.error e, s)
    | Except.ok str =>
      match xml.getName elem with
      | Except.error e => (Except.error e, s)
      | Except.ok name =>
        match traits.variableFromString name with
        | Except.error e => (Except.error e, s.logged LogLevel.debug (name ++ " " ++ str))
        | Except.ok v =>
          ServiceClientBase.insertVars traits xml rest (vars.insert v str)
            (s.logged LogLevel.debug (name ++ " " ++ str))

/-- Lines 140-158: the body of the inner `try` block, for one changed variable. -/
def ServiceClientBase.variableChanged {κ D E A V : Type} [StdKey V] (traits : ServiceTraits A V)
    (xml : XmlAdapter D E) (var : E) (s : State κ A V) : Except Thrown Unit × State κ A V :=
  match ServiceClientBase.instanceIDNode traits xml var with
  | Except.error e => (Except.error e, s)
  | Except.ok (changedVar, node) =>
    match xml.getChildNodes node with
    | Except.error e => (Except.error e, s)
    | Except.ok elems =>
      match ServiceClientBase.insertVars traits xml elems StdMap.empty s with
      | (Except.error e, s₁) => (Except.error e, s₁)
      | (Except.ok vars, s₁) =>
        (Except.ok (),
          { s₁ with calls := s₁.calls
              ++ [Effect.handleStateVariableEvent changedVar vars.entries]
              ++ traits.handleStateVariableEvent changedVar vars.entries
              ++ [Effect.StateVariableEvent changedVar vars.entries] })

/-- Lines 138-164: the inner `try` block with its handler; the handler logs and calls
`var.toString()`, whose exception leaves the block. -/
def ServiceClientBase.variableChangedGuarded {κ D E A V : Type} [StdKey V]
    (traits : ServiceTraits A V) (xml : XmlAdapter D E) (var : E) (s : State κ A V) :
    Except Thrown Unit × State κ A V :=
  match ServiceClientBase.variableChanged traits xml var s with
  | (Except.ok (), s₁) => (Except.ok (), s₁)
  | (Except.error e, s₁) =>
    match xml.toString var with
    | Except.error e' =>
      (Except.error e', s₁.logged LogLevel.warn ("Unknown event variable ignored: " ++ e.what))
    | Except.ok text =>
      (Except.ok (),
        (s₁.logged LogLevel.warn ("Unknown event variable ignored: " ++ e.what)).logged
          LogLevel.debug text)

/-- Lines 136-165: the loop over the children of one property. -/
def ServiceClientBase.eachVariable {κ D E A V : Type} [StdKey V] (traits : ServiceTraits A V)
    (xml : XmlAdapter D E) : List E → State κ A V → Except Thrown Unit × State κ A V
  | [], s => (Except.ok (), s)
  | var :: rest, s =>
    match ServiceClientBase.variableChangedGuarded traits xml var s with
    | (Except.error e, s₁) => (Except.error e, s₁)
    | (Except.ok (), s₁) => ServiceClientBase.eachVariable traits xml rest s₁

/-- Lines 134-166: the loop over the properties of the property set. -/
def ServiceClientBase.eachProperty {κ D E A V : Type} [StdKey V] (traits : ServiceTraits A V)
    (xml : XmlAdapter D E) : List E → State κ A V → Except Thrown Unit × State κ A V
  | [], s => (Except.ok (), s)
  | property :: rest, s =>
    match xml.getChildNodes property with
    | Except.error e => (Except.error e, s)
    | Except.ok vars =>
      match ServiceClientBase.eachVariable traits xml vars s with
      | (Except.error e, s₁) => (Except.error e, s₁)
      | (Except.ok (), s₁) => ServiceClientBase.eachProperty traits xml rest s₁

/-- Lines 132-166: the body of the outer `try` block. -/
def ServiceClientBase.eventOccurredBody {κ D E A V : Type} [StdKey V]
    (traits : ServiceTraits A V) (xml : XmlAdapter D E) (pEvent : Upnp_Event D)
    (s : State κ A V) : Except Thrown Unit × State κ A V :=
  match xml.getFirstChild pEvent.ChangedVariables with
  | Except.error e => (Except.error e, s)
  | Except.ok propertySet =>
    match xml.getChildNodes propertySet with
    | Except.error e => (Except.error e, s)
    | Except.ok properties => ServiceClientBase.eachProperty traits xml properties s

/-- `ServiceClientBase::eventOccurred(pEvent)`. -/
def ServiceClientBase.eventOccurred {κ D E A V : Type} [StdKey V]
    (traits : ServiceTraits A V) (xml : XmlAdapter D E) (pEvent : Upnp_Event D)
    (s : State κ A V) : Except Thrown Unit × State κ A V :=
  if pEvent.Sid = s.self.m_SubscriptionId then
    match ServiceClientBase.eventOccurredBody traits xml pEvent s with
    | (Except.ok (), s₁) => (Except.ok (), s₁)
    | (Except.error e, s₁) =>
      (Except.ok (), s₁.logged LogLevel.error ("Failed to parse event: " ++ e.what))
  else (Except.ok (), s)

/-! ## Subscription callback of a service client (`eventCb`) -/

/-- `Upnp_EventType` of the UPnP SDK, as far as `eventCb` tells its values apart. -/
inductive Upnp_EventType where
  | UPNP_EVENT_SUBSCRIBE_COMPLETE
  | UPNP_EVENT_AUTORENEWAL_FAILED
  | UPNP_EVENT_SUBSCRIPTION_EXPIRED
  | UPNP_EVENT_RENEWAL_COMPLETE
  | other (value : Int)
  deriving DecidableEq, Repr

/-- `Upnp_Event_Subscribe` of the UPnP SDK.  `Sid` is `none` for a null pointer. -/
structure Upnp_Event_Subscribe where
  /-- `Sid`. -/
  Sid : Option String
  /-- `ErrCode`. -/
  ErrCode : Int
  /-- `PublisherUrl`. -/
  PublisherUrl : String
  /-- `TimeOut`. -/
  TimeOut : Int := 0

/-- `ServiceClientBase::eventCb(eventType, pEvent, pInstance)`, `pInstance` being the service
client of the state; the value is the `int` returned. -/
def ServiceClientBase.eventCb {κ D A V : Type} (traits : ServiceTraits A V)
    (client : IClient κ D) (eventType : Upnp_EventType) (pEvent : Upnp_Event_Subscribe)
    (s : State κ A V) : Except Thrown Int × State κ A V :=
  match eventType with
  | Upnp_EventType.UPNP_EVENT_SUBSCRIBE_COMPLETE =>
    if pEvent.ErrCode ≠ UPNP_E_SUCCESS then
      (Except.ok 0,
        s.logged LogLevel.error
          ("Error in Event Subscribe Callback: " ++ toString pEvent.ErrCode))
    else
      match pEvent.Sid with
      | some sid => (Except.ok 0, { s with self := { s.self with m_SubscriptionId := sid } })
      | none =>
        (Except.ok 0,
          ({ s with self := { s.self with m_SubscriptionId := "" } }).logged LogLevel.error
            "Subscription id for device is empty")
  | Upnp_EventType.UPNP_EVENT_AUTORENEWAL_FAILED
  | Upnp_EventType.UPNP_EVENT_SUBSCRIPTION_EXPIRED =>
    let s₁ := s.called
      (Effect.subscribeToService pEvent.PublisherUrl traits.getSubscriptionTimeout)
    match client.subscribeToService pEvent.PublisherUrl traits.getSubscriptionTimeout
        s₁.client with
    | (Except.ok sid, k) =>
      (Except.ok 0, { s₁ with client := k, self := { s₁.self with m_SubscriptionId := sid } })
    | (Except.error e, k) =>
      (Except.ok 0,
        ({ s₁ with client := k }).logged LogLevel.error
          ("Failed to renew event subscription: " ++ e.what))
  | Upnp_EventType.UPNP_EVENT_RENEWAL_COMPLETE => (Except.ok 0, s)
  | Upnp_EventType.other value =>
    (Except.ok 0, s.logged LogLevel.info ("Unhandled action: " ++ toString value))

/-! ## The event-callback table of `Client2` -/

/-- `SubscriptionEvent` of `upnp.types.h`. -/
structure SubscriptionEvent where
  /-- Subscription id. -/
  sid : String
  /-- Body of the notification. -/
  data : String
  /-- Sequence number, a `uint32_t`. -/
  sequence : Nat := 0
  deriving DecidableEq, Repr

/-- The members of `Client2` that take part in event dispatch.  `C` is the type of the
registered callbacks; calling one is recorded, not performed. -/
structure Client2 (C : Type) where
  /-- Address (ip, port) of the event server, when `m_eventServer` is set. -/
  m_eventServer : Option (String × Nat)
  /-- `m_eventCallbacks`: subscription id to callback; the sources use it through `find` and
  `emplace`. -/
  m_eventCallbacks : StdMap String C

/-- `Client2::handlEvent(event)`: the callbacks invoked, each with its argument, and the client
afterwards. -/
def Client2.handlEvent {C : Type} (c : Client2 C) (event : SubscriptionEvent) :
    List (C × SubscriptionEvent) × Client2 C :=
  match c.m_eventCallbacks.find event.sid with
  | some callback => ([(callback, event)], c)
  | none => ([], c)

/-- The callback `Client2::initialize` hands to the event server (lines 52-58). -/
def Client2.eventServerCallback {C : Type} (c : Client2 C) (ev : SubscriptionEvent) :
    List (C × SubscriptionEvent) × Client2 C :=
  match c.m_eventCallbacks.find ev.sid with
  | some callback => ([(callback, ev)], c)
  | none => ([], c)

/-- What the HTTP client reports when a SUBSCRIBE request completes. -/
structure SubscribeReply where
  /-- Status. -/
  status : Int
  /-- Subscription id issued. -/
  subId : String
  /-- Timeout granted, in seconds. -/
  timeout : Int
  /-- Response text. -/
  response : String

/-- `Client2::subscribeToService(publisherUrl, timeout, cb)`, the request completing with
`reply`: the callback `cb(status, subId, timeout)` is stored under the subscription id. -/
def Client2.subscribeToService {C : Type} (c : Client2 C) (_publisherUrl : String)
    (_timeout : Int) (cb : Int → String → Int → C) (reply : SubscribeReply) :
    Except Thrown (Client2 C) :=
  match c.m_eventServer with
  | none => Except.error (Thrown.other "UPnP library is not properly initialized")
  | some _ =>
    Except.ok
      { c with m_eventCallbacks :=
          c.m_eventCallbacks.insert reply.subId (cb reply.status reply.subId reply.timeout) }

/-- `Client2::unsubscribeFromService(publisherUrl, subscriptionId, cb)`, the request completing
with `status`: the status handed to `cb`, and the client afterwards. -/
def Client2.unsubscribeFromService {C : Type} (c : Client2 C) (_publisherUrl : String)
    (_subscriptionId : String) (status : Int) (_response : String) : Int × Client2 C :=
  (status, c)

/-! ## The AVTransport client -/

namespace AVTransport

/-- `AVTransport::Action`: the enumerators named in the sources (the declaring header
`upnpavtransporttypes.h` is not among them). -/
inductive Action where
  | SetAVTransportURI
  | SetNextAVTransportURI
  | GetMediaInfo
  | GetTransportInfo
  | GetPositionInfo
  | GetDeviceCapabilities
  | GetTransportSettings
  | Stop
  | Play
  | Pause
  | Record
  | Seek
  | Next
  | Previous
  | SetPlayMode
  | SetRecordQualityMode
  | GetCurrentTransportActions
  | GetMediaInfoExt
  | GetDRMState
  | GetStateVariables
  | SetStateVariables
  | GetSyncOffset
  | AdjustSyncOffset
  | SetSyncOffset
  | SyncPlay
  | SyncStop
  | SyncPause
  | SetStaticPlaylist
  | SetStreamingPlaylist
  | GetPlaylistInfo
  deriving DecidableEq, Repr

/-- `AVTransport::Variable`: the enumerators named in the sources. -/
inductive Variable where
  | TransportState
  | TransportStatus
  | CurrentMediaCategory
  | PlaybackStorageMedium
  | RecordStorageMedium
  | PossiblePlaybackStorageMedia
  | PossibleRecordStorageMedia
  | CurrentPlayMode
  | TransportPlaySpeed
  | RecordMediumWriteStatus
  | CurrentRecordQualityMode
  | PossibleRecordQualityModes
  | NumberOfTracks
  | CurrentTrack
  | CurrentTrackDuration
  | CurrentMediaDuration
  | CurrentTrackMetaData
  | CurrentTrackURI
  | AVTransportURI
  | AVTransportURIMetaData
  | NextAVTransportURI
  | NextAVTransportURIMetaData
  | RelativeTimePosition
  | AbsoluteTimePosition
  | RelativeCounterPosition
  | AbsoluteCounterPosition
  | CurrentTransportActions
  | LastChange
  | DRMState
  | SyncOffset
  deriving DecidableEq, Repr

/-- Underlying value of an enumerator (position in the declaration above; the order in the
missing header is not known and nothing below depends on it). -/
def Variable.toNat (v : Variable) : Nat := v.toCtorIdx

instance instStdKeyVariable : StdKey Variable where
  rank v := [v.toNat]
  rank_inj a b h := by
    cases a <;> cases b <;> first | rfl | (exact absurd h (by decide))

/-- Underlying value of an enumerator of `Action` (position in the declaration above). -/
def Action.toNat (a : Action) : Nat := a.toCtorIdx

instance instStdKeyAction : StdKey Action where
  rank a := [a.toNat]
  rank_inj a b h := by
    cases a <;> cases b <;> first | rfl | (exact absurd h (by decide))

/-- `g_subscriptionTimeout`, in seconds. -/
def g_subscriptionTimeout : Int := 1801

/-- `Client::handleStateVariableEvent`: a `LastChange` event is passed on through the
`LastChangeEvent` signal. -/
def Client.handleStateVariableEvent (var : Variable) (vars : List (Variable × String)) :
    List (Effect Variable) :=
  if var = Variable.LastChange then [Effect.LastChangeEvent vars] else []

/-- `Client::handleUPnPResult`.  `generic` is `upnp::handleUPnPResult` of `upnputils.h`, which
is not among the sources. -/
def Client.handleUPnPResult (generic : Int → Except Thrown Unit) (errorCode : Int) :
    Except Thrown Unit :=
  if errorCode = UPNP_E_SUCCESS then Except.ok ()
  else
    match errorCode with
    | 701 => Except.error (Thrown.upnp errorCode "Playback transition not supported at this moment")
    | 702 => Except.error (Thrown.upnp errorCode "No content found in media item")
    | 703 => Except.error (Thrown.upnp errorCode "The media could not be read")
    | 704 => Except.error (Thrown.upnp errorCode "Storage format not supported by the device")
    | 705 => Except.error (Thrown.upnp errorCode "The device is locked")
    | 706 => Except.error (Thrown.upnp errorCode "Error when writing media")
    | 707 => Except.error (Thrown.upnp errorCode "Media is not writable")
    | 708 => Except.error (Thrown.upnp errorCode "Format is not supported for recording")
    | 709 => Except.error (Thrown.upnp errorCode "The media is full")
    | 710 => Except.error (Thrown.upnp errorCode "Seek mode is not supported")
    | 711 => Except.error (Thrown.upnp errorCode "Illegal seek target")
    | 712 => Except.error (Thrown.upnp errorCode "Play mode is not supported")
    | 713 => Except.error (Thrown.upnp errorCode "Record quality is not supported")
    | 714 => Except.error (Thrown.upnp errorCode "Unsupported MIME-type")
    | 715 => Except.error (Thrown.upnp errorCode "Resource is already being played")
    | 716 => Except.error (Thrown.upnp errorCode "Resource not found")
    | 717 => Except.error (Thrown.upnp errorCode "Play speed not supported")
    | 718 => Except.error (Thrown.upnp errorCode "Invalid instance id")
    | _ => generic errorCode

/-- The virtual functions of `AVTransport::Client`.  `base` supplies the overrides whose bodies
are not among the sources (the string conversions and `getType`); the others are the ones of
`upnp.avtransport.client.cpp`. -/
def Client.traits (base : ServiceTraits Action Variable) (generic : Int → Except Thrown Unit) :
    ServiceTraits Action Variable :=
  { base with
    getSubscriptionTimeout := g_subscriptionTimeout
    handleStateVariableEvent := Client.handleStateVariableEvent
    handleUPnPResult := Client.handleUPnPResult generic }

/-- Arguments `Client::setAVTransportURI` lists for `executeAction`, as written. -/
def Client.setAVTransportURIArgs (connectionId : Int) (uri uriMetaData : String) :
    List (String × String) :=
  [("InstanceID", toString connectionId), ("CurrentURI", uri), ("CurrentURIMetaData", uriMetaData)]

/-- `Client::setAVTransportURI`: the braced list becomes the `std::map` parameter of
`executeAction`. -/
def Client.setAVTransportURI {κ D : Type} (traits : ServiceTraits Action Variable)
    (client : IClient κ D) (connectionId : Int) (uri uriMetaData : String)
    (s : State κ Action Variable) : ExecResult D × State κ Action Variable :=
  ServiceClientBase.executeAction traits client Action.SetAVTransportURI
    (StdMap.ofList (Client.setAVTransportURIArgs connectionId uri uriMetaData)) s

/-- `Client::play`. -/
def Client.play {κ D : Type} (traits : ServiceTraits Action Variable)
    (client : IClient κ D) (connectionId : Int) (speed : String)
    (s : State κ Action Variable) : ExecResult D × State κ Action Variable :=
  ServiceClientBase.executeAction traits client Action.Play
    (StdMap.ofList [("InstanceID", toString connectionId), ("Speed", speed)]) s

end AVTransport

/-! ## The HTTP client (`upnp.http.client.cpp`)

The client runs on an asio `io_service`.  The model keeps the asio objects it owns (socket,
timer) as plain data and follows asio's rules for them: closing a socket or cancelling a timer
completes the outstanding operation with `operation_aborted`, and a completion handler runs
when the `io_service` dispatches it. -/

namespace http

/-- Values of an `asio::error_code`, as far as the client tells them apart. -/
inductive AsioError where
  | success
  | timed_out
  | operation_aborted
  | other (value : Int)
  deriving DecidableEq, Repr

/-- `upnp::http::error::ErrorCode`.  The three named errors are the ones the client raises
itself; `status` stands for a value made from an HTTP status by `error::ErrorCode(status)`. -/
inductive error.ErrorCode where
  | Timeout
  | NetworkError
  | InvalidResponse
  | status (code : Nat)
  deriving DecidableEq, Repr

/-- A `std::error_code`: a value of asio's categories or of the HTTP error category. -/
inductive StdErrorCode where
  | asio (e : AsioError)
  | http (e : error.ErrorCode)
  deriving DecidableEq, Repr

/-- `explicit operator bool` of `std::error_code`: the value is not zero.  Every asio value
but `success` is an error, and the three named HTTP errors are taken to be non-zero. -/
def StdErrorCode.isError : StdErrorCode → Bool
  | StdErrorCode.asio AsioError.success => false
  | StdErrorCode.asio _ => true
  | StdErrorCode.http (error.ErrorCode.status n) => decide (n ≠ 0)
  | StdErrorCode.http _ => true

/-- `Method` of the HTTP client; `other` stands for a value that is none of the enumerators
`methodToString` names. -/
inductive Method where
  | Head
  | Notify
  | Search
  | Subscribe
  | Unsubscribe
  | Get
  | Post
  | other (value : Nat)
  deriving DecidableEq, Repr

/-- The parts of the `URI` the client reads. -/
structure URI where
  /-- `getPath()`. -/
  path : String
  /-- `getAuthority()`. -/
  authority : String
  deriving DecidableEq, Repr

/-- Socket operations that can be outstanding. -/
inductive IoOp where
  | connect
  | write
  | receive
  deriving DecidableEq, Repr

/-- What `m_parser.parse(data, bytesReceived)` does with the bytes received. -/
inductive ParseResult where
  /-- The parser throws. -/
  | raised (what : String)
  /-- The parser returns `processed`; `completed` is the status of the response when the
  message was completed by these bytes (the completion hook set by `perform` then runs),
  `isCompleted` the value of `isCompleted()` afterwards, `connectionClose` whether the
  Connection header starts with "close". -/
  | parsed (processed : Nat) (completed : Option Nat) (isCompleted : Bool)
      (connectionClose : Bool)
  deriving DecidableEq, Repr

/-- Completion handlers the `io_service` may run. -/
inductive Handler where
  /-- The handler given to `async_connect`. -/
  | connect (error : AsioError)
  /-- The handler given to `async_write`. -/
  | write (error : AsioError)
  /-- The handler given to `async_receive`, with what the parser will do with the bytes. -/
  | receive (error : AsioError) (bytesReceived : Nat) (result : ParseResult)
  /-- The handler given to `m_timer.async_wait`, that is `checkTimeout`. -/
  | timer (ec : AsioError)
  deriving DecidableEq, Repr

/-- `http::Client` during one request. -/
structure Client where
  /-- `m_timeout`, in milliseconds. -/
  m_timeout : Nat := 60000
  /-- `m_uri`. -/
  m_uri : URI
  /-- `m_request`, the request line. -/
  m_request : String := ""
  /-- `m_headers`. -/
  m_headers : List String := []
  /-- The steady clock, in milliseconds. -/
  now : Nat := 0
  /-- `m_socket.is_open()`. -/
  socketOpen : Bool := false
  /-- The operation outstanding on `m_socket`. -/
  pendingOp : Option IoOp := none
  /-- `m_timer.expires_at()`; `none` is `time_point::max()`. -/
  timerExpiry : Option Nat := none
  /-- Whether an `async_wait` is outstanding on `m_timer`. -/
  timerWaiting : Bool := false
  /-- Handlers ready to run, oldest first. -/
  ready : List Handler := []
  /-- The error codes handed to the completion callback of `perform`, oldest first. -/
  reported : List StdErrorCode := []
  deriving DecidableEq, Repr

/-- `convertError`. -/
def convertError (err : AsioError) : StdErrorCode :=
  if err = AsioError.timed_out then StdErrorCode.http error.ErrorCode.Timeout
  else StdErrorCode.http error.ErrorCode.NetworkError

/-- The completion callback of `perform` is called with `e`. -/
def Client.report (c : Client) (e : StdErrorCode) : Client :=
  { c with reported := c.reported ++ [e] }

/-- The callback `perform` hands to `performRequest`:
`[cb] (const asio::error_code& error) { if (error) cb(error, ""); }`. -/
def Client.cb (c : Client) (err : StdErrorCode) : Client :=
  if err.isError then c.report err else c

/-- `invokeCallbackOnError(error, cb)`. -/
def Client.invokeCallbackOnError (c : Client) (err : AsioError) : Bool × Client :=
  if err = AsioError.success then (false, c) else (true, c.cb (convertError err))

/-- `m_timer.cancel()`: an outstanding wait completes with `operation_aborted`. -/
def Client.timerCancel (c : Client) : Client :=
  if c.timerWaiting then
    { c with timerWaiting := false, ready := c.ready ++ [Handler.timer AsioError.operation_aborted] }
  else c

/-- `m_timer.expires_from_now(m_timeout)`: cancels an outstanding wait and moves the expiry. -/
def Client.timerExpiresFromNow (c : Client) : Client :=
  { c.timerCancel with timerExpiry := some (c.now + c.m_timeout) }

/-- `m_timer.expires_at(time_point::max())`. -/
def Client.timerExpiresAtMax (c : Client) : Client :=
  { c.timerCancel with timerExpiry := none }

/-- `m_timer.async_wait(...)`. -/
def Client.timerAsyncWait (c : Client) : Client :=
  { c with timerWaiting := true }

/-- The handler of an operation aborted by closing the socket. -/
def abortedHandler : IoOp → Handler
  | IoOp.connect => Handler.connect AsioError.operation_aborted
  | IoOp.write => Handler.write AsioError.operation_aborted
  | IoOp.receive =>
    Handler.receive AsioError.operation_aborted 0 (ParseResult.parsed 0 none false false)

/-- `m_socket.close(error)`: the outstanding operation completes with `operation_aborted`. -/
def Client.socketClose (c : Client) : Client :=
  { c with
    socketOpen := false
    pendingOp := none
    ready := c.ready ++ (match c.pendingOp with
      | some op => [abortedHandler op]
      | none => []) }

/-- `m_timer.expires_at() <= std::chrono::steady_clock::now()`. -/
def Client.deadlinePassed (c : Client) : Bool :=
  match c.timerExpiry with
  | some t => decide (t ≤ c.now)
  | none => false

/-- `Client::checkTimeout(ec)`. -/
def Client.checkTimeout (c : Client) (ec : AsioError) : Client :=
  if ec = AsioError.operation_aborted then c
  else if c.deadlinePassed then c.socketClose.timerExpiresAtMax
  else c.timerAsyncWait

/-- `Client::receiveData(cb)`. -/
def Client.receiveData (c : Client) : Client :=
  { c.timerExpiresFromNow with pendingOp := some IoOp.receive }

/-- `Client::performRequest(addr, buffers, cb)`; `closeError` and `openError` are what
`m_socket.close` and `m_socket.open` report. -/
def Client.performRequest (c : Client) (closeError openError : AsioError) : Client :=
  if closeError ≠ AsioError.success then c.cb (StdErrorCode.asio closeError)
  else if openError ≠ AsioError.success then c.socketClose.cb (StdErrorCode.asio openError)
  else
    { ({ c.socketClose with socketOpen := true }).timerExpiresFromNow with
      pendingOp := some IoOp.connect
      timerWaiting := true }

/-- The body of a completion handler. -/
def Client.run (c : Client) : Handler → Client
  | Handler.connect err =>
    if c.socketOpen = false then c.cb (StdErrorCode.http error.ErrorCode.Timeout)
    else
      match c.timerCancel.invokeCallbackOnError err with
      | (true, c₁) => c₁
      | (false, c₁) => { c₁ with pendingOp := some IoOp.write }
  | Handler.write err =>
    match c.invokeCallbackOnError err with
    | (true, c₁) => c₁
    | (false, c₁) => c₁.receiveData
  | Handler.receive err bytesReceived result =>
    match c.timerCancel.invokeCallbackOnError err with
    | (true, c₁) => c₁
    | (false, c₁) =>
      match result with
      | ParseResult.raised _ => c₁.cb (StdErrorCode.http error.ErrorCode.InvalidResponse)
      | ParseResult.parsed processed completed isCompleted connectionClose =>
        let c₂ := match completed with
          | some status => c₁.report (StdErrorCode.http (error.ErrorCode.status status))
          | none => c₁
        if processed ≠ bytesReceived then
          c₂.cb (StdErrorCode.http error.ErrorCode.InvalidResponse)
        else if isCompleted = false then c₂.receiveData
        else if connectionClose then c₂.socketClose
        else c₂
  | Handler.timer ec => c.checkTimeout ec

/-- What can happen next on the `io_service`. -/
inductive Step where
  /-- Time passes. -/
  | tick (dt : Nat)
  /-- The oldest ready handler runs. -/
  | dispatch
  /-- The wait on `m_timer` completes: possible when a wait is outstanding and the expiry
  time is reached. -/
  | timerExpires
  /-- The outstanding connect completes. -/
  | connected (error : AsioError)
  /-- The outstanding write completes. -/
  | written (error : AsioError)
  /-- The outstanding receive completes. -/
  | received (error : AsioError) (bytesReceived : Nat) (result : ParseResult)
  deriving DecidableEq, Repr

/-- One step of the `io_service`; a step that is not possible leaves the client as it is. -/
def Client.step (c : Client) : Step → Client
  | Step.tick dt => { c with now := c.now + dt }
  | Step.dispatch =>
    match c.ready with
    | [] => c
    | h :: rest => ({ c with ready := rest }).run h
  | Step.timerExpires =>
    if c.timerWaiting && c.deadlinePassed then
      ({ c with timerWaiting := false }).run (Handler.timer AsioError.success)
    else c
  | Step.connected err =>
    if c.pendingOp = some IoOp.connect then
      ({ c with pendingOp := none }).run (Handler.connect err)
    else c
  | Step.written err =>
    if c.pendingOp = some IoOp.write then
      ({ c with pendingOp := none }).run (Handler.write err)
    else c
  | Step.received err bytesReceived result =>
    if c.pendingOp = some IoOp.receive then
      ({ c with pendingOp := none }).run (Handler.receive err bytesReceived result)
    else c

/-- A sequence of steps. -/
def Client.steps (c : Client) (l : List Step) : Client :=
  l.foldl Client.step c

/-- Steps in which the peer takes no part: time passing, the timer, the dispatch of ready
handlers. -/
def Step.isLocal : Step → Bool
  | Step.tick _ => true
  | Step.dispatch => true
  | Step.timerExpires => true
  | _ => false

/-- `methodToString`; any other value throws `std::invalid_argument`. -/
def methodToString : Method → Except Thrown String
  | Method.Head => Except.ok "HEAD"
  | Method.Notify => Except.ok "NOTIFY"
  | Method.Search => Except.ok "M-SEARCH"
  | Method.Subscribe => Except.ok "SUBSCRIBE"
  | Method.Unsubscribe => Except.ok "UNSUBSCRIBE"
  | Method.Get => Except.ok "GET"
  | Method.Post => Except.ok "POST"
  | Method.other _ => Except.error (Thrown.other "Invalid http method provided")

/-- `Client::setMethodType(method)`: the request line and the Host header. -/
def Client.setMethodType (c : Client) (method : Method) : Except Thrown Client :=
  match methodToString method with
  | Except.error e => Except.error e
  | Except.ok token =>
    Except.ok
      { c with
        m_request := token ++ " " ++ c.m_uri.path ++ " HTTP/1.1\r\n"
        m_headers := c.m_headers ++ ["Host:" ++ c.m_uri.authority ++ "\r\n"] }

/-- `Client::perform(method, cb)`: the request is prepared and started; an exception of
`setMethodType` leaves the function. -/
def Client.perform (c : Client) (method : Method) (closeError openError : AsioError) :
    Except Thrown Client :=
  match c.setMethodType method with
  | Except.error e => Except.error e
  | Except.ok c₁ => Except.ok (c₁.performRequest closeError openError)

end http

/-! ## `Client2::initialize` -/

/-- `uv::InterfaceAddress`, reduced to what `Client2::initialize` reads: the name, whether the
address is an IPv4 address, and `address.address4`. -/
structure InterfaceAddress where
  /-- `name`. -/
  name : String
  /-- `isIpv4()`. -/
  isIpv4 : Bool
  /-- `address.address4`, as the text of the address. -/
  address4 : String
  deriving DecidableEq, Repr

/-- The method `Client2::initialize(interfaceName, port)`, run over the list of network
interfaces: the loop stops at the first IPv4 interface with the name and creates the event
server on its address with the port; when the loop ends the function throws.  The value pairs
the outcome with the client afterwards. -/
def Client2.initialise {C : Type} (c : Client2 C) (interfaceName : String) (port : Nat) :
    List InterfaceAddress → Except Thrown Unit × Client2 C
  | [] =>
    (Except.error
      (Thrown.other ("Could not find network interface with name: " ++ interfaceName)), c)
  | intf :: rest =>
    if intf.isIpv4 && decide (intf.name = interfaceName) then
      (Except.ok (), { c with m_eventServer := some (intf.address4, port) })
    else Client2.initialise c interfaceName port rest

/-- Lines 86-93 of `Client2::subscribeToService`: the SUBSCRIBE request handed to the HTTP
client, as (publisher URL, callback URL, timeout); without an event server the function throws
before any request. -/
def Client2.subscribeRequest {C : Type} (c : Client2 C) (publisherUrl : String)
    (timeout : Int) : Except Thrown (String × String × Int) :=
  match c.m_eventServer with
  | none => Except.error (Thrown.other "UPnP library is not properly initialized")
  | some addr =>
    Except.ok (publisherUrl, "http://" ++ addr.1 ++ ":" ++ toString addr.2 ++ "/", timeout)

/-! ## The service host (`DeviceService`) -/

instance instStdKeyNat : StdKey Nat where
  rank n := [n]
  rank_inj a b h := by simpa using h

/-- Assignment through `operator[]` in the entry list of a `std::map` (`m[k] = v`): the value
of an equivalent key is replaced, a new key is inserted at its place. -/
def assignEntries {K V : Type} [StdKey K] (k : K) (v : V) : List (K × V) → List (K × V)
  | [] => [(k, v)]
  | (k', v') :: rest =>
    if keyLess k k' then (k, v) :: (k', v') :: rest
    else if keyLess k' k then (k', v') :: assignEntries k v rest
    else (k', v) :: rest

/-- `m[k] = v`. -/
def StdMap.assign {K V : Type} [StdKey K] (m : StdMap K V) (k : K) (v : V) : StdMap K V :=
  ⟨assignEntries k v m.entries⟩

/-- Modelled from the spec: `ServiceVariable` (`upnpservicevariable.h`) is not among the
sources.  The spec: "ServiceVariable: {name, value, attributes: ordered list of (name,value)}".
A default-constructed variable is empty. -/
structure ServiceVariable where
  /-- Name. -/
  name : String := ""
  /-- Value, `getValue()`. -/
  value : String := ""
  /-- Attributes, in the order added. -/
  attributes : List (String × String) := []
  deriving DecidableEq, Repr

/-- Modelled from the spec: `ServiceVariable::addAttribute`, appending to the ordered list of
attributes. -/
def ServiceVariable.addAttribute (v : ServiceVariable) (name value : String) : ServiceVariable :=
  { v with attributes := v.attributes ++ [(name, value)] }

/-- Modelled from the spec: nodes of the XML wrapper's documents (`upnpxmlutils.h` is not among
the sources; the spec: "XML adapter: minimal DOM with element creation, child append, attribute
set, named-child lookup, serialization").  An element has a name, attributes in the order set
and children in the order appended; `createNode(text)` makes a text node. -/
inductive XmlNode where
  | element (name : String) (attributes : List (String × String)) (children : List XmlNode)
  | text (value : String)

/-- An `xml::Document` built by the host: its children in the order appended. -/
structure XmlDocument where
  /-- Children of the document node. -/
  children : List XmlNode

/-- The functions of `upnp.types.h` and of the XML utilities that the host calls and whose
bodies are not among the sources. -/
structure HostFunctions where
  /-- `serviceTypeToUrnIdString`. -/
  serviceTypeToUrnIdString : ServiceType → String
  /-- `serviceTypeToUrnMetadataString`. -/
  serviceTypeToUrnMetadataString : ServiceType → String
  /-- `xml::utils::serviceVariableToElement(doc, variable)`. -/
  serviceVariableToElement : ServiceVariable → XmlNode
  /-- `Element::toString()`. -/
  toString : XmlNode → String

/-- What a service host does to its surroundings. -/
inductive HostEffect where
  /-- `m_RootDevice.notifyEvent(serviceId, doc)`. -/
  | notifyEvent (serviceId : String) (doc : XmlDocument)
  /-- `m_LastChange.addChangedVariable(instanceId, variable)`. -/
  | addChangedVariable (instanceId : Nat) (changed : ServiceVariable)

/-- `DeviceService<VariableType>`: its type, its variable store `m_Variables` (instance id to
variable to value) and the calls it has made, oldest first. -/
structure DeviceService (V : Type) where
  /-- `m_Type`. -/
  m_Type : ServiceType
  /-- `m_Variables`. -/
  m_Variables : StdMap Nat (StdMap V ServiceVariable)
  /-- Calls made, oldest first. -/
  calls : List HostEffect := []

/-- The constructor `DeviceService(dev, type)`: instance 0 is created, empty. -/
def DeviceService.new {V : Type} (type : ServiceType) : DeviceService V :=
  { m_Type := type, m_Variables := ⟨[(0, StdMap.empty)]⟩ }

/-- `m_Variables[id]` read through `operator[]`: the variables of the instance, empty when the
instance is new. -/
def DeviceService.instanceVars {V : Type} (d : DeviceService V) (id : Nat) :
    StdMap V ServiceVariable :=
  match d.m_Variables.find id with
  | some vars => vars
  | none => StdMap.empty

/-- `m_Variables[id][var] = sv`; both subscripts create what is missing. -/
def DeviceService.store {V : Type} [StdKey V] (d : DeviceService V) (id : Nat) (var : V)
    (sv : ServiceVariable) : DeviceService V :=
  { d with m_Variables := d.m_Variables.assign id ((d.instanceVars id).assign var sv) }

/-- `setVariable(var, value)`. -/
def DeviceService.setVariable {V : Type} [StdKey V] (variableToString : V → String)
    (d : DeviceService V) (var : V) (value : String) : DeviceService V :=
  d.store 0 var { name := variableToString var, value := value }

/-- `setVariable(var, value, attrName, attrValue)`. -/
def DeviceService.setVariableAttr {V : Type} [StdKey V] (variableToString : V → String)
    (d : DeviceService V) (var : V) (value attrName attrValue : String) : DeviceService V :=
  d.store 0 var
    (ServiceVariable.addAttribute { name := variableToString var, value := value }
      attrName attrValue)

/-- `setInstanceVariable(id, var, value, attrName, attrValue)`. -/
def DeviceService.setInstanceVariableAttr {V : Type} [StdKey V] (variableToString : V → String)
    (d : DeviceService V) (id : Nat) (var : V) (value attrName attrValue : String) :
    DeviceService V :=
  d.store id var
    (ServiceVariable.addAttribute { name := variableToString var, value := value }
      attrName attrValue)

/-- Modelled from the spec: the overload `setInstanceVariable(id, var, value)` that the
AVTransport service calls is declared in a version of `upnpdeviceservice.h` that is not among
the sources.  The spec: "`setVariable(var, value [, attrName, attrValue])` and
`setInstanceVariable(id, var, value[, attr])`": as the overload with an attribute, without the
attribute. -/
def DeviceService.setInstanceVariable {V : Type} [StdKey V] (variableToString : V → String)
    (d : DeviceService V) (id : Nat) (var : V) (value : String) : DeviceService V :=
  d.store id var { name := variableToString var, value := value }

/-- `getVariable(var)`, that is `m_Variables[0][var]`: the variable read, and the service
afterwards (a variable that was missing has been created, default-constructed). -/
def DeviceService.getVariable {V : Type} [StdKey V] (d : DeviceService V) (var : V) :
    ServiceVariable × DeviceService V :=
  match (d.instanceVars 0).find var with
  | some sv => (sv, d)
  | none => ({}, d.store 0 var {})

/-- `getInstanceVariable(id, var)`, that is `m_Variables.at(id)[var]`: `at` throws
`std::out_of_range` for a missing instance; a missing variable is created,
default-constructed. -/
def DeviceService.getInstanceVariable {V : Type} [StdKey V] (d : DeviceService V) (id : Nat)
    (var : V) : Except Thrown ServiceVariable × DeviceService V :=
  match d.m_Variables.find id with
  | none => (Except.error (Thrown.other "map::at"), d)
  | some vars =>
    match vars.find var with
    | some sv => (Except.ok sv, d)
    | none => (Except.ok {}, d.store id var {})

/-- `getVariables()`: the variables of instance 0, by name; `at(0)` throws for a missing
instance. -/
def DeviceService.getVariables {V : Type} (variableToString : V → String)
    (d : DeviceService V) : Except Thrown (StdMap String String) :=
  match d.m_Variables.find 0 with
  | none => Except.error (Thrown.other "map::at")
  | some vars =>
    Except.ok (StdMap.ofList (vars.entries.map (fun p => (variableToString p.1, p.2.value))))

/-- Calls that set variables of a service host.  `assign` stands for any other assignment
`m_Variables[id][var] = sv`, such as the one of the `setVariable` overload for integral values
(instance 0, the variable made from `std::to_string(value)`). -/
inductive DeviceService.Op (V : Type) where
  | setVariable (var : V) (value : String)
  | setVariableAttr (var : V) (value attrName attrValue : String)
  | setInstanceVariable (id : Nat) (var : V) (value : String)
  | setInstanceVariableAttr (id : Nat) (var : V) (value attrName attrValue : String)
  | assign (id : Nat) (var : V) (sv : ServiceVariable)

/-- One call. -/
def DeviceService.apply {V : Type} [StdKey V] (variableToString : V → String)
    (d : DeviceService V) : DeviceService.Op V → DeviceService V
  | DeviceService.Op.setVariable var value => d.setVariable variableToString var value
  | DeviceService.Op.setVariableAttr var value an av =>
    d.setVariableAttr variableToString var value an av
  | DeviceService.Op.setInstanceVariable id var value =>
    d.setInstanceVariable variableToString id var value
  | DeviceService.Op.setInstanceVariableAttr id var value an av =>
    d.setInstanceVariableAttr variableToString id var value an av
  | DeviceService.Op.assign id var sv => d.store id var sv

/-- A sequence of calls on a newly constructed service. -/
def DeviceService.afterCalls {V : Type} [StdKey V] (variableToString : V → String)
    (type : ServiceType) (ops : List (DeviceService.Op V)) : DeviceService V :=
  ops.foldl (DeviceService.apply variableToString) (DeviceService.new type)

/-- Conversion of a `uint32_t` to the `int32_t` parameter of `addPropertyToElement`. -/
def toInt32 (n : Nat) : Int :=
  if n % 2 ^ 32 < 2 ^ 31 then ((n % 2 ^ 32 : Nat) : Int) else ((n % 2 ^ 32 : Nat) : Int) - 2 ^ 32

/-- Conversion of an `int32_t` to the `uint32_t` key of `m_Variables`. -/
def toUInt32 (i : Int) : Nat :=
  (i % 2 ^ 32).toNat

/-- `addPropertyToElement(instanceId, var, elem)`: the `e:property` element appended to
`elem`, and the service afterwards; `at(instanceId)` throws for a missing instance, and the
subscript creates a missing variable. -/
def DeviceService.addPropertyToElement {V : Type} [StdKey V] (variableToString : V → String)
    (d : DeviceService V) (instanceId : Int) (var : V) :
    Except Thrown XmlNode × DeviceService V :=
  match d.getInstanceVariable (toUInt32 instanceId) var with
  | (Except.error e, d₁) => (Except.error e, d₁)
  | (Except.ok stored, d₁) =>
    (Except.ok
      (XmlNode.element "e:property" []
        [XmlNode.element (variableToString var) [] [XmlNode.text stored.value]]), d₁)

/-- `notifyVariableChange(var, instanceId)`. -/
def DeviceService.notifyVariableChange {V : Type} [StdKey V] (f : HostFunctions)
    (variableToString : V → String) (d : DeviceService V) (var : V) (instanceId : Nat) :
    Except Thrown Unit × DeviceService V :=
  match d.addPropertyToElement variableToString (toInt32 instanceId) var with
  | (Except.error e, d₁) => (Except.error e, d₁)
  | (Except.ok property, d₁) =>
    (Except.ok (),
      { d₁ with calls := d₁.calls ++
          [HostEffect.notifyEvent (f.serviceTypeToUrnIdString d₁.m_Type)
            ⟨[XmlNode.element "e:propertyset" [] [property]]⟩] })

namespace AVTransport

/-- `Service::getSubscriptionResponse()`. -/
def Service.getSubscriptionResponse (f : HostFunctions) (d : DeviceService Variable) :
    XmlDocument :=
  ⟨[XmlNode.element "e:propertyset" [("xmlns:e", "urn:schemas-upnp-org:event-1-0")]
    [XmlNode.element "e:property" []
      [XmlNode.element "LastChange" []
        [XmlNode.text
          (f.toString
            (XmlNode.element "Event" [("xmlns", f.serviceTypeToUrnMetadataString d.m_Type)]
              (d.m_Variables.entries.map (fun vars =>
                XmlNode.element "InstanceID" [("val", toString vars.1)]
                  (vars.2.entries.map (fun var => f.serviceVariableToElement var.2))))))]]]]⟩

/-- The variables `Service::setInstanceVariable` keeps out of LastChange. -/
def Service.isPosition (var : Variable) : Bool :=
  decide (var = Variable.RelativeTimePosition) || decide (var = Variable.AbsoluteTimePosition) ||
    decide (var = Variable.RelativeCounterPosition) ||
    decide (var = Variable.AbsoluteCounterPosition)

/-- `Service::setInstanceVariable(id, var, value)`. -/
def Service.setInstanceVariable (variableToString : Variable → String)
    (d : DeviceService Variable) (id : Nat) (var : Variable) (value : String) :
    Except Thrown Unit × DeviceService Variable :=
  match d.getInstanceVariable id var with
  | (Except.error e, d₁) => (Except.error e, d₁)
  | (Except.ok stored, d₁) =>
    if stored.value = value then (Except.ok (), d₁)
    else
      let d₂ := d₁.setInstanceVariable variableToString id var value
      if Service.isPosition var then (Except.ok (), d₂)
      else
        (Except.ok (),
          { d₂ with calls := d₂.calls ++
              [HostEffect.addChangedVariable id { name := variableToString var, value := value }] })

end AVTransport

/-! ## Roots of the documents a host sends -/

/-- Attributes of a node, in the order set; a text node has none. -/
def XmlNode.attributes : XmlNode → List (String × String)
  | XmlNode.element _ attributes _ => attributes
  | XmlNode.text _ => []

/-- Name of a node; a text node has none. -/
def XmlNode.name : XmlNode → String
  | XmlNode.element name _ _ => name
  | XmlNode.text _ => ""

/-- Value of the attribute `name` of a node, when it has one. -/
def XmlNode.attribute (n : XmlNode) (name : String) : Option String :=
  (n.attributes.find? (fun p => decide (p.1 = name))).map Prod.snd

/-- The root element of a document: its first child. -/
def XmlDocument.root (doc : XmlDocument) : Option XmlNode :=
  doc.children.head?

/-- The root of the document is an `e:propertyset` that carries
`xmlns:e="urn:schemas-upnp-org:event-1-0"`. -/
def XmlDocument.isEventPropertySet (doc : XmlDocument) : Bool :=
  match doc.root with
  | some root =>
    decide (root.name = "e:propertyset") &&
      decide (root.attribute "xmlns:e" = some "urn:schemas-upnp-org:event-1-0")
  | none => false

/-- The entry of the variable store for an instance and a variable, read without creating
anything (`find` on both maps). -/
def DeviceService.entry {V : Type} [StdKey V] (d : DeviceService V) (id : Nat) (var : V) :
    Option ServiceVariable :=
  match d.m_Variables.find id with
  | some vars => vars.find var
  | none => none

/-! ## `vectorToCSV` -/

/-- One round of the loop of `vectorToCSV`: `ss` is the text in the stream so far. -/
def vectorToCSVStep (ss item : String) : String :=
  (if ¬ ss = "" then ss ++ "," else ss) ++ item

/-- `DeviceService::vectorToCSV(items)`. -/
def vectorToCSV (items : List String) : String :=
  items.foldl vectorToCSVStep ""

/-- `DeviceService::vectorToCSV(items, toStringFunc)`. -/
def vectorToCSVWith {T : Type} (items : List T) (toStringFunc : T → String) : String :=
  items.foldl (fun ss item => (if ¬ ss = "" then ss ++ "," else ss) ++ toStringFunc item) ""

/-! ## The AVTransport service: `onAction` and `getStateVariables` -/

/-- Modelled from the spec: the exceptions on the side of the service host.
`InvalidActionException` and `InvalidStateVariableListException` are declared in a header that is
not among the sources; they are taken to derive from `upnp::Exception`, and so, as every
exception class of the code base, from `std::exception`.  `exception` stands for any other
`upnp::Exception`, `standard` for an exception of the standard library that is no
`upnp::Exception` (the `std::out_of_range` of `map::at`, the `std::invalid_argument` of
`std::stoul`). -/
inductive HostThrown where
  | InvalidActionException
  | InvalidStateVariableListException
  | exception (what : String)
  | standard (what : String)
  deriving DecidableEq, Repr

/-- Whether a handler `catch (Exception&)` catches the exception. -/
def HostThrown.isException : HostThrown → Bool
  | HostThrown.standard _ => false
  | _ => true

/-- Modelled from the spec: `ActionResponse` (its header is not among the sources).  The spec:
"a response is an ordered list of (argName, value)". -/
structure ActionResponse where
  /-- Name of the action answered. -/
  name : String
  /-- Type of the service that answers. -/
  serviceType : ServiceType.Tag
  /-- Arguments, in the order added. -/
  arguments : List (String × String) := []
  deriving DecidableEq, Repr

/-- Modelled from the spec: `ActionResponse::addArgument`, appending to the ordered list. -/
def ActionResponse.addArgument (r : ActionResponse) (name value : String) : ActionResponse :=
  { r with arguments := r.arguments ++ [(name, value)] }

/-- Modelled from the spec: `getVariables(id)`, which `Service::getStateVariables` calls, is
declared in a version of `upnpdeviceservice.h` that is not among the sources; it is
`getVariables()` of the header at hand, which reads instance 0, for the instance `id`: the
variables of the instance by name, `at(id)` throwing for a missing instance. -/
def DeviceService.getVariablesOf {V : Type} (variableToString : V → String)
    (d : DeviceService V) (id : Nat) : Except Thrown (StdMap String String) :=
  match d.m_Variables.find id with
  | none => Except.error (Thrown.other "map::at")
  | some vars =>
    Except.ok (StdMap.ofList (vars.entries.map (fun p => (variableToString p.1, p.2.value))))

namespace AVTransport

/-- Calls of `onAction` to the transport implementation (`IAVTransport`, `IAVTransport3`), with
their arguments.  The values of the enumerations `SeekMode`, `PlayMode`, `PlaylistStep` and
`PlaylistType`, whose header is not among the sources, are numbers. -/
inductive TransportCall where
  | setAVTransportURI (id : Nat) (uri metaData : String)
  | setNextAVTransportURI (id : Nat) (uri metaData : String)
  | stop (id : Nat)
  | play (id : Nat) (speed : String)
  | pause (id : Nat)
  | record (id : Nat)
  | seek (id : Nat) (mode : Nat) (target : String)
  | next (id : Nat)
  | previous (id : Nat)
  | setPlayMode (id : Nat) (mode : Nat)
  | setRecordQualityMode (id : Nat) (mode : String)
  | adjustSyncOffset (id : Nat) (adjustment : String)
  | setSyncOffset (id : Nat) (offset : String)
  | syncPlay (id : Nat) (speed : String) (units : Nat) (position time clockId : String)
  | syncStop (id : Nat) (time clockId : String)
  | syncPause (id : Nat) (time clockId : String)
  | setStaticPlaylist (id : Nat) (data : String) (offset totalLength : Nat)
      (mimeType extendedType startObj startGroup : String)
  | setStreamingPlaylist (id : Nat) (data mimeType extendedType : String) (step : Nat)
  | getPlaylistInfo (id : Nat) (type : Nat)
  deriving DecidableEq, Repr

/-- What `Service::onAction` and `Service::getStateVariables` use and the sources do not
contain: the string conversions, the XML wrapper of the request (`Doc` a document, `R` an
element), `std::stoul`, `csvToVector`, and the transport implementation, each of whose calls
returns or throws (`getPlaylistInfo` returns a text). -/
structure ServiceEnv (Doc R : Type) where
  /-- `actionFromString`. -/
  actionFromString : String → Except HostThrown Action
  /-- `variableFromString`. -/
  variableFromString : String → Except HostThrown Variable
  /-- `variableToString`. -/
  variableToString : Variable → String
  /-- `Document::getFirstChild()`. -/
  getFirstChild : Doc → Except HostThrown R
  /-- `Element::getChildNodeValue(name)`. -/
  getChildNodeValue : R → String → Except HostThrown String
  /-- `std::stoul`: the value, an `unsigned long`. -/
  stoul : String → Except HostThrown Nat
  /-- `seekModeFromString`. -/
  seekModeFromString : String → Except HostThrown Nat
  /-- `playModeFromString`. -/
  playModeFromString : String → Except HostThrown Nat
  /-- `playlistStepFromString`. -/
  playlistStepFromString : String → Except HostThrown Nat
  /-- `playlistTypeFromString`. -/
  playlistTypeFromString : String → Except HostThrown Nat
  /-- `csvToVector`. -/
  csvToVector : String → List String
  /-- `Document::toString()`. -/
  documentToString : XmlDocument → String
  /-- Whether `m_avTransport3` is set: the implementation is an `IAVTransport3`. -/
  m_avTransport3 : Bool
  /-- The transport implementation. -/
  transport : TransportCall → Except HostThrown String

/-- An `AVTransport::Service`: the variable store of its `DeviceService` and the calls it has
made to the transport implementation, oldest first. -/
structure ServiceState where
  /-- The `DeviceService` part. -/
  store : DeviceService Variable
  /-- Calls to `m_avTransport` and `m_avTransport3`, oldest first. -/
  transportCalls : List TransportCall := []

/-- A run of statements `response.addArgument(name, getInstanceVariable(id, var).getValue())`,
one for each pair of `args`. -/
def Service.addVariableArguments (id : Nat) :
    List (String × Variable) → ActionResponse → DeviceService Variable →
      Except HostThrown ActionResponse × DeviceService Variable
  | [], response, d => (Except.ok response, d)
  | (name, var) :: rest, response, d =>
    match d.getInstanceVariable id var with
    | (Except.error e, d₁) => (Except.error (HostThrown.standard e.what), d₁)
    | (Except.ok sv, d₁) =>
      Service.addVariableArguments id rest (response.addArgument name sv.value) d₁

/-- A case of the switch that answers with state variables. -/
def Service.respond (st : ServiceState) (id : Nat) (response : ActionResponse)
    (args : List (String × Variable)) : Except HostThrown ActionResponse × ServiceState :=
  match Service.addVariableArguments id args response st.store with
  | (r, d) => (r, { st with store := d })

/-- A case of the switch that calls the transport implementation: the arguments of the call
are evaluated (`call`), the call is made, and `answer` makes the response from what the call
returns. -/
def Service.invoke {Doc R : Type} (env : ServiceEnv Doc R) (st : ServiceState)
    (answer : String → ActionResponse) (call : Except HostThrown TransportCall) :
    Except HostThrown ActionResponse × ServiceState :=
  match call with
  | Except.error e => (Except.error e, st)
  | Except.ok c =>
    match env.transport c with
    | Except.error e => (Except.error e, { st with transportCalls := st.transportCalls ++ [c] })
    | Except.ok result =>
      (Except.ok (answer result), { st with transportCalls := st.transportCalls ++ [c] })

/-- Lines 296-299 of `getStateVariables`: the loop over the names of the list. -/
def Service.collectVariables {Doc R : Type} (env : ServiceEnv Doc R) (id : Nat) :
    List String → StdMap String String → DeviceService Variable →
      Except HostThrown (StdMap String String) × DeviceService Variable
  | [], vars, d => (Except.ok vars, d)
  | var :: rest, vars, d =>
    match env.variableFromString var with
    | Except.error e => (Except.error e, d)
    | Except.ok v =>
      match d.getInstanceVariable id v with
      | (Except.error e, d₁) => (Except.error (HostThrown.standard e.what), d₁)
      | (Except.ok sv, d₁) =>
        Service.collectVariables env id rest (vars.insert var sv.value) d₁

/-- The test of line 304: the name is "LastChange" or starts with "A_ARG_TYPE_". -/
def Service.isExcluded (name : String) : Bool :=
  decide (name = "LastChange") || "A_ARG_TYPE_".toList.isPrefixOf name.toList

/-- One round of the loop of lines 302-315.  `iter` is the position of the iterator in `vars`
and `pairs` the children of the element `stateVariableValuePairs` so far.  The result is `none`
when `iter` is the end of `vars`, so the loop is left, and else the iterator and the children
after the round: neither the `continue` nor the end of the body moves the iterator, and the
`for` statement has no increment. -/
def Service.stateVariablesRound (vars : List (String × String)) (iter : Nat)
    (pairs : List XmlNode) : Option (Nat × List XmlNode) :=
  match vars.get? iter with
  | none => none
  | some entry =>
    if Service.isExcluded entry.1 then some (iter, pairs)
    else
      some (iter,
        pairs ++ [XmlNode.element "stateVariable" [("variableName", entry.1)]
          [XmlNode.text entry.2]])

/-- The loop of lines 302-315, run for at most `fuel` rounds: the children of
`stateVariableValuePairs` when the loop is left within these rounds, `none` when it is still
running after them. -/
def Service.stateVariablesLoop (vars : List (String × String)) :
    Nat → Nat → List XmlNode → Option (List XmlNode)
  | 0, _, _ => none
  | fuel + 1, iter, pairs =>
    match Service.stateVariablesRound vars iter pairs with
    | none => some pairs
    | some next => Service.stateVariablesLoop vars fuel next.1 next.2

/-- Lines 286-300 of `getStateVariables`: the map `vars`. -/
def Service.collectedVariables {Doc R : Type} (env : ServiceEnv Doc R)
    (d : DeviceService Variable) (id : Nat) (variableList : String) :
    Except HostThrown (StdMap String String) × DeviceService Variable :=
  if variableList = "*" then
    match d.getVariablesOf env.variableToString id with
    | Except.error e => (Except.error (HostThrown.standard e.what), d)
    | Except.ok vars => (Except.ok vars, d)
  else Service.collectVariables env id (env.csvToVector variableList) StdMap.empty d

/-- The `try` block of `Service::getStateVariables(id, variableList)`, its loop run for at most
`fuel` rounds (`none`: the loop is still running).  The element `pairs` is created and filled
but never appended to `doc`, so the document returned has no child. -/
def Service.getStateVariablesBody {Doc R : Type} (env : ServiceEnv Doc R)
    (d : DeviceService Variable) (id : Nat) (variableList : String) (fuel : Nat) :
    Option (Except HostThrown XmlDocument × DeviceService Variable) :=
  match Service.collectedVariables env d id variableList with
  | (Except.error e, d₁) => some (Except.error e, d₁)
  | (Except.ok vars, d₁) =>
    match Service.stateVariablesLoop vars.entries fuel 0 [] with
    | none => none
    | some _ => some (Except.ok ⟨[]⟩, d₁)

/-- `Service::getStateVariables(id, variableList)`: the handler turns an `Exception` into an
`InvalidStateVariableListException`; other exceptions pass. -/
def Service.getStateVariables {Doc R : Type} (env : ServiceEnv Doc R)
    (d : DeviceService Variable) (id : Nat) (variableList : String) (fuel : Nat) :
    Option (Except HostThrown XmlDocument × DeviceService Variable) :=
  match Service.getStateVariablesBody env d id variableList fuel with
  | none => none
  | some (Except.error e, d₁) =>
    if e.isException then some (Except.error HostThrown.InvalidStateVariableListException, d₁)
    else some (Except.error e, d₁)
  | some (Except.ok doc, d₁) => some (Except.ok doc, d₁)

end AVTransport

namespace AVTransport

/-- The `switch` of `Service::onAction`, for the request element `req`, the instance `id` and
the response under construction; `fuel` bounds the loop of `getStateVariables`.  In the
arguments of a call the values of the request are read from left to right. -/
def Service.dispatch {Doc R : Type} (env : ServiceEnv Doc R) (req : R) (id : Nat)
    (response : ActionResponse) (fuel : Nat) (st : ServiceState) :
    Action → Option (Except HostThrown ActionResponse × ServiceState)
  | Action.SetAVTransportURI =>
    some (Service.invoke env st (fun _ => response) (do
      let uri ← env.getChildNodeValue req "CurrentURI"
      let metaData ← env.getChildNodeValue req "CurrentURIMetaData"
      pure (TransportCall.setAVTransportURI id uri metaData)))
  | Action.SetNextAVTransportURI =>
    some (Service.invoke env st (fun _ => response) (do
      let uri ← env.getChildNodeValue req "NextURI"
      let metaData ← env.getChildNodeValue req "NextURIMetaData"
      pure (TransportCall.setNextAVTransportURI id uri metaData)))
  | Action.GetMediaInfo =>
    some (Service.respond st id response
      [("NrTracks", Variable.NumberOfTracks),
        ("MediaDuration", Variable.CurrentMediaDuration),
        ("CurrentURI", Variable.CurrentTrackURI),
        ("CurrentURIMetaData", Variable.CurrentTrackMetaData),
        ("NextURI", Variable.NextAVTransportURI),
        ("NextURIMetaData", Variable.NextAVTransportURIMetaData),
        ("PlayMedium", Variable.PlaybackStorageMedium),
        ("RecordMedium", Variable.RecordStorageMedium),
        ("WriteStatus", Variable.RecordMediumWriteStatus)])
  | Action.GetTransportInfo =>
    some (Service.respond st id response
      [("CurrentTransportState", Variable.TransportState),
        ("CurrentTransportStatus", Variable.TransportStatus),
        ("CurrentSpeed", Variable.TransportPlaySpeed)])
  | Action.GetPositionInfo =>
    some (Service.respond st id response
      [("Track", Variable.CurrentTrack),
        ("TrackDuration", Variable.CurrentTrackDuration),
        ("TrackMetaData", Variable.CurrentTrackMetaData),
        ("TrackURI", Variable.CurrentTrackURI),
        ("RelTime", Variable.RelativeTimePosition),
        ("AbsTime", Variable.AbsoluteTimePosition),
        ("RelCount", Variable.RelativeCounterPosition),
        ("AbsCount", Variable.AbsoluteCounterPosition)])
  | Action.GetDeviceCapabilities =>
    some (Service.respond st id response
      [("PlayMedia", Variable.PossiblePlaybackStorageMedia),
        ("RecMedia", Variable.PossibleRecordStorageMedia),
        ("RecQualityModes", Variable.PossibleRecordQualityModes)])
  | Action.GetTransportSettings =>
    some (Service.respond st id response
      [("PlayMode", Variable.CurrentPlayMode),
        ("RecQualityModes", Variable.CurrentRecordQualityMode)])
  | Action.GetCurrentTransportActions =>
    some (Service.respond st id response [("Actions", Variable.CurrentTransportActions)])
  | Action.Stop =>
    some (Service.invoke env st (fun _ => response) (pure (TransportCall.stop id)))
  | Action.Play =>
    some (Service.invoke env st (fun _ => response) (do
      let speed ← env.getChildNodeValue req "Speed"
      pure (TransportCall.play id speed)))
  | Action.Pause =>
    some (Service.invoke env st (fun _ => response) (pure (TransportCall.pause id)))
  | Action.Record =>
    some (Service.invoke env st (fun _ => response) (pure (TransportCall.record id)))
  | Action.Seek =>
    some (Service.invoke env st (fun _ => response) (do
      let unit ← env.getChildNodeValue req "Unit"
      let mode ← env.seekModeFromString unit
      let target ← env.getChildNodeValue req "Target"
      pure (TransportCall.seek id mode target)))
  | Action.Next =>
    some (Service.invoke env st (fun _ => response) (pure (TransportCall.next id)))
  | Action.Previous =>
    some (Service.invoke env st (fun _ => response) (pure (TransportCall.previous id)))
  | Action.SetPlayMode =>
    some (Service.invoke env st (fun _ => response) (do
      let text ← env.getChildNodeValue req "NewPlayMode"
      let mode ← env.playModeFromString text
      pure (TransportCall.setPlayMode id mode)))
  | Action.SetRecordQualityMode =>
    some (Service.invoke env st (fun _ => response) (do
      let mode ← env.getChildNodeValue req "\uFFFCNewRecordQualityMode"
      pure (TransportCall.setRecordQualityMode id mode)))
  | Action.GetMediaInfoExt =>
    some (Service.respond st id response
      [("CurrentType", Variable.CurrentMediaCategory),
        ("NrTracks", Variable.NumberOfTracks),
        ("MediaDuration", Variable.CurrentMediaDuration),
        ("CurrentURI", Variable.CurrentTrackURI),
        ("CurrentURIMetaData", Variable.CurrentTrackMetaData),
        ("NextURI", Variable.NextAVTransportURI),
        ("NextURIMetaData", Variable.NextAVTransportURIMetaData),
        ("PlayMedium", Variable.PlaybackStorageMedium),
        ("RecordMedium", Variable.RecordStorageMedium),
        ("WriteStatus", Variable.RecordMediumWriteStatus)])
  | Action.GetDRMState =>
    some (Service.respond st id response [("CurrentType", Variable.DRMState)])
  | Action.GetStateVariables =>
    match env.getChildNodeValue req "StateVariableList" with
    | Except.error e => some (Except.error e, st)
    | Except.ok variableList =>
      match Service.getStateVariables env st.store id variableList fuel with
      | none => none
      | some (Except.error e, d) => some (Except.error e, { st with store := d })
      | some (Except.ok doc, d) =>
        some (Except.ok (response.addArgument "StateVariableList" (env.documentToString doc)),
          { st with store := d })
  | Action.GetSyncOffset =>
    if env.m_avTransport3 then
      some (Service.respond st id response [("CurrentSyncOffset", Variable.SyncOffset)])
    else some (Except.error HostThrown.InvalidActionException, st)
  | Action.AdjustSyncOffset =>
    if env.m_avTransport3 then
      some (Service.invoke env st (fun _ => response) (do
        let adjustment ← env.getChildNodeValue req "Adjustment"
        pure (TransportCall.adjustSyncOffset id adjustment)))
    else some (Except.error HostThrown.InvalidActionException, st)
  | Action.SetSyncOffset =>
    if env.m_avTransport3 then
      some (Service.invoke env st (fun _ => response) (do
        let offset ← env.getChildNodeValue req "NewSyncOffset"
        pure (TransportCall.setSyncOffset id offset)))
    else some (Except.error HostThrown.InvalidActionException, st)
  | Action.SyncPlay =>
    if env.m_avTransport3 then
      some (Service.invoke env st (fun _ => response) (do
        let speed ← env.getChildNodeValue req "Speed"
        let text ← env.getChildNodeValue req "ReferencePositionUnits"
        let units ← env.seekModeFromString text
        let position ← env.getChildNodeValue req "ReferencePosition"
        let time ← env.getChildNodeValue req "ReferencePresentationTime"
        let clockId ← env.getChildNodeValue req "ReferenceClockId"
        pure (TransportCall.syncPlay id speed units position time clockId)))
    else some (Except.error HostThrown.InvalidActionException, st)
  | Action.SyncStop =>
    if env.m_avTransport3 then
      some (Service.invoke env st (fun _ => response) (do
        let time ← env.getChildNodeValue req "StopTime"
        let clockId ← env.getChildNodeValue req "ReferenceClockId"
        pure (TransportCall.syncStop id time clockId)))
    else some (Except.error HostThrown.InvalidActionException, st)
  | Action.SyncPause =>
    if env.m_avTransport3 then
      some (Service.invoke env st (fun _ => response) (do
        let time ← env.getChildNodeValue req "PauseTime"
        let clockId ← env.getChildNodeValue req "ReferenceClockId"
        pure (TransportCall.syncPause id time clockId)))
    else some (Except.error HostThrown.InvalidActionException, st)
  | Action.SetStaticPlaylist =>
    if env.m_avTransport3 then
      some (Service.invoke env st (fun _ => response) (do
        let data ← env.getChildNodeValue req "PlaylistData"
        let offsetText ← env.getChildNodeValue req "PlaylistOffset"
        let offset ← env.stoul offsetText
        let lengthText ← env.getChildNodeValue req "PlaylistTotalLength"
        let totalLength ← env.stoul lengthText
        let mimeType ← env.getChildNodeValue req "PlaylistMIMEType"
        let extendedType ← env.getChildNodeValue req "PlaylistExtendedType"
        let startObj ← env.getChildNodeValue req "PlaylistStartObj"
        let startGroup ← env.getChildNodeValue req "PlaylistStartGroup"
        pure (TransportCall.setStaticPlaylist id data (offset % 2 ^ 32) (totalLength % 2 ^ 32)
          mimeType extendedType startObj startGroup)))
    else some (Except.error HostThrown.InvalidActionException, st)
  | Action.SetStreamingPlaylist =>
    if env.m_avTransport3 then
      some (Service.invoke env st (fun _ => response) (do
        let data ← env.getChildNodeValue req "PlaylistData"
        let mimeType ← env.getChildNodeValue req "PlaylistMIMEType"
        let extendedType ← env.getChildNodeValue req "PlaylistExtendedType"
        let text ← env.getChildNodeValue req "PlaylistStep"
        let step ← env.playlistStepFromString text
        pure (TransportCall.setStreamingPlaylist id data mimeType extendedType step)))
    else some (Except.error HostThrown.InvalidActionException, st)
  | Action.GetPlaylistInfo =>
    if env.m_avTransport3 then
      some (Service.invoke env st (fun info => response.addArgument "PlaylistInfo" info) (do
        let text ← env.getChildNodeValue req "PlaylistType"
        let type ← env.playlistTypeFromString text
        pure (TransportCall.getPlaylistInfo id type)))
    else some (Except.error HostThrown.InvalidActionException, st)
  | Action.SetStateVariables => some (Except.error HostThrown.InvalidActionException, st)

/-- The `try` block of `Service::onAction(action, doc)`. -/
def Service.onActionBody {Doc R : Type} (env : ServiceEnv Doc R) (action : String) (doc : Doc)
    (fuel : Nat) (st : ServiceState) : Option (Except HostThrown ActionResponse × ServiceState) :=
  match env.getFirstChild doc with
  | Except.error e => some (Except.error e, st)
  | Except.ok req =>
    match env.getChildNodeValue req "InstanceID" with
    | Except.error e => some (Except.error e, st)
    | Except.ok text =>
      match env.stoul text with
      | Except.error e => some (Except.error e, st)
      | Except.ok n =>
        match env.actionFromString action with
        | Except.error e => some (Except.error e, st)
        | Except.ok a =>
          Service.dispatch env req (n % 2 ^ 32) ⟨action, ServiceType.Tag.AVTransport, []⟩ fuel
            st a

/-- The handler of the `try` block of `onAction`: whatever the block throws is caught, every
exception class deriving from `std::exception`, and an `InvalidActionException` is thrown. -/
def Service.onActionHandler :
    Option (Except HostThrown ActionResponse × ServiceState) →
      Option (Except HostThrown ActionResponse × ServiceState)
  | none => none
  | some (Except.error _, st₁) => some (Except.error HostThrown.InvalidActionException, st₁)
  | some (Except.ok response, st₁) => some (Except.ok response, st₁)

/-- `Service::onAction(action, doc)`.  The result is `none` when the loop of
`getStateVariables` is still running after `fuel` rounds. -/
def Service.onAction {Doc R : Type} (env : ServiceEnv Doc R) (action : String) (doc : Doc)
    (fuel : Nat) (st : ServiceState) : Option (Except HostThrown ActionResponse × ServiceState) :=
  Service.onActionHandler (Service.onActionBody env action doc fuel st)

/-- The actions whose case of the switch answers with state variables of the instance. -/
def Service.readers : List Action :=
  [Action.GetMediaInfo, Action.GetTransportInfo, Action.GetPositionInfo,
    Action.GetDeviceCapabilities, Action.GetTransportSettings,
    Action.GetCurrentTransportActions, Action.GetMediaInfoExt, Action.GetDRMState,
    Action.GetSyncOffset]

/-- The actions whose case of the switch calls the transport implementation. -/
def Service.callers : List Action :=
  [Action.SetAVTransportURI, Action.SetNextAVTransportURI, Action.Stop, Action.Play,
    Action.Pause, Action.Record, Action.Seek, Action.Next, Action.Previous, Action.SetPlayMode,
    Action.SetRecordQualityMode, Action.AdjustSyncOffset, Action.SetSyncOffset, Action.SyncPlay,
    Action.SyncStop, Action.SyncPause, Action.SetStaticPlaylist, Action.SetStreamingPlaylist,
    Action.GetPlaylistInfo]

/-- The actions of AVTransport:3, the cases under the comment of line 189. -/
def Service.avTransport3Actions : List Action :=
  [Action.GetSyncOffset, Action.AdjustSyncOffset, Action.SetSyncOffset, Action.SyncPlay,
    Action.SyncStop, Action.SyncPause, Action.SetStaticPlaylist, Action.SetStreamingPlaylist,
    Action.GetPlaylistInfo]

end AVTransport

/-! ## The response decoders of the AVTransport client -/

namespace AVTransport

/-- Modelled from the spec: `MediaInfo` of `upnpavtransporttypes.h`, which is not among the
sources; the members are those `Client::getMediaInfo` assigns, a default-constructed record
holding 0 and empty texts. -/
structure MediaInfo where
  numberOfTracks : Nat := 0
  mediaDuration : String := ""
  currentURI : String := ""
  currentURIMetaData : String := ""
  nextURI : String := ""
  nextURIMetaData : String := ""
  playMedium : String := ""
  recordMedium : String := ""
  writeStatus : String := ""
  deriving DecidableEq, Repr

/-- Modelled from the spec: `PositionInfo` of `upnpavtransporttypes.h`, which is not among the
sources; the members are those `Client::getPositionInfo` assigns. -/
structure PositionInfo where
  track : Nat := 0
  trackDuration : String := ""
  trackMetaData : String := ""
  trackURI : String := ""
  relativeTime : String := ""
  absoluteTime : String := ""
  relativeCount : Int := 0
  absoluteCount : Int := 0
  deriving DecidableEq, Repr

/-- Modelled from the spec: `TransportInfo` of `upnpavtransporttypes.h`, which is not among
the sources; the members are those `Client::getTransportInfo` assigns.  The values of the
enumerations `State` and `Status` are numbers, `none` standing for the value of a
default-constructed record. -/
structure TransportInfo where
  currentTransportState : Option Nat := none
  currentTransportStatus : Option Nat := none
  currentSpeed : String := ""
  deriving DecidableEq, Repr

/-- The conversions the decoders call and the sources do not contain. -/
structure DecoderFunctions where
  /-- `xml::optionalStringToUnsignedNumeric<uint32_t>`. -/
  optionalStringToUnsignedNumeric : String → Except Thrown Nat
  /-- `xml::optionalStringToUnsignedNumeric<int32_t>`. -/
  optionalStringToUnsignedNumericInt : String → Except Thrown Int
  /-- `stateFromString`. -/
  stateFromString : String → Except Thrown Nat
  /-- `statusFromString`. -/
  statusFromString : String → Except Thrown Nat

/-- `responseNode.first_node(name)` on a response element given by its children, each a name
and a text: the text of the first child of that name; names are compared as they are. -/
def first_node (responseNode : List (String × String)) (name : String) : Option String :=
  (responseNode.find? (fun p => decide (p.1 = name))).map Prod.snd

/-- Modelled from the spec: `xml::optionalChildValue(node, name)`, whose body is not among the
sources: the text of the child when there is one and the empty text otherwise, as
`Client::getTransportInfo` does by hand for `CurrentSpeed`. -/
def optionalChildValue (responseNode : List (String × String)) (name : String) : String :=
  match first_node responseNode name with
  | some value => value
  | none => ""

/-- The callback of `Client::getMediaInfo`: the status and the record handed to `cb`, for the
status of the action and the parsed response (`response` is the result of `doc.parse` and
`doc.first_node_ref()`, which may throw). -/
def Client.getMediaInfo (f : DecoderFunctions) (status : Int)
    (response : Except Thrown (List (String × String))) : Int × MediaInfo :=
  if status = 200 then
    match response with
    | Except.error _ => (-1, {})
    | Except.ok responseNode =>
      match f.optionalStringToUnsignedNumeric (optionalChildValue responseNode "NrTracks") with
      | Except.error _ => (-1, {})
      | Except.ok numberOfTracks =>
        (200,
          { numberOfTracks := numberOfTracks
            mediaDuration := optionalChildValue responseNode "MediaDuration"
            currentURI := optionalChildValue responseNode "CurrentUri"
            currentURIMetaData := optionalChildValue responseNode "CurrentUriMetaData"
            nextURI := optionalChildValue responseNode "NextURI"
            nextURIMetaData := optionalChildValue responseNode "NextURIMetaData"
            playMedium := optionalChildValue responseNode "PlayMedium"
            recordMedium := optionalChildValue responseNode "RecordMedium"
            writeStatus := optionalChildValue responseNode "WriteStatus" })
  else (status, {})

/-- The callback of `Client::getPositionInfo`. -/
def Client.getPositionInfo (f : DecoderFunctions) (status : Int)
    (response : Except Thrown (List (String × String))) : Int × PositionInfo :=
  if status = 200 then
    match response with
    | Except.error _ => (-1, {})
    | Except.ok responseNode =>
      match f.optionalStringToUnsignedNumeric (optionalChildValue responseNode "Track") with
      | Except.error _ => (-1, {})
      | Except.ok track =>
        let info : PositionInfo :=
          { track := track
            trackDuration := optionalChildValue responseNode "TrackDuration"
            trackMetaData := optionalChildValue responseNode "TrackMetaData"
            trackURI := optionalChildValue responseNode "TrackURI"
            relativeTime := optionalChildValue responseNode "RelTime"
            absoluteTime := optionalChildValue responseNode "AbsTime" }
        match f.optionalStringToUnsignedNumericInt
            (optionalChildValue responseNode "RelCount") with
        | Except.error _ => (-1, info)
        | Except.ok relativeCount =>
          match f.optionalStringToUnsignedNumericInt
              (optionalChildValue responseNode "AbsCount") with
          | Except.error _ => (-1, { info with relativeCount := relativeCount })
          | Except.ok absoluteCount =>
            (200, { info with relativeCount := relativeCount, absoluteCount := absoluteCount })
  else (status, {})

/-- The callback of `Client::getTransportInfo`. -/
def Client.getTransportInfo (f : DecoderFunctions) (status : Int)
    (response : Except Thrown (List (String × String))) : Int × TransportInfo :=
  if status = 200 then
    match response with
    | Except.error _ => (-1, {})
    | Except.ok responseNode =>
      let state : Except Thrown (Option Nat) :=
        match first_node responseNode "CurrentTransportState" with
        | some value => (f.stateFromString value).map some
        | none => Except.ok none
      match state with
      | Except.error _ => (-1, {})
      | Except.ok currentTransportState =>
        let status₁ : Except Thrown (Option Nat) :=
          match first_node responseNode "CurrentTransportStatus" with
          | some value => (f.statusFromString value).map some
          | none => Except.ok none
        match status₁ with
        | Except.error _ => (-1, { currentTransportState := currentTransportState })
        | Except.ok currentTransportStatus =>
          (200,
            { currentTransportState := currentTransportState
              currentTransportStatus := currentTransportStatus
              currentSpeed :=
                match first_node responseNode "CurrentSpeed" with
                | some value => value
                | none => "" })
  else (status, {})

end AVTransport

/-- The text `getInstanceVariable(id, var).getValue()` gives for an instance of the store: the
value stored for the variable, and the empty value of the default-constructed variable when
there is no entry. -/
def DeviceService.valueOf {V : Type} [StdKey V] (d : DeviceService V) (id : Nat) (var : V) :
    String :=
  match d.entry id var with
  | some sv => sv.value
  | none => ""

/-! ## The control point (`upnpcontrolpoint.cpp`) -/

/-- `Resource` of `upnpitem.h`: metadata, URL and protocol info (its text). -/
structure Resource where
  /-- `m_MetaData`. -/
  m_MetaData : List (String × String) := []
  /-- `m_Url`. -/
  m_Url : String := ""
  /-- `m_ProtocolInfo`. -/
  m_ProtocolInfo : String := ""
  deriving DecidableEq, Repr

/-- `Item` of `upnpitem.h`: object id, title and resources; `Item()` has the id "0", no title
and no resource. -/
structure Item where
  /-- `m_ObjectId`. -/
  m_ObjectId : String := "0"
  /-- The title. -/
  title : String := ""
  /-- `m_Resources`. -/
  m_Resources : List Resource := []
  deriving DecidableEq, Repr

/-- `Item::addResource`. -/
def Item.addResource (item : Item) (resource : Resource) : Item :=
  { item with m_Resources := item.m_Resources ++ [resource] }

/-- Calls of the control point to the renderer, the media server and the web server. -/
inductive ControlPointCall where
  | rendererStop
  | rendererSetTransportItem (resource : Resource)
  | rendererSetNextTransportItem (resource : Resource)
  | rendererPlay
  | rendererPrepareConnection (resource : Resource)
  | rendererUseDefaultConnection
  | serverSetTransportItem (resource : Resource)
  | serverPrepareConnection (resource : Resource)
  | serverUseDefaultConnection
  | webServerAddFile (virtualDir filename contentType contents : String)
  deriving DecidableEq, Repr

/-- What the control point uses and the sources do not contain: the renderer, the media server
and the web server (their classes are declared in headers of another version or not at all)
and the clock. -/
structure ControlPointEnv where
  /-- `m_renderer.supportsPlayback(item, resource)`: the result, and the resource it leaves in
  its second argument. -/
  supportsPlayback : Item → Bool × Resource
  /-- `m_renderer.supportsConnectionPreparation()`. -/
  rendererSupportsConnectionPreparation : Bool
  /-- `server.supportsConnectionPreparation()`. -/
  serverSupportsConnectionPreparation : Bool
  /-- The resource as `server.prepareConnection` leaves it (it is passed by reference). -/
  serverPrepared : Resource → Resource
  /-- The resource as `m_renderer.prepareConnection` leaves it. -/
  rendererPrepared : Resource → Resource
  /-- Whether a call returns or throws. -/
  outcome : ControlPointCall → Except Thrown Unit
  /-- `m_pWebServer`: `none` for the null pointer, else `getWebRootUrl()`. -/
  m_pWebServer : Option String
  /-- `now.time_since_epoch().count()` of the system clock. -/
  now : Nat

/-- Calls made one after the other, up to the first that throws; `calls` are the calls made
before. -/
def ControlPoint.run (env : ControlPointEnv) :
    List ControlPointCall → List ControlPointCall → Except Thrown Unit × List ControlPointCall
  | [], calls => (Except.ok (), calls)
  | c :: rest, calls =>
    match env.outcome c with
    | Except.error e => (Except.error e, calls ++ [c])
    | Except.ok () => ControlPoint.run env rest (calls ++ [c])

/-- `ControlPoint::stopPlaybackIfNecessary()`: `m_renderer.stop()`, its exception swallowed. -/
def ControlPoint.stopPlaybackIfNecessary (calls : List ControlPointCall) :
    List ControlPointCall :=
  calls ++ [ControlPointCall.rendererStop]

/-- `ControlPoint::prepareConnection(server, resource)`: the resource afterwards. -/
def ControlPoint.prepareConnection (env : ControlPointEnv) (resource : Resource)
    (calls : List ControlPointCall) : Except Thrown Resource × List ControlPointCall :=
  if env.rendererSupportsConnectionPreparation then
    if env.serverSupportsConnectionPreparation then
      match ControlPoint.run env [ControlPointCall.serverPrepareConnection resource] calls with
      | (Except.error e, calls₁) => (Except.error e, calls₁)
      | (Except.ok (), calls₁) =>
        match ControlPoint.run env
            [ControlPointCall.rendererPrepareConnection (env.serverPrepared resource)]
            calls₁ with
        | (Except.error e, calls₂) => (Except.error e, calls₂)
        | (Except.ok (), calls₂) =>
          (Except.ok (env.rendererPrepared (env.serverPrepared resource)), calls₂)
    else
      match ControlPoint.run env [ControlPointCall.rendererPrepareConnection resource] calls with
      | (Except.error e, calls₁) => (Except.error e, calls₁)
      | (Except.ok (), calls₁) => (Except.ok (env.rendererPrepared resource), calls₁)
  else
    match ControlPoint.run env
        [ControlPointCall.serverUseDefaultConnection,
          ControlPointCall.rendererUseDefaultConnection] calls with
    | (Except.error e, calls₁) => (Except.error e, calls₁)
    | (Except.ok (), calls₁) => (Except.ok resource, calls₁)

/-- `ControlPoint::playItem(server, item)`. -/
def ControlPoint.playItem (env : ControlPointEnv) (item : Item)
    (calls : List ControlPointCall) : Except Thrown Unit × List ControlPointCall :=
  match env.supportsPlayback item with
  | (false, _) =>
    (Except.error (Thrown.other "The requested item is not supported by the renderer"), calls)
  | (true, resource) =>
    match ControlPoint.prepareConnection env resource
        (ControlPoint.stopPlaybackIfNecessary calls) with
    | (Except.error e, calls₁) => (Except.error e, calls₁)
    | (Except.ok prepared, calls₁) =>
      ControlPoint.run env
        [ControlPointCall.serverSetTransportItem prepared,
          ControlPointCall.rendererSetTransportItem prepared, ControlPointCall.rendererPlay]
        calls₁

/-- `ControlPoint::queueItem(server, item)`. -/
def ControlPoint.queueItem (env : ControlPointEnv) (item : Item)
    (calls : List ControlPointCall) : Except Thrown Unit × List ControlPointCall :=
  match env.supportsPlayback item with
  | (false, _) =>
    (Except.error (Thrown.other "The requested item is not supported by the renderer"), calls)
  | (true, resource) =>
    ControlPoint.run env [ControlPointCall.rendererSetNextTransportItem resource] calls

/-- `ControlPoint::generatePlaylistFilename()`. -/
def ControlPoint.generatePlaylistFilename (env : ControlPointEnv) : String :=
  "playlist-" ++ toString env.now ++ ".m3u"

/-- `ControlPoint::createPlaylistItem(filename)`, for the web root URL of the web server. -/
def ControlPoint.createPlaylistItem (webRootUrl filename : String) : Item :=
  Item.addResource {}
    { m_Url := webRootUrl ++ "playlists/" ++ filename, m_ProtocolInfo := "http-get:*:audio/m3u:*" }

/-- The text of the playlist: the URLs of the resources of the items the renderer supports,
one to a line. -/
def ControlPoint.playlistText (env : ControlPointEnv) (items : List Item) : String :=
  items.foldl
    (fun playlist item =>
      match env.supportsPlayback item with
      | (true, res) => playlist ++ res.m_Url ++ "\n"
      | (false, _) => playlist)
    ""

/-- Lines 96-111 and 137-152: the playlist of the items is added to the web server and the item
made for it is handed to `continuation` (`playItem` or `queueItem`). -/
def ControlPoint.asPlaylist (env : ControlPointEnv) (items : List Item)
    (continuation : Item → List ControlPointCall →
      Except Thrown Unit × List ControlPointCall)
    (calls : List ControlPointCall) : Except Thrown Unit × List ControlPointCall :=
  match env.m_pWebServer with
  | none =>
    (Except.error (Thrown.other "A web server must be available to serve playlists"), calls)
  | some webRootUrl =>
    match ControlPoint.run env
        [ControlPointCall.webServerAddFile "playlists" (ControlPoint.generatePlaylistFilename env)
          "audio/m3u" (ControlPoint.playlistText env items)] calls with
    | (Except.error e, calls₁) => (Except.error e, calls₁)
    | (Except.ok (), calls₁) =>
      continuation
        (ControlPoint.createPlaylistItem webRootUrl (ControlPoint.generatePlaylistFilename env))
        calls₁

/-- `ControlPoint::playItemsAsPlaylist(server, items)`. -/
def ControlPoint.playItemsAsPlaylist (env : ControlPointEnv) (items : List Item)
    (calls : List ControlPointCall) : Except Thrown Unit × List ControlPointCall :=
  match items with
  | [] => (Except.error (Thrown.other "No items provided for playback"), calls)
  | [item] => ControlPoint.playItem env item calls
  | _ => ControlPoint.asPlaylist env items (ControlPoint.playItem env) calls

/-- `ControlPoint::queueItemsAsPlaylist(server, items)`. -/
def ControlPoint.queueItemsAsPlaylist (env : ControlPointEnv) (items : List Item)
    (calls : List ControlPointCall) : Except Thrown Unit × List ControlPointCall :=
  match items with
  | [] => (Except.error (Thrown.other "No items provided for queueing"), calls)
  | [item] => ControlPoint.playItem env item calls
  | _ => ControlPoint.asPlaylist env items (ControlPoint.queueItem env) calls

/-! ## Sample surroundings

Concrete clients and conversions on which the statements below are instantiated. -/

namespace Sample

/-- Names of some actions, as a sample `actionToString`. -/
def actionToString : AVTransport.Action → String
  | AVTransport.Action.SetAVTransportURI => "SetAVTransportURI"
  | AVTransport.Action.Play => "Play"
  | AVTransport.Action.Stop => "Stop"
  | AVTransport.Action.Pause => "Pause"
  | _ => "GetMediaInfo"

/-- A sample `actionFromString` recognising three names. -/
def actionFromString (name : String) : Except Thrown AVTransport.Action :=
  if name = "Play" then Except.ok AVTransport.Action.Play
  else if name = "Stop" then Except.ok AVTransport.Action.Stop
  else if name = "Pause" then Except.ok AVTransport.Action.Pause
  else Except.error (Thrown.other ("Unknown action: " ++ name))

/-- A sample `variableFromString` recognising three names. -/
def variableFromString (name : String) : Except Thrown AVTransport.Variable :=
  if name = "LastChange" then Except.ok AVTransport.Variable.LastChange
  else if name = "TransportState" then Except.ok AVTransport.Variable.TransportState
  else if name = "CurrentTrack" then Except.ok AVTransport.Variable.CurrentTrack
  else Except.error (Thrown.other ("Unknown variable: " ++ name))

/-- A sample `variableToString`. -/
def variableToString : AVTransport.Variable → String
  | AVTransport.Variable.LastChange => "LastChange"
  | AVTransport.Variable.TransportState => "TransportState"
  | _ => "CurrentTrack"

/-- A generic result handler that throws the code without a description. -/
def genericHandler (errorCode : Int) : Except Thrown Unit :=
  if errorCode = UPNP_E_SUCCESS then Except.ok () else Except.error (Thrown.upnp errorCode "")

/-- Sample overrides for the AVTransport client. -/
def base : ServiceTraits AVTransport.Action AVTransport.Variable where
  actionFromString := actionFromString
  actionToString := actionToString
  variableFromString := variableFromString
  variableToString := variableToString
  getType := ⟨ServiceType.Tag.AVTransport, 1⟩
  getSubscriptionTimeout := 0
  handleStateVariableEvent := fun _ _ => []
  handleUPnPResult := fun _ => Except.ok ()

/-- The AVTransport client over the sample overrides. -/
def traits : ServiceTraits AVTransport.Action AVTransport.Variable :=
  AVTransport.Client.traits base genericHandler

/-- A small document tree: an element with its name, attributes, text and child elements. -/
inductive Node where
  | element (name : String) (attributes : List (String × String)) (value : String)
      (children : List Node)

/-- Name of an element. -/
def Node.name : Node → String
  | Node.element n _ _ _ => n

/-- Attributes of an element. -/
def Node.attributes : Node → List (String × String)
  | Node.element _ a _ _ => a

/-- Text of an element. -/
def Node.value : Node → String
  | Node.element _ _ v _ => v

/-- Child elements. -/
def Node.children : Node → List Node
  | Node.element _ _ _ c => c

/-- The inner document of a LastChange event: TransportState PLAYING for instance 0. -/
def lastChangeDoc : Node :=
  Node.element "#document" [] ""
    [Node.element "Event" [] ""
      [Node.element "InstanceID" [("val", "0")] ""
        [Node.element "TransportState" [("val", "PLAYING")] "" []]]]

/-- The text of `lastChangeDoc`. -/
def lastChangeText : String :=
  "<Event><InstanceID val=\"0\"><TransportState val=\"PLAYING\"/></InstanceID></Event>"

/-- The property set of a notification whose one property is LastChange with text `text`. -/
def propertySetDoc (text : String) : Node :=
  Node.element "#document" [] ""
    [Node.element "e:propertyset" [] ""
      [Node.element "e:property" [] "" [Node.element "LastChange" [] text []]]]

/-- A service description listing the action Play and no state variable table. -/
def scpdDoc : Node :=
  Node.element "#document" [] ""
    [Node.element "scpd" [] ""
      [Node.element "actionList" [] "" [Node.element "action" [] "Play" []]]]

/-- First element of a list with the given name. -/
def childNamed (name : String) : List Node → Except Thrown Node
  | [] => Except.error (Thrown.other ("No child element: " ++ name))
  | n :: rest => if n.name = name then Except.ok n else childNamed name rest

/-- A sample XML wrapper over `Node`.  It parses one text, `lastChangeText`; lookups of absent
children and attributes throw; the actions of a description are the texts of the children of its
`actionList`, its state variables the texts of the children of its `serviceStateTable`. -/
def xml : XmlAdapter Node Node where
  parse := fun text =>
    if text = lastChangeText then Except.ok lastChangeDoc
    else Except.error (Thrown.other "Failed to parse xml")
  getFirstChild := fun d =>
    match d.children with
    | [] => Except.error (Thrown.other "No first child")
    | n :: _ => Except.ok n
  getChildNodes := fun e => Except.ok e.children
  getName := fun e => Except.ok e.name
  getValue := fun e => Except.ok e.value
  getAttribute := fun e name =>
    match e.attributes.find? (fun p => decide (p.1 = name)) with
    | some p => Except.ok p.2
    | none => Except.error (Thrown.other ("No attribute: " ++ name))
  getChildElement := fun e name => childNamed name e.children
  toString := fun e => Except.ok e.name
  getActionsFromDescription := fun d =>
    match d.children with
    | [] => Except.error (Thrown.other "No first child")
    | root :: _ =>
      match childNamed "actionList" root.children with
      | Except.error e => Except.error e
      | Except.ok l => Except.ok (l.children.map Node.value)
  getStateVariablesFromDescription := fun d =>
    match d.children with
    | [] => Except.error (Thrown.other "No first child")
    | root :: _ =>
      match childNamed "serviceStateTable" root.children with
      | Except.error e => Except.error e
      | Except.ok l => Except.ok (l.children.map (fun n => StateVariable.mk n.value))

/-- A client without state: `sendAction` answers with `reply`, `unsubscribeFromService` with
`unsub`, `downloadXmlDocument` with `download`; subscribing succeeds. -/
def client (reply : Except Thrown Node) (unsub : Except Thrown Unit)
    (download : Except Thrown Node) : IClient Unit Node where
  subscribeToServiceCb := fun _ _ k => (Except.ok (), k)
  subscribeToService := fun _ _ k => (Except.ok "uuid:renewed", k)
  unsubscribeFromService := fun _ k => (unsub, k)
  downloadXmlDocument := fun _ k => (download, k)
  sendAction := fun _ k => (reply, k)

/-- A client all of whose calls succeed. -/
def goodClient : IClient Unit Node :=
  client (Except.ok scpdDoc) (Except.ok ()) (Except.ok scpdDoc)

/-- A client whose `sendAction` fails with the UPnP error `code`. -/
def faultClient (code : Int) : IClient Unit Node :=
  client (Except.error (Thrown.upnp code "UPnP error")) (Except.ok ()) (Except.ok scpdDoc)

/-- A client whose `unsubscribeFromService` throws. -/
def deafClient : IClient Unit Node :=
  client (Except.ok scpdDoc) (Except.error (Thrown.other "Failed to unsubscribe"))
    (Except.ok scpdDoc)

/-- A client whose `subscribeToService` throws. -/
def lostClient : IClient Unit Node :=
  { goodClient with
    subscribeToService := fun _ _ k => (Except.error (Thrown.other "Failed to subscribe"), k) }

/-- A service client holding the subscription id `sid`, before any call. -/
def state (sid : String) : State Unit AVTransport.Action AVTransport.Variable where
  self := { m_SubscriptionId := sid }
  client := ()

/-- A device with an AVTransport service. -/
def device : Device where
  m_Services :=
    [(⟨ServiceType.Tag.AVTransport, 1⟩,
      { m_Type := ⟨ServiceType.Tag.AVTransport, 1⟩
        m_Id := "urn:upnp-org:serviceId:AVTransport"
        m_SCPDUrl := "http://renderer/scpd.xml"
        m_ControlURL := "http://renderer/control"
        m_EventSubscriptionURL := "http://renderer/event" })]

/-- Network interfaces of a host: loopback, then "eth0" with an IPv6 and an IPv4 address. -/
def interfaces : List InterfaceAddress :=
  [⟨"lo", true, "127.0.0.1"⟩, ⟨"eth0", false, "fe80::1"⟩, ⟨"eth0", true, "192.168.1.2"⟩,
    ⟨"eth0", true, "10.0.0.7"⟩]

/-- Sample functions of the host: the URNs of the UPnP standard, a variable as an element with
a `val` attribute, and a serialisation of element names. -/
def hostFunctions : HostFunctions where
  serviceTypeToUrnIdString := fun _ => "urn:upnp-org:serviceId:AVTransport"
  serviceTypeToUrnMetadataString := fun _ => "urn:schemas-upnp-org:metadata-1-0/AVT/"
  serviceVariableToElement := fun v => XmlNode.element v.name [("val", v.value)] []
  toString := fun n =>
    match n with
    | XmlNode.element name _ _ => "<" ++ name ++ ">"
    | XmlNode.text value => value

/-- An HTTP client that has made no request, for the URL http://renderer:8080/control. -/
def httpClient (timeout now : Nat) : http.Client where
  m_timeout := timeout
  m_uri := ⟨"/control", "renderer:8080"⟩
  now := now

/-- A `Client2` with a running event server and no subscription; callbacks are numbers. -/
def client2 : Client2 Nat where
  m_eventServer := some ("192.168.1.2", 8080)
  m_eventCallbacks := StdMap.empty

/-- The inner document of a LastChange event with a variable the client knows and one it does
not know: TransportState PLAYING and Volume 10 for instance 0. -/
def mixedChangeDoc : Node :=
  Node.element "#document" [] ""
    [Node.element "Event" [] ""
      [Node.element "InstanceID" [("val", "0")] ""
        [Node.element "TransportState" [("val", "PLAYING")] "" [],
          Node.element "Volume" [("val", "10")] "" []]]]

/-- The text of `mixedChangeDoc`. -/
def mixedChangeText : String :=
  "<Event><InstanceID val=\"0\"><TransportState val=\"PLAYING\"/><Volume val=\"10\"/>" ++
    "</InstanceID></Event>"

/-- The sample XML wrapper, parsing `mixedChangeText` as well. -/
def xmlMixed : XmlAdapter Node Node :=
  { xml with
    parse := fun text =>
      if text = mixedChangeText then Except.ok mixedChangeDoc else xml.parse text }

/-- A sample `actionFromString` of the service host, recognising some names. -/
def hostActionFromString (name : String) : Except HostThrown AVTransport.Action :=
  if name = "Stop" then Except.ok AVTransport.Action.Stop
  else if name = "Play" then Except.ok AVTransport.Action.Play
  else if name = "GetMediaInfo" then Except.ok AVTransport.Action.GetMediaInfo
  else if name = "GetTransportInfo" then Except.ok AVTransport.Action.GetTransportInfo
  else if name = "GetPositionInfo" then Except.ok AVTransport.Action.GetPositionInfo
  else if name = "SetRecordQualityMode" then Except.ok AVTransport.Action.SetRecordQualityMode
  else if name = "GetStateVariables" then Except.ok AVTransport.Action.GetStateVariables
  else if name = "SyncStop" then Except.ok AVTransport.Action.SyncStop
  else Except.error (HostThrown.exception ("Unknown action: " ++ name))

/-- A sample `std::stoul` for texts without leading blanks or sign: the number written by the
leading digits; without a leading digit it throws. -/
def stoul (text : String) : Except HostThrown Nat :=
  match text.toList.takeWhile Char.isDigit with
  | [] => Except.error (HostThrown.standard "stoul")
  | digits => Except.ok (digits.foldl (fun n c => 10 * n + (c.toNat - 48)) 0)

/-- A sample `csvToVector`: the texts between the commas. -/
def csvToVector (text : String) : List String :=
  (text.toList.splitOn ',').map String.mk

/-- A sample value lookup in the children of a request element; a missing child throws. -/
def getChildNodeValue (req : List (String × String)) (name : String) :
    Except HostThrown String :=
  match req.find? (fun p => decide (p.1 = name)) with
  | some p => Except.ok p.2
  | none => Except.error (HostThrown.exception ("No child node: " ++ name))

/-- Sample surroundings of the AVTransport service: a request document is the list of its
child elements, an element the list of its children with their values; `transport` is the
transport implementation, an `IAVTransport3` when `av3` holds. -/
def hostEnv (av3 : Bool) (transport : AVTransport.TransportCall → Except HostThrown String) :
    AVTransport.ServiceEnv (List (List (String × String))) (List (String × String)) where
  actionFromString := hostActionFromString
  variableFromString := fun name =>
    match variableFromString name with
    | Except.ok v => Except.ok v
    | Except.error e => Except.error (HostThrown.exception e.what)
  variableToString := variableToString
  getFirstChild := fun doc =>
    match doc with
    | [] => Except.error (HostThrown.exception "No first child")
    | req :: _ => Except.ok req
  getChildNodeValue := getChildNodeValue
  stoul := stoul
  seekModeFromString := fun _ => Except.ok 0
  playModeFromString := fun _ => Except.ok 0
  playlistStepFromString := fun _ => Except.ok 0
  playlistTypeFromString := fun _ => Except.ok 0
  csvToVector := csvToVector
  documentToString := fun doc => toString doc.children.length
  m_avTransport3 := av3
  transport := transport

/-- A transport implementation all of whose calls return. -/
def goodTransport (_ : AVTransport.TransportCall) : Except HostThrown String :=
  Except.ok "info"

/-- A transport implementation all of whose calls throw. -/
def badTransport (_ : AVTransport.TransportCall) : Except HostThrown String :=
  Except.error (HostThrown.exception "Transport failure")

/-- A service whose instance 0 holds TransportState PLAYING and CurrentTrack 3. -/
def playingService : AVTransport.ServiceState where
  store :=
    DeviceService.afterCalls variableToString ⟨ServiceType.Tag.AVTransport, 1⟩
      [DeviceService.Op.setVariable AVTransport.Variable.TransportState "PLAYING",
        DeviceService.Op.setVariable AVTransport.Variable.CurrentTrack "3"]

/-- A service as constructed: instance 0 without variables. -/
def newService : AVTransport.ServiceState where
  store := DeviceService.new ⟨ServiceType.Tag.AVTransport, 1⟩

/-- Sample conversions of the decoders: an empty text is the number 0, other texts are read by
the sample `stoul`; the states STOPPED and PLAYING and the status OK are known. -/
def decoderFunctions : AVTransport.DecoderFunctions where
  optionalStringToUnsignedNumeric := fun text =>
    if text = "" then Except.ok 0
    else
      match stoul text with
      | Except.ok n => Except.ok n
      | Except.error _ => Except.error (Thrown.other "Invalid number")
  optionalStringToUnsignedNumericInt := fun text =>
    if text = "" then Except.ok 0
    else
      match stoul text with
      | Except.ok n => Except.ok (n : Int)
      | Except.error _ => Except.error (Thrown.other "Invalid number")
  stateFromString := fun text =>
    if text = "STOPPED" then Except.ok 0
    else if text = "PLAYING" then Except.ok 1
    else Except.error (Thrown.other "Unknown state")
  statusFromString := fun text =>
    if text = "OK" then Except.ok 0 else Except.error (Thrown.other "Unknown status")

/-- A service whose instance 0 holds one track with the URI http://server/track.mp3. -/
def mediaService : AVTransport.ServiceState where
  store :=
    DeviceService.afterCalls variableToString ⟨ServiceType.Tag.AVTransport, 1⟩
      [DeviceService.Op.assign 0 AVTransport.Variable.NumberOfTracks
          { name := "NumberOfTracks", value := "1" },
        DeviceService.Op.assign 0 AVTransport.Variable.CurrentTrackURI
          { name := "CurrentTrackURI", value := "http://server/track.mp3" },
        DeviceService.Op.assign 0 AVTransport.Variable.CurrentTrackMetaData
          { name := "CurrentTrackMetaData", value := "<DIDL-Lite/>" }]

/-- A track of a media server with one resource. -/
def track : Item where
  m_ObjectId := "7"
  title := "Track"
  m_Resources := [{ m_Url := "http://server/track.mp3", m_ProtocolInfo := "http-get:*:audio/mpeg:*" }]

/-- Surroundings of a control point: a renderer that plays the first resource of an item and
does not prepare connections, calls that all return, and no web server. -/
def controlPointEnv : ControlPointEnv where
  supportsPlayback := fun item =>
    match item.m_Resources with
    | [] => (false, {})
    | resource :: _ => (true, resource)
  rendererSupportsConnectionPreparation := false
  serverSupportsConnectionPreparation := false
  serverPrepared := fun resource => resource
  rendererPrepared := fun resource => resource
  outcome := fun _ => Except.ok ()
  m_pWebServer := none
  now := 0

end Sample

/-! ### Order lemmas -/

theorem lexLess_irrefl : ∀ a : List Nat, lexLess a a = false
  | [] => rfl
  | x :: xs => by simp [lexLess, lexLess_irrefl xs]

theorem lexLess_trans : ∀ a b c : List Nat,
    lexLess a b = true → lexLess b c = true → lexLess a c = true
  | _, [], _, h, _ => by simp [lexLess] at h
  | _, _ :: _, [], _, h => by simp [lexLess] at h
  | [], _ :: _, _ :: _, _, _ => by simp [lexLess]
  | x :: xs, y :: ys, z :: zs, h₁, h₂ => by
    simp only [lexLess] at h₁ h₂ ⊢
    by_cases hxy : x < y
    · by_cases hyz : y < z
      · have : x < z := lt_trans hxy hyz
        simp [this]
      · by_cases hzy : z < y
        · simp [hyz, hzy] at h₂
        · have hyz2 : y = z := by omega
          subst hyz2
          simp [hxy]
    · by_cases hyx : y < x
      · simp [hxy, hyx] at h₁
      · have hxy2 : x = y := by omega
        subst hxy2
        simp only [lt_self_iff_false, if_false] at h₁
        by_cases hxz : x < z
        · simp [hxz]
        · by_cases hzx : z < x
          · simp [hxz, hzx] at h₂
          · simp only [hxz, hzx, if_false] at h₂ ⊢
            exact lexLess_trans xs ys zs h₁ h₂

theorem lexLess_connex : ∀ a b : List Nat,
    lexLess a b = false → lexLess b a = false → a = b
  | [], [], _, _ => rfl
  | [], _ :: _, h, _ => by simp [lexLess] at h
  | _ :: _, [], _, h => by simp [lexLess] at h
  | x :: xs, y :: ys, h₁, h₂ => by
    simp only [lexLess] at h₁ h₂
    by_cases hxy : x < y
    · simp [hxy] at h₁
    · by_cases hyx : y < x
      · simp [hyx] at h₂
      · have hxy2 : x = y := by omega
        subst hxy2
        simp only [lt_self_iff_false, if_false] at h₁ h₂
        rw [lexLess_connex xs ys h₁ h₂]

theorem keyLess_irrefl {K : Type} [StdKey K] (a : K) : keyLess a a = false :=
  lexLess_irrefl _

theorem keyLess_trans {K : Type} [StdKey K] {a b c : K}
    (h₁ : keyLess a b = true) (h₂ : keyLess b c = true) : keyLess a c = true :=
  lexLess_trans _ _ _ h₁ h₂

theorem keyLess_asymm {K : Type} [StdKey K] {a b : K}
    (h : keyLess a b = true) : keyLess b a = false := by
  cases hba : keyLess b a
  · rfl
  · have := keyLess_trans h hba
    rw [keyLess_irrefl] at this
    exact absurd this (by simp)

theorem keyLess_connex {K : Type} [StdKey K] {a b : K}
    (h₁ : keyLess a b = false) (h₂ : keyLess b a = false) : a = b :=
  StdKey.rank_inj a b (lexLess_connex _ _ h₁ h₂)

theorem keyEquiv_iff {K : Type} [StdKey K] (a b : K) : keyEquiv a b = true ↔ a = b := by
  constructor
  · intro h
    simp only [keyEquiv, Bool.and_eq_true, Bool.not_eq_true'] at h
    exact keyLess_connex h.1 h.2
  · intro h
    subst h
    simp [keyEquiv, keyLess_irrefl]

theorem keyEquiv_of_less {K : Type} [StdKey K] {a b : K}
    (h : keyLess a b = true) : keyEquiv a b = false ∧ keyEquiv b a = false := by
  simp [keyEquiv, h]

/-! ### Lemmas on the `std::map` model -/

theorem mem_insertEntries {K V : Type} [StdKey K] (k : K) (v : V) :
    ∀ (l : List (K × V)) (p : K × V), p ∈ insertEntries k v l → p = (k, v) ∨ p ∈ l
  | [], p, h => by
    simp only [insertEntries, List.mem_singleton] at h
    exact Or.inl h
  | (k', v') :: rest, p, h => by
    simp only [insertEntries] at h
    split at h
    · simp only [List.mem_cons] at h ⊢
      exact h
    · split at h
      · simp only [List.mem_cons] at h ⊢
        rcases h with h | h
        · exact Or.inr (Or.inl h)
        · rcases mem_insertEntries k v rest p h with h | h
          · exact Or.inl h
          · exact Or.inr (Or.inr h)
      · exact Or.inr h

theorem insertEntries_ascending {K V : Type} [StdKey K] (k : K) (v : V) :
    ∀ l : List (K × V), Ascending l → Ascending (insertEntries k v l)
  | [], _ => by simp [insertEntries, Ascending]
  | (k', v') :: rest, h => by
    have h' := h
    simp only [Ascending, List.pairwise_cons] at h'
    obtain ⟨hhead, htail⟩ := h'
    simp only [insertEntries]
    split
    · rename_i hlt
      simp only [Ascending, List.pairwise_cons]
      refine ⟨?_, hhead, htail⟩
      intro y hy
      simp only [List.mem_cons] at hy
      rcases hy with hy | hy
      · rw [hy]
        exact hlt
      · exact keyLess_trans hlt (hhead y hy)
    · split
      · rename_i hlt
        simp only [Ascending, List.pairwise_cons]
        refine ⟨?_, insertEntries_ascending k v rest htail⟩
        intro y hy
        rcases mem_insertEntries k v rest y hy with hy | hy
        · rw [hy]
          exact hlt
        · exact hhead y hy
      · exact h

theorem findEntry_none_of_less {K V : Type} [StdKey K] (q : K) :
    ∀ l : List (K × V), (∀ p ∈ l, keyLess q p.1 = true) → findEntry q l = none
  | [], _ => rfl
  | (k', v') :: rest, h => by
    have hk : keyLess q k' = true := h (k', v') (List.mem_cons_self _ _)
    simp only [findEntry, (keyEquiv_of_less hk).2]
    exact findEntry_none_of_less q rest (fun p hp => h p (List.mem_cons_of_mem _ hp))

/-- Lookup after an insertion: an entry already found stays; otherwise the inserted pair is
found under its own key only. -/
theorem findEntry_insertEntries {K V : Type} [StdKey K] (k : K) (v : V) (q : K) :
    ∀ l : List (K × V), Ascending l →
      findEntry q (insertEntries k v l) =
        (match findEntry q l with
         | some x => some x
         | none => if keyEquiv k q then some v else none)
  | [], _ => by simp [insertEntries, findEntry]
  | (k', v') :: rest, h => by
    have h' := h
    simp only [Ascending, List.pairwise_cons] at h'
    obtain ⟨hhead, htail⟩ := h'
    simp only [insertEntries]
    split
    · rename_i hlt
      by_cases hq : keyEquiv k q = true
      · have hkq : k = q := (keyEquiv_iff k q).mp hq
        subst hkq
        have hnone : findEntry k ((k', v') :: rest) = none := by
          apply findEntry_none_of_less
          intro p hp
          simp only [List.mem_cons] at hp
          rcases hp with hp | hp
          · rw [hp]
            exact hlt
          · exact keyLess_trans hlt (hhead p hp)
        rw [hnone]
        simp [findEntry, hq]
      · have hq' : keyEquiv k q = false := by simpa using hq
        simp only [findEntry, hq', Bool.false_eq_true, if_false]
        by_cases hq2 : keyEquiv k' q = true
        · simp [hq2]
        · have hq2' : keyEquiv k' q = false := by simpa using hq2
          simp only [hq2', Bool.false_eq_true, if_false]
          cases findEntry q rest <;> rfl
    · split
      · rename_i hlt
        simp only [findEntry]
        by_cases hq : keyEquiv k' q = true
        · simp [hq]
        · have hq' : keyEquiv k' q = false := by simpa using hq
          simp only [hq', Bool.false_eq_true, if_false]
          exact findEntry_insertEntries k v q rest htail
      · rename_i h₁ h₂
        have hkk : k = k' :=
          keyLess_connex (by simpa using h₁) (by simpa using h₂)
        subst hkk
        simp only [findEntry]
        by_cases hq : keyEquiv k q = true
        · simp [hq]
        · have hq' : keyEquiv k q = false := by simpa using hq
          simp only [hq', Bool.false_eq_true, if_false]
          split <;> simp_all

theorem foldl_insert_ascending {K V : Type} [StdKey K] :
    ∀ (l : List (K × V)) (acc : StdMap K V), Ascending acc.entries →
      Ascending (l.foldl (fun m p => m.insert p.1 p.2) acc).entries
  | [], _, h => h
  | (k, v) :: rest, acc, h =>
    foldl_insert_ascending rest (acc.insert k v) (insertEntries_ascending k v _ h)

theorem foldl_insert_find {K V : Type} [StdKey K] (q : K) :
    ∀ (l : List (K × V)) (acc : StdMap K V), Ascending acc.entries →
      (l.foldl (fun m p => m.insert p.1 p.2) acc).find q =
        (match acc.find q with
         | some x => some x
         | none => findEntry q l)
  | [], acc, _ => by
    simp only [List.foldl_nil, findEntry]
    cases acc.find q <;> rfl
  | (k, v) :: rest, acc, h => by
    have hins : Ascending (acc.insert k v).entries := insertEntries_ascending k v _ h
    simp only [List.foldl_cons]
    rw [foldl_insert_find q rest (acc.insert k v) hins]
    simp only [StdMap.find, StdMap.insert, findEntry]
    rw [findEntry_insertEntries k v q _ h]
    cases findEntry q acc.entries with
    | some x => rfl
    | none =>
      by_cases hq : keyEquiv k q = true
      · simp [hq]
      · have hq' : keyEquiv k q = false := by simpa using hq
        simp [hq']

/-- The map built from a braced list is ascending. -/
theorem ofList_ascending {K V : Type} [StdKey K] (l : List (K × V)) :
    Ascending (StdMap.ofList l).entries :=
  foldl_insert_ascending l StdMap.empty List.Pairwise.nil

/-- Looking a key up in the map built from a braced list gives the value of the first listed
pair with that key. -/
theorem ofList_find {K V : Type} [StdKey K] (l : List (K × V)) (q : K) :
    (StdMap.ofList l).find q = findEntry q l :=
  foldl_insert_find q l StdMap.empty List.Pairwise.nil

theorem insertEntries_append {K V : Type} [StdKey K] (k : K) (v : V) :
    ∀ l : List (K × V), (∀ p ∈ l, keyLess p.1 k = true) → insertEntries k v l = l ++ [(k, v)]
  | [], _ => rfl
  | (k', v') :: rest, h => by
    have hk : keyLess k' k = true := h (k', v') (List.mem_cons_self _ _)
    simp only [insertEntries, keyLess_asymm hk, hk, Bool.false_eq_true, if_false, if_true,
      List.cons_append]
    rw [insertEntries_append k v rest (fun p hp => h p (List.mem_cons_of_mem _ hp))]

theorem foldl_insert_of_ascending {K V : Type} [StdKey K] :
    ∀ (l acc : List (K × V)), Ascending (acc ++ l) →
      (l.foldl (fun m p => m.insert p.1 p.2) (⟨acc⟩ : StdMap K V)).entries = acc ++ l
  | [], acc, _ => by simp
  | (k, v) :: rest, acc, h => by
    have hlt : ∀ p ∈ acc, keyLess p.1 k = true := by
      intro p hp
      have := (List.pairwise_append.mp h).2.2 p hp (k, v) (List.mem_cons_self _ _)
      exact this
    have hstep : (⟨acc⟩ : StdMap K V).insert k v = ⟨acc ++ [(k, v)]⟩ := by
      simp only [StdMap.insert, insertEntries_append k v acc hlt]
    simp only [List.foldl_cons, hstep]
    have h' : Ascending ((acc ++ [(k, v)]) ++ rest) := by
      simpa [List.append_assoc] using h
    rw [foldl_insert_of_ascending rest (acc ++ [(k, v)]) h']
    simp [List.append_assoc]

/-- A braced list whose keys are already strictly ascending is stored as written, and no
other list is. -/
theorem ofList_eq_iff {K V : Type} [StdKey K] (l : List (K × V)) :
    (StdMap.ofList l).entries = l ↔ Ascending l := by
  constructor
  · intro h
    have := ofList_ascending l
    rw [h] at this
    exact this
  · intro h
    have := foldl_insert_of_ascending l [] (by simpa using h)
    simpa [StdMap.ofList, StdMap.empty] using this

/-! ## Action arguments (`executeAction`) -/

theorem foldl_addArgument (l : List (String × String)) :
    ∀ a : Action, (l.foldl (fun action arg => action.addArgument arg.1 arg.2) a).arguments =
      a.arguments ++ l := by
  induction l with
  | nil => intro a; simp
  | cons x xs ih =>
    intro a
    simp only [List.foldl_cons]
    rw [ih]
    simp [Action.addArgument]

/-- The arguments of the action built by `executeAction` are the entries of the argument map,
in the map's iteration order. -/
theorem buildAction_arguments {A V : Type} (traits : ServiceTraits A V)
    (self : ServiceClientBase A V) (actionType : A) (args : StdMap String String) :
    (ServiceClientBase.buildAction traits self actionType args).arguments = args.entries := by
  simp [ServiceClientBase.buildAction, foldl_addArgument, Action.new]

theorem executeAction_calls {κ D A V : Type} (traits : ServiceTraits A V)
    (client : IClient κ D) (actionType : A) (args : StdMap String String) (s : State κ A V) :
    (ServiceClientBase.executeAction traits client actionType args s).2.calls =
      s.calls ++ [Effect.sendAction (ServiceClientBase.buildAction traits s.self actionType args)] := by
  simp only [ServiceClientBase.executeAction, State.called]
  split
  · rfl
  · split <;> rfl
  · rfl

/-- C1 (as amended): for every action and every list of (name, value) pairs written by the
caller, `executeAction` sends exactly one action, whose arguments are the pairs of the
`std::map` built from the list: strictly ascending by argument name, each name bound to the
value of the first listed pair with that name; they are in the order listed exactly when the
list itself is strictly ascending by name. -/
theorem executeAction_arguments_follow_map_order {κ D A V : Type} (traits : ServiceTraits A V)
    (client : IClient κ D) (actionType : A) (listed : List (String × String))
    (s : State κ A V) :
    (ServiceClientBase.executeAction traits client actionType (StdMap.ofList listed) s).2.calls =
        s.calls ++ [Effect.sendAction
          (ServiceClientBase.buildAction traits s.self actionType (StdMap.ofList listed))] ∧
      Ascending
        (ServiceClientBase.buildAction traits s.self actionType (StdMap.ofList listed)).arguments ∧
      (∀ name : String,
        findEntry name
            (ServiceClientBase.buildAction traits s.self actionType
              (StdMap.ofList listed)).arguments =
          findEntry name listed) ∧
      ((ServiceClientBase.buildAction traits s.self actionType
          (StdMap.ofList listed)).arguments = listed ↔ Ascending listed) := by
  refine ⟨executeAction_calls traits client actionType _ s, ?_, ?_, ?_⟩
  · rw [buildAction_arguments]
    exact ofList_ascending listed
  · intro name
    rw [buildAction_arguments]
    exact ofList_find listed name
  · rw [buildAction_arguments]
    exact ofList_eq_iff listed

/-- C1 (counterexample): `setAVTransportURI` lists InstanceID, CurrentURI, CurrentURIMetaData;
the action sent carries CurrentURI, CurrentURIMetaData, InstanceID. -/
theorem setAVTransportURI_arguments_reordered :
    (AVTransport.Client.setAVTransportURI Sample.traits
        Sample.goodClient 0 "http://server/track.mp3" "meta"
        (Sample.state "")).2.calls =
      [Effect.sendAction
        ⟨"SetAVTransportURI", "", ⟨ServiceType.Tag.AVTransport, 1⟩,
          [("CurrentURI", "http://server/track.mp3"), ("CurrentURIMetaData", "meta"),
            ("InstanceID", "0")]⟩] ∧
      AVTransport.Client.setAVTransportURIArgs 0 "http://server/track.mp3" "meta" =
        [("InstanceID", "0"), ("CurrentURI", "http://server/track.mp3"),
          ("CurrentURIMetaData", "meta")] := by
  constructor
  · decide
  · decide

/-! ## UPnP faults (`handleUPnPResult`) -/

theorem handleUPnPResult_in_table (generic : Int → Except Thrown Unit) (c : Int)
    (hc : 701 ≤ c ∧ c ≤ 718) :
    ∃ msg : String, msg ≠ "" ∧
      AVTransport.Client.handleUPnPResult generic c = Except.error (Thrown.upnp c msg) := by
  obtain ⟨h₁, h₂⟩ := hc
  interval_cases c <;> refine ⟨_, ?_, rfl⟩ <;> decide

/-- C2: when `sendAction` fails with a UPnP error of code `c` in 701..718 during an
`executeAction` of the AVTransport client, the call does not return a document: it raises an
error carrying exactly `c`; for 701 the message is "Playback transition not supported at this
moment". -/
theorem executeAction_raises_avtransport_fault {κ D : Type}
    (base : ServiceTraits AVTransport.Action AVTransport.Variable)
    (generic : Int → Except Thrown Unit) (client : IClient κ D)
    (actionType : AVTransport.Action) (args : StdMap String String)
    (s : State κ AVTransport.Action AVTransport.Variable) (c : Int) (w : String)
    (hc : 701 ≤ c ∧ c ≤ 718)
    (hsend : (client.sendAction
        (ServiceClientBase.buildAction (AVTransport.Client.traits base generic) s.self
          actionType args) s.client).1 = Except.error (Thrown.upnp c w)) :
    (∃ msg : String,
      (ServiceClientBase.executeAction (AVTransport.Client.traits base generic) client
        actionType args s).1 = ExecResult.raised (Thrown.upnp c msg)) ∧
    (c = 701 →
      (ServiceClientBase.executeAction (AVTransport.Client.traits base generic) client
        actionType args s).1 =
        ExecResult.raised (Thrown.upnp 701 "Playback transition not supported at this moment")) := by
  obtain ⟨msg, _, hmsg⟩ := handleUPnPResult_in_table generic c hc
  have hres : (ServiceClientBase.executeAction (AVTransport.Client.traits base generic) client
      actionType args s).1 = ExecResult.raised (Thrown.upnp c msg) := by
    simp only [ServiceClientBase.executeAction, State.called]
    rcases hcall : client.sendAction
        (ServiceClientBase.buildAction (AVTransport.Client.traits base generic) s.self
          actionType args) s.client with ⟨r, k⟩
    rw [hcall] at hsend
    simp only at hsend
    subst hsend
    simp only [AVTransport.Client.traits, hmsg]
  refine ⟨⟨msg, hres⟩, ?_⟩
  intro h701
  subst h701
  rw [hres]
  have : AVTransport.Client.handleUPnPResult generic 701 =
      Except.error (Thrown.upnp 701 "Playback transition not supported at this moment") := rfl
  rw [this] at hmsg
  injection hmsg with hmsg
  rw [hmsg]

/-- C2 (instance): `play(0, "1")` against a client whose `sendAction` fails with code 701. -/
theorem executeAction_raises_avtransport_fault_witness :
    ((701 : Int) ≤ 701 ∧ (701 : Int) ≤ 718) ∧
    ((Sample.faultClient 701).sendAction
        (ServiceClientBase.buildAction (AVTransport.Client.traits Sample.base Sample.genericHandler)
          (Sample.state "").self AVTransport.Action.Play
          (StdMap.ofList [("InstanceID", toString (0 : Int)), ("Speed", "1")]))
        (Sample.state "").client).1 = Except.error (Thrown.upnp 701 "UPnP error") ∧
    ((∃ msg : String,
      (ServiceClientBase.executeAction (AVTransport.Client.traits Sample.base Sample.genericHandler)
        (Sample.faultClient 701)
        AVTransport.Action.Play
        (StdMap.ofList [("InstanceID", toString (0 : Int)), ("Speed", "1")])
        (Sample.state "")).1 = ExecResult.raised (Thrown.upnp 701 msg)) ∧
    ((701 : Int) = 701 →
      (ServiceClientBase.executeAction (AVTransport.Client.traits Sample.base Sample.genericHandler)
        (Sample.faultClient 701)
        AVTransport.Action.Play
        (StdMap.ofList [("InstanceID", toString (0 : Int)), ("Speed", "1")])
        (Sample.state "")).1 =
        ExecResult.raised (Thrown.upnp 701 "Playback transition not supported at this moment"))) :=
  ⟨by decide, rfl,
    executeAction_raises_avtransport_fault Sample.base Sample.genericHandler
      (Sample.faultClient 701)
      AVTransport.Action.Play (StdMap.ofList [("InstanceID", toString (0 : Int)), ("Speed", "1")])
      (Sample.state "") 701 "UPnP error" (by decide) rfl⟩

/-- C3 (as amended): the AVTransport client's `handleUPnPResult` raises nothing for the success
code; for every code in 701..718 it raises an error carrying that code and a non-empty
AVTransport message, whatever the generic handler does; every other code, 700 and 719..799
included, is handed to the generic handler, whose outcome is the outcome of the call. -/
theorem handleUPnPResult_cases (generic : Int → Except Thrown Unit) (c : Int) :
    AVTransport.Client.handleUPnPResult generic UPNP_E_SUCCESS = Except.ok () ∧
    (701 ≤ c ∧ c ≤ 718 →
      ∃ msg : String, msg ≠ "" ∧
        AVTransport.Client.handleUPnPResult generic c = Except.error (Thrown.upnp c msg)) ∧
    (c ≠ UPNP_E_SUCCESS → (c < 701 ∨ 718 < c) →
      AVTransport.Client.handleUPnPResult generic c = generic c) := by
  refine ⟨rfl, handleUPnPResult_in_table generic c, ?_⟩
  intro h0 hout
  unfold AVTransport.Client.handleUPnPResult
  rw [if_neg h0]
  split <;> first | omega | rfl

/-- C3 (instance): codes 701 and 719 with the sample generic handler. -/
theorem handleUPnPResult_cases_witness :
    AVTransport.Client.handleUPnPResult Sample.genericHandler UPNP_E_SUCCESS = Except.ok () ∧
    ((701 : Int) ≤ 701 ∧ (701 : Int) ≤ 718 →
      ∃ msg : String, msg ≠ "" ∧
        AVTransport.Client.handleUPnPResult Sample.genericHandler 701 =
          Except.error (Thrown.upnp 701 msg)) ∧
    ((701 : Int) ≠ UPNP_E_SUCCESS → ((701 : Int) < 701 ∨ (718 : Int) < 701) →
      AVTransport.Client.handleUPnPResult Sample.genericHandler 701 =
        Sample.genericHandler 701) :=
  handleUPnPResult_cases Sample.genericHandler 701

/-- C3 (counterexample): a code of the range 700..799 that is handed to the generic handler:
for 719 the outcome is the generic handler's, whatever that handler is; with the sample handler
the error raised carries no description. -/
theorem handleUPnPResult_falls_through_in_range :
    ∃ c : Int, 700 ≤ c ∧ c ≤ 799 ∧
      (∀ generic : Int → Except Thrown Unit,
        AVTransport.Client.handleUPnPResult generic c = generic c) ∧
      AVTransport.Client.handleUPnPResult Sample.genericHandler c =
        Except.error (Thrown.upnp c "") :=
  ⟨719, by decide, by decide, fun _ => rfl, rfl⟩

/-! ## Subscription teardown (`unsubscribe`, `subscribe`, destructor) -/

theorem unsubscribe_of_empty {κ D A V : Type} (client : IClient κ D) (s : State κ A V)
    (h : s.self.m_SubscriptionId = "") :
    ServiceClientBase.unsubscribe client s = (Except.ok (), s) := by
  simp [ServiceClientBase.unsubscribe, h]

theorem unsubscribe_result {κ D A V : Type} (client : IClient κ D) (s : State κ A V) :
    (ServiceClientBase.unsubscribe client s).1 =
      if s.self.m_SubscriptionId = "" then Except.ok ()
      else (client.unsubscribeFromService s.self.m_SubscriptionId s.client).1 := by
  unfold ServiceClientBase.unsubscribe
  split
  · rfl
  · simp only [State.called]
    rcases hcall : client.unsubscribeFromService s.self.m_SubscriptionId s.client with ⟨r, k⟩
    cases r <;> rfl

/-- C4 (as amended): if the first `unsubscribe()` returns, that is if `unsubscribeFromService`
did not throw, then calling `unsubscribe()` again has no effect: the first call has cleared the
subscription id (having, when an id was held, disconnected the event handler and issued exactly
one `unsubscribeFromService` for that id, and nothing when none was held), and the second call
returns without any call and with the state unchanged. -/
theorem unsubscribe_twice {κ D A V : Type} (client : IClient κ D) (s : State κ A V)
    (hok : (ServiceClientBase.unsubscribe client s).1 = Except.ok ()) :
    (ServiceClientBase.unsubscribe client s).2.self.m_SubscriptionId = "" ∧
    (s.self.m_SubscriptionId ≠ "" →
      (ServiceClientBase.unsubscribe client s).2.calls =
        s.calls ++ [Effect.disconnect, Effect.unsubscribeFromService s.self.m_SubscriptionId]) ∧
    (s.self.m_SubscriptionId = "" → (ServiceClientBase.unsubscribe client s).2 = s) ∧
    ServiceClientBase.unsubscribe client (ServiceClientBase.unsubscribe client s).2 =
      (Except.ok (), (ServiceClientBase.unsubscribe client s).2) := by
  have hid : (ServiceClientBase.unsubscribe client s).2.self.m_SubscriptionId = "" := by
    revert hok
    unfold ServiceClientBase.unsubscribe
    split
    · intro _
      assumption
    · simp only [State.called]
      rcases hcall : client.unsubscribeFromService s.self.m_SubscriptionId s.client with ⟨r, k⟩
      cases r with
      | error e => intro h; simp at h
      | ok u => intro _; rfl
  refine ⟨hid, ?_, ?_, unsubscribe_of_empty client _ hid⟩
  · intro hne
    unfold ServiceClientBase.unsubscribe
    rw [if_neg hne]
    simp only [State.called]
    rcases hcall : client.unsubscribeFromService s.self.m_SubscriptionId s.client with ⟨r, k⟩
    cases r <;> simp
  · intro he
    rw [unsubscribe_of_empty client s he]

/-- C4 (instance): a client holding "uuid:sub1" whose `unsubscribeFromService` succeeds. -/
theorem unsubscribe_twice_witness :
    (ServiceClientBase.unsubscribe Sample.goodClient (Sample.state "uuid:sub1")).1 =
        Except.ok () ∧
    ((ServiceClientBase.unsubscribe Sample.goodClient
        (Sample.state "uuid:sub1")).2.self.m_SubscriptionId = "" ∧
    ((Sample.state "uuid:sub1").self.m_SubscriptionId ≠ "" →
      (ServiceClientBase.unsubscribe Sample.goodClient (Sample.state "uuid:sub1")).2.calls =
        (Sample.state "uuid:sub1").calls ++
          [Effect.disconnect,
            Effect.unsubscribeFromService (Sample.state "uuid:sub1").self.m_SubscriptionId]) ∧
    ((Sample.state "uuid:sub1").self.m_SubscriptionId = "" →
      (ServiceClientBase.unsubscribe Sample.goodClient (Sample.state "uuid:sub1")).2 =
        Sample.state "uuid:sub1") ∧
    ServiceClientBase.unsubscribe Sample.goodClient
        (ServiceClientBase.unsubscribe Sample.goodClient (Sample.state "uuid:sub1")).2 =
      (Except.ok (),
        (ServiceClientBase.unsubscribe Sample.goodClient (Sample.state "uuid:sub1")).2)) :=
  ⟨rfl, unsubscribe_twice Sample.goodClient (Sample.state "uuid:sub1") rfl⟩

/-- C4 (counterexample): with a client whose `unsubscribeFromService` throws, the first
`unsubscribe()` leaves the subscription id in place and the second one disconnects and calls
`unsubscribeFromService` again. -/
theorem unsubscribe_twice_repeats_after_failure :
    (ServiceClientBase.unsubscribe Sample.deafClient
        (Sample.state "uuid:sub1")).2.self.m_SubscriptionId = "uuid:sub1" ∧
    (ServiceClientBase.unsubscribe Sample.deafClient
        (ServiceClientBase.unsubscribe Sample.deafClient (Sample.state "uuid:sub1")).2).2.calls =
      [Effect.disconnect, Effect.unsubscribeFromService "uuid:sub1",
        Effect.disconnect, Effect.unsubscribeFromService "uuid:sub1"] ∧
    (ServiceClientBase.unsubscribe Sample.deafClient (Sample.state "uuid:sub1")).2.calls =
      [Effect.disconnect, Effect.unsubscribeFromService "uuid:sub1"] :=
  ⟨rfl, rfl, rfl⟩

/-- C5 (as amended): for every client behaviour, `unsubscribeFromService` throwing included,
the destructor and the `unsubscribe()` at the start of `subscribe()` complete without raising
(an exception of `unsubscribe()` is caught and its text logged, and `subscribe()` raises only
what its own `subscribeToService` call raises); `unsubscribe()` itself raises exactly what
`unsubscribeFromService` raises. -/
theorem teardown_guarded {κ D A V : Type} (traits : ServiceTraits A V) (client : IClient κ D)
    (s : State κ A V) :
    (ServiceClientBase.destructor client s).1 = Except.ok () ∧
    (ServiceClientBase.subscribeTeardown client s).1 = Except.ok () ∧
    (∀ e : Thrown, (ServiceClientBase.unsubscribe client s).1 = Except.error e →
      (ServiceClientBase.destructor client s).2.log =
          (ServiceClientBase.unsubscribe client s).2.log ++ [(LogLevel.error, e.what)] ∧
      (ServiceClientBase.subscribeTeardown client s).2.log =
          (ServiceClientBase.unsubscribe client s).2.log ++ [(LogLevel.warn, e.what)]) ∧
    (ServiceClientBase.subscribe traits client s).1 =
      (client.subscribeToServiceCb
        (ServiceClientBase.subscribeTeardown client s).2.self.m_Service.m_EventSubscriptionURL
        traits.getSubscriptionTimeout
        (ServiceClientBase.subscribeTeardown client s).2.client).1 ∧
    (ServiceClientBase.unsubscribe client s).1 =
      (if s.self.m_SubscriptionId = "" then Except.ok ()
       else (client.unsubscribeFromService s.self.m_SubscriptionId s.client).1) := by
  have hd : (ServiceClientBase.destructor client s).1 = Except.ok () := by
    unfold ServiceClientBase.destructor
    rcases ServiceClientBase.unsubscribe client s with ⟨r, s₁⟩
    cases r <;> rfl
  have ht : (ServiceClientBase.subscribeTeardown client s).1 = Except.ok () := by
    unfold ServiceClientBase.subscribeTeardown
    rcases ServiceClientBase.unsubscribe client s with ⟨r, s₁⟩
    cases r <;> rfl
  refine ⟨hd, ht, ?_, ?_, unsubscribe_result client s⟩
  · intro e he
    unfold ServiceClientBase.destructor ServiceClientBase.subscribeTeardown
    rcases hu : ServiceClientBase.unsubscribe client s with ⟨r, s₁⟩
    rw [hu] at he
    simp only at he
    subst he
    exact ⟨rfl, rfl⟩
  · unfold ServiceClientBase.subscribe
    rcases hu : ServiceClientBase.subscribeTeardown client s with ⟨r, s₁⟩
    rw [hu] at ht
    simp only at ht
    subst ht
    simp only [State.called]
    rcases client.subscribeToServiceCb s₁.self.m_Service.m_EventSubscriptionURL
        traits.getSubscriptionTimeout s₁.client with ⟨r', k⟩
    cases r' <;> rfl

/-- C5 (instance): a client whose `unsubscribeFromService` throws; the destructor and
`subscribe()` return, the text of the exception is logged. -/
theorem teardown_guarded_witness :
    (ServiceClientBase.destructor Sample.deafClient (Sample.state "uuid:sub1")).1 =
      Except.ok () ∧
    (ServiceClientBase.destructor Sample.deafClient (Sample.state "uuid:sub1")).2.log =
      [(LogLevel.error, "Failed to unsubscribe")] ∧
    (ServiceClientBase.subscribeTeardown Sample.deafClient (Sample.state "uuid:sub1")).1 =
      Except.ok () ∧
    (ServiceClientBase.subscribe Sample.traits Sample.deafClient (Sample.state "uuid:sub1")).1 =
      Except.ok () := by
  have h := teardown_guarded Sample.traits Sample.deafClient (Sample.state "uuid:sub1")
  exact ⟨h.1, (h.2.2.1 (Thrown.other "Failed to unsubscribe") rfl).1, h.2.1, by rw [h.2.2.2.1]; rfl⟩

/-- C5 (counterexample): `unsubscribe()` on a client holding "uuid:sub1" raises the exception
that `unsubscribeFromService` throws. -/
theorem unsubscribe_raises :
    (ServiceClientBase.unsubscribe Sample.deafClient (Sample.state "uuid:sub1")).1 =
      Except.error (Thrown.other "Failed to unsubscribe") :=
  rfl

/-! ## Event dispatch by subscription id -/

theorem findEntry_of_not_mem {K V : Type} [StdKey K] (k : K) :
    ∀ l : List (K × V), k ∉ l.map Prod.fst → findEntry k l = none
  | [], _ => rfl
  | (k', v') :: rest, h => by
    simp only [List.map_cons, List.mem_cons, not_or] at h
    have hne : keyEquiv k' k = false := by
      cases hq : keyEquiv k' k
      · rfl
      · exact absurd ((keyEquiv_iff k' k).mp hq).symm h.1
    simp only [findEntry, hne, Bool.false_eq_true, if_false]
    exact findEntry_of_not_mem k rest h.2

theorem findEntry_of_mem {K V : Type} [StdKey K] (k : K) (v : V) :
    ∀ l : List (K × V), (l.map Prod.fst).Nodup → (k, v) ∈ l → findEntry k l = some v
  | [], _, h => by simp at h
  | (k', v') :: rest, hnd, h => by
    simp only [List.map_cons, List.nodup_cons] at hnd
    obtain ⟨hhead, htail⟩ := hnd
    simp only [List.mem_cons, Prod.mk.injEq] at h
    rcases h with ⟨hk, hv⟩ | h
    · subst hk
      subst hv
      simp [findEntry, (keyEquiv_iff k k).mpr rfl]
    · have hne : keyEquiv k' k = false := by
        cases hq : keyEquiv k' k
        · rfl
        · have hkk : k' = k := (keyEquiv_iff k' k).mp hq
          subst hkk
          exact absurd (List.mem_map_of_mem Prod.fst h) hhead
      simp only [findEntry, hne, Bool.false_eq_true, if_false]
      exact findEntry_of_mem k v rest htail h

/-- C6: an event whose sid is not a key of the callback table invokes no callback and leaves
the client as it is; an event whose sid is a key invokes the callback stored under that sid,
once, with that event (the table holding one entry per sid, as a map does); this holds for
`handlEvent` and for the callback given to the event server.  A service client returns from
`eventOccurred` without any effect when the event's Sid differs from its subscription id. -/
theorem event_dispatch_by_sid {C κ D E A V : Type} [StdKey V] (c : Client2 C)
    (event : SubscriptionEvent) (traits : ServiceTraits A V) (xml : XmlAdapter D E)
    (pEvent : Upnp_Event D) (s : State κ A V) :
    (event.sid ∉ c.m_eventCallbacks.entries.map Prod.fst →
      c.handlEvent event = ([], c) ∧ c.eventServerCallback event = ([], c)) ∧
    (∀ callback : C, (c.m_eventCallbacks.entries.map Prod.fst).Nodup →
      (event.sid, callback) ∈ c.m_eventCallbacks.entries →
      c.handlEvent event = ([(callback, event)], c) ∧
        c.eventServerCallback event = ([(callback, event)], c)) ∧
    (pEvent.Sid ≠ s.self.m_SubscriptionId →
      ServiceClientBase.eventOccurred traits xml pEvent s = (Except.ok (), s)) := by
  refine ⟨?_, ?_, ?_⟩
  · intro h
    have := findEntry_of_not_mem event.sid c.m_eventCallbacks.entries h
    simp [Client2.handlEvent, Client2.eventServerCallback, StdMap.find, this]
  · intro callback hasc hmem
    have := findEntry_of_mem event.sid callback c.m_eventCallbacks.entries hasc hmem
    simp [Client2.handlEvent, Client2.eventServerCallback, StdMap.find, this]
  · intro hne
    simp [ServiceClientBase.eventOccurred, hne]

/-- C6 (instance): a table with the single key "uuid:sub1"; events for "uuid:sub1" and for
"uuid:other"; a service client subscribed as "uuid:sub2". -/
theorem event_dispatch_by_sid_witness :
    ((⟨"uuid:other", "", 0⟩ : SubscriptionEvent).sid ∉
        (({ Sample.client2 with m_eventCallbacks := ⟨[("uuid:sub1", 7)]⟩ } :
          Client2 Nat).m_eventCallbacks.entries.map Prod.fst) ∧
      (({ Sample.client2 with m_eventCallbacks := ⟨[("uuid:sub1", 7)]⟩ } :
          Client2 Nat).m_eventCallbacks.entries.map Prod.fst).Nodup) ∧
    (({ Sample.client2 with m_eventCallbacks := ⟨[("uuid:sub1", 7)]⟩ } : Client2 Nat).handlEvent
        ⟨"uuid:other", "", 0⟩).1 = [] ∧
    (({ Sample.client2 with m_eventCallbacks := ⟨[("uuid:sub1", 7)]⟩ } : Client2 Nat).handlEvent
        ⟨"uuid:sub1", "", 0⟩).1 = [(7, ⟨"uuid:sub1", "", 0⟩)] ∧
    (ServiceClientBase.eventOccurred Sample.traits Sample.xml
        ⟨"uuid:sub1", Sample.propertySetDoc Sample.lastChangeText⟩
        (Sample.state "uuid:sub2")).2.calls = [] := by
  have hnot : (⟨"uuid:other", "", 0⟩ : SubscriptionEvent).sid ∉
      (({ Sample.client2 with m_eventCallbacks := ⟨[("uuid:sub1", 7)]⟩ } :
        Client2 Nat).m_eventCallbacks.entries.map Prod.fst) := by decide
  have hasc : (({ Sample.client2 with m_eventCallbacks := ⟨[("uuid:sub1", 7)]⟩ } :
      Client2 Nat).m_eventCallbacks.entries.map Prod.fst).Nodup := by simp
  have h₀ := event_dispatch_by_sid
    ({ Sample.client2 with m_eventCallbacks := ⟨[("uuid:sub1", 7)]⟩ } : Client2 Nat)
    ⟨"uuid:other", "", 0⟩ Sample.traits Sample.xml
    ⟨"uuid:sub1", Sample.propertySetDoc Sample.lastChangeText⟩ (Sample.state "uuid:sub2")
  have h₁ := event_dispatch_by_sid
    ({ Sample.client2 with m_eventCallbacks := ⟨[("uuid:sub1", 7)]⟩ } : Client2 Nat)
    ⟨"uuid:sub1", "", 0⟩ Sample.traits Sample.xml
    ⟨"uuid:sub1", Sample.propertySetDoc Sample.lastChangeText⟩ (Sample.state "uuid:sub2")
  refine ⟨⟨hnot, hasc⟩, ?_, ?_, ?_⟩
  · rw [(h₀.1 hnot).1]
  · rw [(h₁.2.1 7 hasc (by simp)).1]
  · rw [h₀.2.2 (by decide)]
    rfl

theorem insertVars_frame {κ D E A V : Type} [StdKey V] (traits : ServiceTraits A V)
    (xml : XmlAdapter D E) :
    ∀ (elems : List E) (vars : StdMap V String) (s : State κ A V),
      (ServiceClientBase.insertVars traits xml elems vars s).2.self = s.self ∧
      (ServiceClientBase.insertVars traits xml elems vars s).2.client = s.client ∧
      (ServiceClientBase.insertVars traits xml elems vars s).2.calls = s.calls
  | [], _, _ => ⟨rfl, rfl, rfl⟩
  | elem :: rest, vars, s => by
    unfold ServiceClientBase.insertVars
    split
    · exact ⟨rfl, rfl, rfl⟩
    · split
      · exact ⟨rfl, rfl, rfl⟩
      · split
        · exact ⟨rfl, rfl, rfl⟩
        · exact insertVars_frame traits xml rest _ _

theorem variableChanged_frame {κ D E A V : Type} [StdKey V] (traits : ServiceTraits A V)
    (xml : XmlAdapter D E) (var : E) (s : State κ A V) :
    (ServiceClientBase.variableChanged traits xml var s).2.self = s.self ∧
    (ServiceClientBase.variableChanged traits xml var s).2.client = s.client := by
  unfold ServiceClientBase.variableChanged
  cases ServiceClientBase.instanceIDNode traits xml var with
  | error e => exact ⟨rfl, rfl⟩
  | ok p =>
    obtain ⟨changedVar, node⟩ := p
    simp only
    cases xml.getChildNodes node with
    | error e => exact ⟨rfl, rfl⟩
    | ok elems =>
      simp only
      have hf := insertVars_frame traits xml elems StdMap.empty s
      rcases hres : ServiceClientBase.insertVars traits xml elems StdMap.empty s with ⟨r, s₁⟩
      rw [hres] at hf
      cases r with
      | error e => exact ⟨hf.1, hf.2.1⟩
      | ok vars => exact ⟨hf.1, hf.2.1⟩

theorem variableChangedGuarded_frame {κ D E A V : Type} [StdKey V] (traits : ServiceTraits A V)
    (xml : XmlAdapter D E) (var : E) (s : State κ A V) :
    (ServiceClientBase.variableChangedGuarded traits xml var s).2.self = s.self ∧
    (ServiceClientBase.variableChangedGuarded traits xml var s).2.client = s.client := by
  unfold ServiceClientBase.variableChangedGuarded
  have hf := variableChanged_frame traits xml var s
  rcases hres : ServiceClientBase.variableChanged traits xml var s with ⟨r, s₁⟩
  rw [hres] at hf
  cases r with
  | ok u => exact hf
  | error e =>
    simp only
    cases xml.toString var with
    | error e' => exact hf
    | ok text => exact hf

theorem eachVariable_frame {κ D E A V : Type} [StdKey V] (traits : ServiceTraits A V)
    (xml : XmlAdapter D E) :
    ∀ (vars : List E) (s : State κ A V),
      (ServiceClientBase.eachVariable traits xml vars s).2.self = s.self ∧
      (ServiceClientBase.eachVariable traits xml vars s).2.client = s.client
  | [], _ => ⟨rfl, rfl⟩
  | var :: rest, s => by
    unfold ServiceClientBase.eachVariable
    have hf := variableChangedGuarded_frame traits xml var s
    rcases hres : ServiceClientBase.variableChangedGuarded traits xml var s with ⟨r, s₁⟩
    rw [hres] at hf
    cases r with
    | error e => exact hf
    | ok u =>
      have ih := eachVariable_frame traits xml rest s₁
      exact ⟨ih.1.trans hf.1, ih.2.trans hf.2⟩

theorem eachProperty_frame {κ D E A V : Type} [StdKey V] (traits : ServiceTraits A V)
    (xml : XmlAdapter D E) :
    ∀ (properties : List E) (s : State κ A V),
      (ServiceClientBase.eachProperty traits xml properties s).2.self = s.self ∧
      (ServiceClientBase.eachProperty traits xml properties s).2.client = s.client
  | [], _ => ⟨rfl, rfl⟩
  | property :: rest, s => by
    unfold ServiceClientBase.eachProperty
    cases xml.getChildNodes property with
    | error e => exact ⟨rfl, rfl⟩
    | ok vars =>
      simp only
      have hf := eachVariable_frame traits xml vars s
      rcases hres : ServiceClientBase.eachVariable traits xml vars s with ⟨r, s₁⟩
      rw [hres] at hf
      cases r with
      | error e => exact hf
      | ok u =>
        have ih := eachProperty_frame traits xml rest s₁
        exact ⟨ih.1.trans hf.1, ih.2.trans hf.2⟩

theorem eventOccurredBody_frame {κ D E A V : Type} [StdKey V] (traits : ServiceTraits A V)
    (xml : XmlAdapter D E) (pEvent : Upnp_Event D) (s : State κ A V) :
    (ServiceClientBase.eventOccurredBody traits xml pEvent s).2.self = s.self ∧
    (ServiceClientBase.eventOccurredBody traits xml pEvent s).2.client = s.client := by
  unfold ServiceClientBase.eventOccurredBody
  cases xml.getFirstChild pEvent.ChangedVariables with
  | error e => exact ⟨rfl, rfl⟩
  | ok propertySet =>
    simp only
    cases xml.getChildNodes propertySet with
    | error e => exact ⟨rfl, rfl⟩
    | ok properties => exact eachProperty_frame traits xml properties s

theorem eventOccurred_frame {κ D E A V : Type} [StdKey V] (traits : ServiceTraits A V)
    (xml : XmlAdapter D E) (pEvent : Upnp_Event D) (s : State κ A V) :
    (ServiceClientBase.eventOccurred traits xml pEvent s).1 = Except.ok () ∧
    (ServiceClientBase.eventOccurred traits xml pEvent s).2.self = s.self ∧
    (ServiceClientBase.eventOccurred traits xml pEvent s).2.client = s.client := by
  unfold ServiceClientBase.eventOccurred
  split
  · have hf := eventOccurredBody_frame traits xml pEvent s
    rcases hres : ServiceClientBase.eventOccurredBody traits xml pEvent s with ⟨r, s₁⟩
    rw [hres] at hf
    cases r with
    | error e => exact ⟨rfl, hf⟩
    | ok u => exact ⟨rfl, hf⟩
  · exact ⟨rfl, rfl, rfl⟩

/-- C9: `eventOccurred` returns normally for every event, whatever the XML wrapper and the
string conversions do with its payload (each of their operations may throw), and leaves the
service client object, so its subscription id and its set of supported actions, and the state
of the `IClient` as they were. -/
theorem eventOccurred_returns {κ D E A V : Type} [StdKey V] (traits : ServiceTraits A V)
    (xml : XmlAdapter D E) (pEvent : Upnp_Event D) (s : State κ A V) :
    (ServiceClientBase.eventOccurred traits xml pEvent s).1 = Except.ok () ∧
    (ServiceClientBase.eventOccurred traits xml pEvent s).2.self.m_SubscriptionId =
      s.self.m_SubscriptionId ∧
    (ServiceClientBase.eventOccurred traits xml pEvent s).2.self.m_SupportedActions =
      s.self.m_SupportedActions ∧
    (ServiceClientBase.eventOccurred traits xml pEvent s).2.self = s.self ∧
    (ServiceClientBase.eventOccurred traits xml pEvent s).2.client = s.client := by
  obtain ⟨h₁, h₂, h₃⟩ := eventOccurred_frame traits xml pEvent s
  exact ⟨h₁, by rw [h₂], by rw [h₂], h₂, h₃⟩

/-- C9 (instance): three payloads on which the body of `eventOccurred` throws (a LastChange
value that does not parse, an empty document, a variable that is not known), and the
normal return of `eventOccurred` on them. -/
theorem eventOccurred_returns_witness :
    (ServiceClientBase.variableChanged Sample.traits Sample.xml
        (Sample.Node.element "LastChange" [] "<Event" []) (Sample.state "uuid:sub1")).1 =
      Except.error (Thrown.other "Failed to parse xml") ∧
    (ServiceClientBase.eventOccurredBody Sample.traits Sample.xml
        ⟨"uuid:sub1", Sample.Node.element "#document" [] "" []⟩ (Sample.state "uuid:sub1")).1 =
      Except.error (Thrown.other "No first child") ∧
    (ServiceClientBase.variableChanged Sample.traits Sample.xml
        (Sample.Node.element "Volume" [] "" []) (Sample.state "uuid:sub1")).1 =
      Except.error (Thrown.other "Unknown variable: Volume") ∧
    (ServiceClientBase.eventOccurred Sample.traits Sample.xml
        ⟨"uuid:sub1", Sample.propertySetDoc "<Event"⟩ (Sample.state "uuid:sub1")).1 =
      Except.ok () ∧
    (ServiceClientBase.eventOccurred Sample.traits Sample.xml
        ⟨"uuid:sub1", Sample.Node.element "#document" [] "" []⟩ (Sample.state "uuid:sub1")).1 =
      Except.ok () ∧
    (ServiceClientBase.eventOccurred Sample.traits Sample.xml
        ⟨"uuid:sub1", Sample.propertySetDoc "<Event"⟩
        (Sample.state "uuid:sub1")).2.self.m_SubscriptionId = "uuid:sub1" :=
  ⟨rfl, rfl, rfl,
    (eventOccurred_returns Sample.traits Sample.xml
      ⟨"uuid:sub1", Sample.propertySetDoc "<Event"⟩ (Sample.state "uuid:sub1")).1,
    (eventOccurred_returns Sample.traits Sample.xml
      ⟨"uuid:sub1", Sample.Node.element "#document" [] "" []⟩ (Sample.state "uuid:sub1")).1,
    (eventOccurred_returns Sample.traits Sample.xml
      ⟨"uuid:sub1", Sample.propertySetDoc "<Event"⟩ (Sample.state "uuid:sub1")).2.1⟩

/-! ## LastChange events -/

theorem insertVars_of_known {κ D E A V : Type} [StdKey V] (traits : ServiceTraits A V)
    (xml : XmlAdapter D E) :
    ∀ (elems : List E) (pairs : List (V × String)) (vars : StdMap V String) (s : State κ A V),
      List.Forall₂
        (fun e p => ∃ n : String, xml.getName e = Except.ok n ∧
          traits.variableFromString n = Except.ok p.1 ∧
          xml.getAttribute e "val" = Except.ok p.2) elems pairs →
      (ServiceClientBase.insertVars traits xml elems vars s).1 =
        Except.ok (pairs.foldl (fun m p => m.insert p.1 p.2) vars)
  | [], [], _, _, _ => rfl
  | [], _ :: _, _, _, h => by cases h
  | _ :: _, [], _, _, h => by cases h
  | elem :: rest, p :: ps, vars, s, h => by
    cases h with
    | cons hhead htail =>
      obtain ⟨n, hn, hv, ha⟩ := hhead
      unfold ServiceClientBase.insertVars
      simp only [ha, hn, hv, List.foldl_cons]
      exact insertVars_of_known traits xml rest ps _ _ htail

/-- C8: an event with the client's subscription id, whose property set holds one property with
one variable named LastChange, whose value parses to a document with first child `eventNode`,
whose child InstanceID has the children `elems`, each with a known variable name and a `val`
attribute (`pairs` lists the variables and values in document order): `eventOccurred` returns,
having called `handleStateVariableEvent` and then the signal `StateVariableEvent`, once each and
in that order, with changed variable LastChange and the map of `pairs` (the value of a variable
is the one of its first element). -/
theorem eventOccurred_lastChange {κ D E A V : Type} [StdKey V] (traits : ServiceTraits A V)
    (xml : XmlAdapter D E) (pEvent : Upnp_Event D) (s : State κ A V)
    (propertySet property var eventNode instanceID : E) (text : String) (changeDoc : D)
    (lastChange : V) (elems : List E) (pairs : List (V × String))
    (hsid : pEvent.Sid = s.self.m_SubscriptionId)
    (hset : xml.getFirstChild pEvent.ChangedVariables = Except.ok propertySet)
    (hprops : xml.getChildNodes propertySet = Except.ok [property])
    (hvars : xml.getChildNodes property = Except.ok [var])
    (hname : xml.getName var = Except.ok "LastChange")
    (hlast : traits.variableFromString "LastChange" = Except.ok lastChange)
    (hvalue : xml.getValue var = Except.ok text)
    (hparse : xml.parse text = Except.ok changeDoc)
    (hevent : xml.getFirstChild changeDoc = Except.ok eventNode)
    (hinst : xml.getChildElement eventNode "InstanceID" = Except.ok instanceID)
    (helems : xml.getChildNodes instanceID = Except.ok elems)
    (hpairs : List.Forall₂
      (fun e p => ∃ n : String, xml.getName e = Except.ok n ∧
        traits.variableFromString n = Except.ok p.1 ∧
        xml.getAttribute e "val" = Except.ok p.2) elems pairs) :
    (ServiceClientBase.eventOccurred traits xml pEvent s).1 = Except.ok () ∧
    (ServiceClientBase.eventOccurred traits xml pEvent s).2.calls =
      s.calls ++ [Effect.handleStateVariableEvent lastChange (StdMap.ofList pairs).entries]
        ++ traits.handleStateVariableEvent lastChange (StdMap.ofList pairs).entries
        ++ [Effect.StateVariableEvent lastChange (StdMap.ofList pairs).entries] ∧
    (∀ x : V, findEntry x (StdMap.ofList pairs).entries = findEntry x pairs) := by
  refine ⟨(eventOccurred_frame traits xml pEvent s).1, ?_, fun x => ofList_find pairs x⟩
  have hins := insertVars_of_known traits xml elems pairs StdMap.empty s hpairs
  have hfr := insertVars_frame traits xml elems StdMap.empty s
  rcases hres : ServiceClientBase.insertVars traits xml elems StdMap.empty s with ⟨r, s₁⟩
  rw [hres] at hins hfr
  simp only at hins hfr
  subst hins
  unfold ServiceClientBase.eventOccurred
  rw [if_pos hsid]
  simp only [ServiceClientBase.eventOccurredBody, hset, hprops, ServiceClientBase.eachProperty,
    hvars, ServiceClientBase.eachVariable, ServiceClientBase.variableChangedGuarded,
    ServiceClientBase.variableChanged, ServiceClientBase.instanceIDNode, hname, hlast, hvalue,
    hparse, hevent, hinst, helems, hres, hfr.2.2]
  rfl

/-- C8 (instance): the notification of the subscription scenario, TransportState PLAYING under
InstanceID 0, received by the AVTransport client: the handler, the `LastChangeEvent` signal it
emits and `StateVariableEvent` are called with the map TransportState -> "PLAYING". -/
theorem eventOccurred_lastChange_witness :
    (ServiceClientBase.eventOccurred Sample.traits Sample.xml
        ⟨"uuid:sub1", Sample.propertySetDoc Sample.lastChangeText⟩
        (Sample.state "uuid:sub1")).1 = Except.ok () ∧
    (ServiceClientBase.eventOccurred Sample.traits Sample.xml
        ⟨"uuid:sub1", Sample.propertySetDoc Sample.lastChangeText⟩
        (Sample.state "uuid:sub1")).2.calls =
      [Effect.handleStateVariableEvent AVTransport.Variable.LastChange
          [(AVTransport.Variable.TransportState, "PLAYING")],
        Effect.LastChangeEvent [(AVTransport.Variable.TransportState, "PLAYING")],
        Effect.StateVariableEvent AVTransport.Variable.LastChange
          [(AVTransport.Variable.TransportState, "PLAYING")]] ∧
    (∀ x : AVTransport.Variable,
      findEntry x (StdMap.ofList [(AVTransport.Variable.TransportState, "PLAYING")]).entries =
        findEntry x [(AVTransport.Variable.TransportState, "PLAYING")]) :=
  eventOccurred_lastChange Sample.traits Sample.xml
    ⟨"uuid:sub1", Sample.propertySetDoc Sample.lastChangeText⟩ (Sample.state "uuid:sub1")
    (Sample.Node.element "e:propertyset" [] ""
      [Sample.Node.element "e:property" [] ""
        [Sample.Node.element "LastChange" [] Sample.lastChangeText []]])
    (Sample.Node.element "e:property" [] ""
      [Sample.Node.element "LastChange" [] Sample.lastChangeText []])
    (Sample.Node.element "LastChange" [] Sample.lastChangeText [])
    (Sample.Node.element "Event" [] ""
      [Sample.Node.element "InstanceID" [("val", "0")] ""
        [Sample.Node.element "TransportState" [("val", "PLAYING")] "" []]])
    (Sample.Node.element "InstanceID" [("val", "0")] ""
      [Sample.Node.element "TransportState" [("val", "PLAYING")] "" []])
    Sample.lastChangeText Sample.lastChangeDoc AVTransport.Variable.LastChange
    [Sample.Node.element "TransportState" [("val", "PLAYING")] "" []]
    [(AVTransport.Variable.TransportState, "PLAYING")]
    rfl rfl rfl rfl rfl rfl rfl rfl rfl rfl rfl
    (List.Forall₂.cons ⟨"TransportState", rfl, rfl, rfl⟩ List.Forall₂.nil)

/-! ## Service description failures (`setDevice`) -/

theorem insertActions_frame {κ A V : Type} [StdKey A] (traits : ServiceTraits A V) :
    ∀ (actions : List String) (s : State κ A V),
      (ServiceClientBase.insertActions traits actions s).self.m_Service = s.self.m_Service
  | [], _ => rfl
  | action :: rest, s => by
    unfold ServiceClientBase.insertActions
    split
    · exact insertActions_frame traits rest _
    · exact insertActions_frame traits rest _

theorem parseServiceDescription_returns {κ D E A V : Type} [StdKey A]
    (traits : ServiceTraits A V) (xml : XmlAdapter D E) (client : IClient κ D)
    (url : String) (s : State κ A V) :
    (ServiceClientBase.parseServiceDescription traits xml client url s).1 = Except.ok () ∧
    (ServiceClientBase.parseServiceDescription traits xml client url s).2.self.m_Service =
      s.self.m_Service := by
  have hbody : (ServiceClientBase.parseServiceDescriptionBody traits xml client url s).2.self.m_Service
      = s.self.m_Service := by
    unfold ServiceClientBase.parseServiceDescriptionBody
    simp only [State.called]
    split
    · rfl
    · split
      · rfl
      · split
        · exact insertActions_frame traits _ _
        · exact insertActions_frame traits _ _
  unfold ServiceClientBase.parseServiceDescription
  rcases hres : ServiceClientBase.parseServiceDescriptionBody traits xml client url s with ⟨r, s₁⟩
  rw [hres] at hbody
  cases r with
  | error e => exact ⟨rfl, hbody⟩
  | ok u => exact ⟨rfl, hbody⟩

/-- C10 (as amended): on a freshly constructed service client and a device that implements the
service, `setDevice` returns normally with the device's service descriptor adopted, whatever
raises while the description is downloaded and read; if the download raises, or the extraction
of the action list raises, the set of supported actions is empty afterwards (`supportsAction`
is false for every action). -/
theorem setDevice_description_failure {κ D E A V : Type} [StdKey A]
    (traits : ServiceTraits A V) (xml : XmlAdapter D E) (client : IClient κ D)
    (device : Device) (s : State κ A V)
    (hfresh : s.self.m_SupportedActions.elems = [])
    (himpl : device.implementsService traits.getType = true) :
    (ServiceClientBase.setDevice traits xml client device s).1 = Except.ok () ∧
    (ServiceClientBase.setDevice traits xml client device s).2.self.m_Service =
      device.service traits.getType ∧
    (((∃ e : Thrown,
          (client.downloadXmlDocument (device.service traits.getType).m_SCPDUrl s.client).1 =
            Except.error e) ∨
        (∃ (doc : D) (e : Thrown),
          (client.downloadXmlDocument (device.service traits.getType).m_SCPDUrl s.client).1 =
            Except.ok doc ∧
          xml.getActionsFromDescription doc = Except.error e)) →
      ∀ a : A, (ServiceClientBase.setDevice traits xml client device s).2.self.supportsAction a =
        false) := by
  unfold ServiceClientBase.setDevice
  rw [if_pos himpl]
  refine ⟨(parseServiceDescription_returns traits xml client _ _).1,
    (parseServiceDescription_returns traits xml client _ _).2, ?_⟩
  intro hfail a
  have hempty : (ServiceClientBase.parseServiceDescription traits xml client
      (device.service traits.getType).m_SCPDUrl
      { s with self := { s.self with m_Service := device.service traits.getType } }
      ).2.self.m_SupportedActions.elems = [] := by
    unfold ServiceClientBase.parseServiceDescription
      ServiceClientBase.parseServiceDescriptionBody
    simp only [State.called]
    rcases hdl : client.downloadXmlDocument (device.service traits.getType).m_SCPDUrl s.client
      with ⟨r, k⟩
    rw [hdl] at hfail
    simp only at hfail
    cases r with
    | error e => exact hfresh
    | ok doc =>
      rcases hfail with ⟨e, he⟩ | ⟨doc', e, hd, he⟩
      · cases he
      · cases hd
        simp only [he]
        exact hfresh
  simp [ServiceClientBase.supportsAction, StdSet.contains, hempty]

/-- C10 (instance): the download of the description fails. -/
theorem setDevice_description_failure_witness :
    ((Sample.state "").self.m_SupportedActions.elems = [] ∧
      Sample.device.implementsService Sample.traits.getType = true) ∧
    (ServiceClientBase.setDevice Sample.traits Sample.xml
        (Sample.client (Except.ok Sample.scpdDoc) (Except.ok ())
          (Except.error (Thrown.other "Timeout")))
        Sample.device (Sample.state "")).1 = Except.ok () ∧
    (ServiceClientBase.setDevice Sample.traits Sample.xml
        (Sample.client (Except.ok Sample.scpdDoc) (Except.ok ())
          (Except.error (Thrown.other "Timeout")))
        Sample.device (Sample.state "")).2.self.m_Service.m_SCPDUrl =
      "http://renderer/scpd.xml" ∧
    (∀ a : AVTransport.Action,
      (ServiceClientBase.setDevice Sample.traits Sample.xml
        (Sample.client (Except.ok Sample.scpdDoc) (Except.ok ())
          (Except.error (Thrown.other "Timeout")))
        Sample.device (Sample.state "")).2.self.supportsAction a = false) := by
  have h := setDevice_description_failure Sample.traits Sample.xml
    (Sample.client (Except.ok Sample.scpdDoc) (Except.ok ())
      (Except.error (Thrown.other "Timeout")))
    Sample.device (Sample.state "") rfl rfl
  exact ⟨⟨rfl, rfl⟩, h.1, by rw [h.2.1]; rfl, h.2.2 (Or.inl ⟨_, rfl⟩)⟩

/-- C10 (counterexample): the description lists the action Play and the extraction of its
state variables raises; `setDevice` on a fresh client returns normally and `supportsAction` is
true for Play afterwards. -/
theorem setDevice_keeps_actions_read_before_failure :
    Sample.xml.getStateVariablesFromDescription Sample.scpdDoc =
      Except.error (Thrown.other "No child element: serviceStateTable") ∧
    (Sample.state "").self.m_SupportedActions.elems = [] ∧
    (ServiceClientBase.setDevice Sample.traits Sample.xml Sample.goodClient Sample.device
        (Sample.state "")).1 = Except.ok () ∧
    (ServiceClientBase.setDevice Sample.traits Sample.xml Sample.goodClient Sample.device
        (Sample.state "")).2.self.supportsAction AVTransport.Action.Play = true :=
  ⟨rfl, rfl, rfl, rfl⟩

/-! ## Supported actions (`setDevice`) -/

theorem mem_insertElem {K : Type} [StdKey K] (k a : K) :
    ∀ l : List K, a ∈ insertElem k l ↔ a = k ∨ a ∈ l
  | [] => by simp [insertElem]
  | k' :: rest => by
    simp only [insertElem]
    split
    · simp
    · split
      · simp only [List.mem_cons, mem_insertElem k a rest]
        tauto
      · rename_i h₁ h₂
        have hkk : k = k' := keyLess_connex (by simpa using h₁) (by simpa using h₂)
        subst hkk
        simp

theorem contains_iff_mem {K : Type} [StdKey K] (s : StdSet K) (a : K) :
    s.contains a = true ↔ a ∈ s.elems := by
  simp only [StdSet.contains, List.any_eq_true]
  constructor
  · rintro ⟨x, hx, hq⟩
    rw [← (keyEquiv_iff x a).mp hq]
    exact hx
  · intro h
    exact ⟨a, h, (keyEquiv_iff a a).mpr rfl⟩

theorem insertActions_supported {κ A V : Type} [StdKey A] (traits : ServiceTraits A V) (a : A) :
    ∀ (names : List String) (s : State κ A V),
      a ∈ (ServiceClientBase.insertActions traits names s).self.m_SupportedActions.elems ↔
        a ∈ s.self.m_SupportedActions.elems ∨
          ∃ n ∈ names, traits.actionFromString n = Except.ok a
  | [], s => by simp [ServiceClientBase.insertActions]
  | name :: rest, s => by
    unfold ServiceClientBase.insertActions
    split
    · rename_i b hb
      rw [insertActions_supported traits a rest]
      simp only [StdSet.insert, mem_insertElem, List.mem_cons, exists_eq_or_imp, hb,
        Except.ok.injEq]
      constructor
      · rintro ((h | h) | h)
        · exact Or.inr (Or.inl h.symm)
        · exact Or.inl h
        · exact Or.inr (Or.inr h)
      · rintro (h | h | h)
        · exact Or.inl (Or.inr h)
        · exact Or.inl (Or.inl h.symm)
        · exact Or.inr h
    · rename_i e he
      rw [insertActions_supported traits a rest]
      simp only [State.logged, List.mem_cons, exists_eq_or_imp, he]
      constructor
      · rintro (h | h)
        · exact Or.inl h
        · exact Or.inr (Or.inr h)
      · rintro (h | h | h)
        · exact Or.inl h
        · cases h
        · exact Or.inr h

/-- C11 (as amended): after `setDevice(d)` for a device that implements the service type and
whose description is downloaded and lists the action names `names`, `supportsAction(a)` holds
iff `a` was supported before the call or `a = actionFromString(n)` for a recognised name `n` of
the description (the set is added to, never cleared: on a client without supported actions it
is the set of the description); a name that `actionFromString` rejects is skipped without
affecting the others; a device that does not implement the service leaves the client
unchanged. -/
theorem setDevice_supported_actions {κ D E A V : Type} [StdKey A]
    (traits : ServiceTraits A V) (xml : XmlAdapter D E) (client : IClient κ D)
    (device : Device) (s : State κ A V) :
    (device.implementsService traits.getType = false →
      ServiceClientBase.setDevice traits xml client device s = (Except.ok (), s)) ∧
    (∀ (doc : D) (names : List String),
      device.implementsService traits.getType = true →
      (client.downloadXmlDocument (device.service traits.getType).m_SCPDUrl s.client).1 =
        Except.ok doc →
      xml.getActionsFromDescription doc = Except.ok names →
      ∀ a : A,
        (ServiceClientBase.setDevice traits xml client device s).2.self.supportsAction a = true ↔
          (s.self.supportsAction a = true ∨
            ∃ n ∈ names, traits.actionFromString n = Except.ok a)) := by
  constructor
  · intro h
    simp [ServiceClientBase.setDevice, h]
  · intro doc names himpl hdl hacts a
    simp only [ServiceClientBase.supportsAction, contains_iff_mem]
    unfold ServiceClientBase.setDevice
    rw [if_pos himpl]
    unfold ServiceClientBase.parseServiceDescription
      ServiceClientBase.parseServiceDescriptionBody
    simp only [State.called]
    rcases hcall : client.downloadXmlDocument (device.service traits.getType).m_SCPDUrl s.client
      with ⟨r, k⟩
    rw [hcall] at hdl
    simp only at hdl
    subst hdl
    simp only [hacts]
    cases xml.getStateVariablesFromDescription doc with
    | error e =>
      simp only [State.logged]
      rw [insertActions_supported traits a names]
    | ok vars =>
      simp only
      rw [insertActions_supported traits a names]

/-- C11 (instance): a fresh AVTransport client and the sample device, whose description lists
Play. -/
theorem setDevice_supported_actions_witness :
    (Sample.device.implementsService Sample.traits.getType = true ∧
      (Sample.goodClient.downloadXmlDocument
          (Sample.device.service Sample.traits.getType).m_SCPDUrl (Sample.state "").client).1 =
        Except.ok Sample.scpdDoc ∧
      Sample.xml.getActionsFromDescription Sample.scpdDoc = Except.ok ["Play"]) ∧
    ∀ a : AVTransport.Action,
      (ServiceClientBase.setDevice Sample.traits Sample.xml Sample.goodClient Sample.device
          (Sample.state "")).2.self.supportsAction a = true ↔
        ((Sample.state "").self.supportsAction a = true ∨
          ∃ n ∈ ["Play"], Sample.traits.actionFromString n = Except.ok a) :=
  ⟨⟨rfl, rfl, rfl⟩,
    (setDevice_supported_actions Sample.traits Sample.xml Sample.goodClient Sample.device
      (Sample.state "")).2 Sample.scpdDoc ["Play"] rfl rfl rfl⟩

/-- C11 (counterexample): a client that supports Stop (from a device set before) is given the
sample device, whose description lists Play only; Stop, which is no action of that description,
is still supported afterwards. -/
theorem setDevice_keeps_earlier_actions :
    Sample.xml.getActionsFromDescription Sample.scpdDoc = Except.ok ["Play"] ∧
    (ServiceClientBase.setDevice Sample.traits Sample.xml Sample.goodClient Sample.device
        { Sample.state "" with
          self := { m_SupportedActions := ⟨[AVTransport.Action.Stop]⟩ } }).2.self.supportsAction
      AVTransport.Action.Stop = true ∧
    (ServiceClientBase.setDevice Sample.traits Sample.xml Sample.goodClient Sample.device
        { Sample.state "" with
          self := { m_SupportedActions := ⟨[AVTransport.Action.Stop]⟩ } }).2.self.supportsAction
      AVTransport.Action.Play = true :=
  ⟨rfl, rfl, rfl⟩

/-! ## Renewal of a subscription (`eventCb`) -/

/-- C12 (as amended): when auto-renewal fails or the publisher signals expiry, `eventCb` makes
exactly one `subscribeToService` call, to the event's publisher URL with the service's
subscription timeout, and returns 0 without raising; if the call returns an id, that id becomes
the stored subscription id; if the call throws, the failure is logged and the stored
subscription id is left as it was. -/
theorem eventCb_renewal {κ D A V : Type} (traits : ServiceTraits A V) (client : IClient κ D)
    (eventType : Upnp_EventType) (pEvent : Upnp_Event_Subscribe) (s : State κ A V)
    (hType : eventType = Upnp_EventType.UPNP_EVENT_AUTORENEWAL_FAILED ∨
      eventType = Upnp_EventType.UPNP_EVENT_SUBSCRIPTION_EXPIRED) :
    (ServiceClientBase.eventCb traits client eventType pEvent s).1 = Except.ok 0 ∧
    (ServiceClientBase.eventCb traits client eventType pEvent s).2.calls =
      s.calls ++
        [Effect.subscribeToService pEvent.PublisherUrl traits.getSubscriptionTimeout] ∧
    (∀ sid : String,
      (client.subscribeToService pEvent.PublisherUrl traits.getSubscriptionTimeout s.client).1 =
        Except.ok sid →
      (ServiceClientBase.eventCb traits client eventType pEvent s).2.self.m_SubscriptionId =
        sid) ∧
    (∀ e : Thrown,
      (client.subscribeToService pEvent.PublisherUrl traits.getSubscriptionTimeout s.client).1 =
        Except.error e →
      (ServiceClientBase.eventCb traits client eventType pEvent s).2.self.m_SubscriptionId =
          s.self.m_SubscriptionId ∧
        (ServiceClientBase.eventCb traits client eventType pEvent s).2.log =
          s.log ++ [(LogLevel.error, "Failed to renew event subscription: " ++ e.what)]) := by
  rcases hcall : client.subscribeToService pEvent.PublisherUrl traits.getSubscriptionTimeout
    s.client with ⟨r, k⟩
  rcases hType with h | h <;> subst h <;>
    simp only [ServiceClientBase.eventCb, State.called, State.logged, hcall] <;>
    cases r <;> simp

/-- C12 (instance): expiry signalled to a client holding "uuid:sub1"; the renewal succeeds. -/
theorem eventCb_renewal_witness :
    (Upnp_EventType.UPNP_EVENT_SUBSCRIPTION_EXPIRED =
        Upnp_EventType.UPNP_EVENT_AUTORENEWAL_FAILED ∨
      Upnp_EventType.UPNP_EVENT_SUBSCRIPTION_EXPIRED =
        Upnp_EventType.UPNP_EVENT_SUBSCRIPTION_EXPIRED) ∧
    (ServiceClientBase.eventCb Sample.traits Sample.goodClient
        Upnp_EventType.UPNP_EVENT_SUBSCRIPTION_EXPIRED
        ⟨some "uuid:sub1", 0, "http://renderer/event", 0⟩ (Sample.state "uuid:sub1")).1 =
      Except.ok 0 ∧
    (ServiceClientBase.eventCb Sample.traits Sample.goodClient
        Upnp_EventType.UPNP_EVENT_SUBSCRIPTION_EXPIRED
        ⟨some "uuid:sub1", 0, "http://renderer/event", 0⟩ (Sample.state "uuid:sub1")).2.calls =
      [Effect.subscribeToService "http://renderer/event" 1801] ∧
    (ServiceClientBase.eventCb Sample.traits Sample.goodClient
        Upnp_EventType.UPNP_EVENT_SUBSCRIPTION_EXPIRED
        ⟨some "uuid:sub1", 0, "http://renderer/event", 0⟩
        (Sample.state "uuid:sub1")).2.self.m_SubscriptionId = "uuid:renewed" := by
  have h := eventCb_renewal Sample.traits Sample.goodClient
    Upnp_EventType.UPNP_EVENT_SUBSCRIPTION_EXPIRED
    ⟨some "uuid:sub1", 0, "http://renderer/event", 0⟩ (Sample.state "uuid:sub1") (Or.inr rfl)
  exact ⟨Or.inr rfl, h.1, h.2.1, h.2.2.1 "uuid:renewed" rfl⟩

/-- C12 (counterexample): auto-renewal failed for a client holding "uuid:sub1" and the
re-subscription throws; `eventCb` returns 0 and the stored subscription id is still
"uuid:sub1". -/
theorem eventCb_keeps_sid_when_renewal_fails :
    (ServiceClientBase.eventCb Sample.traits Sample.lostClient
        Upnp_EventType.UPNP_EVENT_AUTORENEWAL_FAILED
        ⟨some "uuid:sub1", 0, "http://renderer/event", 0⟩ (Sample.state "uuid:sub1")).1 =
      Except.ok 0 ∧
    (ServiceClientBase.eventCb Sample.traits Sample.lostClient
        Upnp_EventType.UPNP_EVENT_AUTORENEWAL_FAILED
        ⟨some "uuid:sub1", 0, "http://renderer/event", 0⟩
        (Sample.state "uuid:sub1")).2.self.m_SubscriptionId = "uuid:sub1" :=
  ⟨rfl, rfl⟩

/-! ## The HTTP client: deadlines and errors -/

theorem idle_step (c : http.Client) (st : http.Step) (hl : st.isLocal = true)
    (hw : c.timerWaiting = false) (hr : c.ready = []) :
    (c.step st).timerWaiting = false ∧ (c.step st).ready = [] ∧
      (c.step st).reported = c.reported ∧ (c.step st).socketOpen = c.socketOpen ∧
      (c.step st).pendingOp = c.pendingOp := by
  cases st with
  | tick dt => exact ⟨hw, hr, rfl, rfl, rfl⟩
  | dispatch => simp [http.Client.step, hr, hw]
  | timerExpires => simp [http.Client.step, hr, hw]
  | connected e => simp [http.Step.isLocal] at hl
  | written e => simp [http.Step.isLocal] at hl
  | received e n r => simp [http.Step.isLocal] at hl

theorem idle_steps : ∀ (l : List http.Step) (c : http.Client),
    (∀ st ∈ l, st.isLocal = true) → c.timerWaiting = false → c.ready = [] →
    (c.steps l).reported = c.reported ∧ (c.steps l).socketOpen = c.socketOpen ∧
      (c.steps l).pendingOp = c.pendingOp
  | [], _, _, _, _ => ⟨rfl, rfl, rfl⟩
  | st :: rest, c, hl, hw, hr => by
    have h₁ := idle_step c st (hl st (List.mem_cons_self _ _)) hw hr
    have h₂ := idle_steps rest (c.step st)
      (fun x hx => hl x (List.mem_cons_of_mem _ hx)) h₁.1 h₁.2.1
    simp only [http.Client.steps, List.foldl_cons] at h₂ ⊢
    exact ⟨h₂.1.trans h₁.2.2.1, h₂.2.1.trans h₁.2.2.2.1, h₂.2.2.trans h₁.2.2.2.2⟩

/-- C13 (the code at the failing input): a request with deadline `timeout`.  When the deadline
expires while the connect is pending, the socket is closed and the callback is called once,
with Timeout.  When the connect and the write have completed and the response is awaited, no
wait is outstanding on the timer (the connect handler cancelled it and `checkTimeout` returns on
`operation_aborted` without waiting again): whatever time passes, and whatever the timer and
the dispatcher do, the socket stays open, the receive stays outstanding and the callback is not
called; and a receive that is aborted reports NetworkError. -/
theorem deadline_in_receive_phase_has_no_effect (timeout now extra : Nat)
    (l : List http.Step) :
    (((Sample.httpClient timeout now).performRequest http.AsioError.success
        http.AsioError.success).steps
        [http.Step.tick (timeout + extra), http.Step.timerExpires, http.Step.dispatch]).reported =
      [http.StdErrorCode.http http.error.ErrorCode.Timeout] ∧
    (((Sample.httpClient timeout now).performRequest http.AsioError.success
        http.AsioError.success).steps
        [http.Step.tick (timeout + extra), http.Step.timerExpires,
          http.Step.dispatch]).socketOpen = false ∧
    ((((Sample.httpClient timeout now).performRequest http.AsioError.success
        http.AsioError.success).steps
        [http.Step.connected http.AsioError.success, http.Step.dispatch,
          http.Step.written http.AsioError.success]).steps
        (l.filter http.Step.isLocal)).reported = [] ∧
    ((((Sample.httpClient timeout now).performRequest http.AsioError.success
        http.AsioError.success).steps
        [http.Step.connected http.AsioError.success, http.Step.dispatch,
          http.Step.written http.AsioError.success]).steps
        (l.filter http.Step.isLocal)).socketOpen = true ∧
    ((((Sample.httpClient timeout now).performRequest http.AsioError.success
        http.AsioError.success).steps
        [http.Step.connected http.AsioError.success, http.Step.dispatch,
          http.Step.written http.AsioError.success]).steps
        (l.filter http.Step.isLocal)).pendingOp = some http.IoOp.receive ∧
    ((((Sample.httpClient timeout now).performRequest http.AsioError.success
        http.AsioError.success).steps
        [http.Step.connected http.AsioError.success, http.Step.dispatch,
          http.Step.written http.AsioError.success]).steps
        [http.Step.received http.AsioError.operation_aborted 0
          (http.ParseResult.parsed 0 none false false)]).reported =
      [http.StdErrorCode.http http.error.ErrorCode.NetworkError] := by
  have hconn : ∀ (t n e : Nat),
      (((Sample.httpClient t n).performRequest http.AsioError.success
        http.AsioError.success).steps
        [http.Step.tick (t + e), http.Step.timerExpires, http.Step.dispatch]) =
      { Sample.httpClient t n with
        now := n + (t + e)
        reported := [http.StdErrorCode.http http.error.ErrorCode.Timeout] } := by
    intro t n e
    simp [http.Client.steps, http.Client.step, http.Client.performRequest, Sample.httpClient,
      http.Client.socketClose, http.Client.timerExpiresFromNow, http.Client.timerCancel,
      http.Client.deadlinePassed, http.Client.run, http.Client.checkTimeout,
      http.Client.timerExpiresAtMax, http.abortedHandler, http.Client.cb,
      http.StdErrorCode.isError, http.Client.report]
  have hrecv : ∀ (t n : Nat),
      (((Sample.httpClient t n).performRequest http.AsioError.success
        http.AsioError.success).steps
        [http.Step.connected http.AsioError.success, http.Step.dispatch,
          http.Step.written http.AsioError.success]) =
      { Sample.httpClient t n with
        socketOpen := true
        pendingOp := some http.IoOp.receive
        timerExpiry := some (n + t) } := by
    intro t n
    simp [http.Client.steps, http.Client.step, http.Client.performRequest, Sample.httpClient,
      http.Client.socketClose, http.Client.timerExpiresFromNow, http.Client.timerCancel,
      http.Client.run, http.Client.checkTimeout, http.Client.invokeCallbackOnError,
      http.Client.receiveData]
  have hidle := idle_steps (l.filter http.Step.isLocal)
    { Sample.httpClient timeout now with
      socketOpen := true
      pendingOp := some http.IoOp.receive
      timerExpiry := some (now + timeout) }
    (fun st hst => (List.mem_filter.mp hst).2) rfl rfl
  rw [hconn, hrecv]
  refine ⟨rfl, rfl, hidle.1, hidle.2.1, hidle.2.2, ?_⟩
  simp [http.Client.steps, http.Client.step, Sample.httpClient, http.Client.run,
    http.Client.timerCancel, http.Client.invokeCallbackOnError, http.convertError,
    http.Client.cb, http.StdErrorCode.isError, http.Client.report]

/-- C14 (the code at the failing input): when `m_socket.open` (or `m_socket.close`) reports the
error `other v` before the connect, `perform` hands that very `asio` error to the completion
callback, which is none of Timeout, NetworkError, InvalidResponse; the errors of connect, write
and receive are converted (`timed_out` to Timeout, any other to NetworkError) and a response
that is not consumed or makes the parser throw gives InvalidResponse. -/
theorem perform_reports_unconverted_socket_error (timeout now : Nat) (v : Int)
    (c : http.Client) (err : http.AsioError) (n : Nat) (r : http.ParseResult) :
    (∃ c₁ : http.Client,
      (Sample.httpClient timeout now).perform http.Method.Get http.AsioError.success
          (http.AsioError.other v) = Except.ok c₁ ∧
        c₁.reported = [http.StdErrorCode.asio (http.AsioError.other v)]) ∧
    (∃ c₁ : http.Client,
      (Sample.httpClient timeout now).perform http.Method.Get (http.AsioError.other v)
          http.AsioError.success = Except.ok c₁ ∧
        c₁.reported = [http.StdErrorCode.asio (http.AsioError.other v)]) ∧
    (err ≠ http.AsioError.success → c.socketOpen = true →
      (c.run (http.Handler.connect err)).reported =
        c.reported ++ [if err = http.AsioError.timed_out
          then http.StdErrorCode.http http.error.ErrorCode.Timeout
          else http.StdErrorCode.http http.error.ErrorCode.NetworkError]) ∧
    (err ≠ http.AsioError.success →
      (c.run (http.Handler.write err)).reported =
        c.reported ++ [if err = http.AsioError.timed_out
          then http.StdErrorCode.http http.error.ErrorCode.Timeout
          else http.StdErrorCode.http http.error.ErrorCode.NetworkError] ∧
      (c.run (http.Handler.receive err n r)).reported =
        c.reported ++ [if err = http.AsioError.timed_out
          then http.StdErrorCode.http http.error.ErrorCode.Timeout
          else http.StdErrorCode.http http.error.ErrorCode.NetworkError]) ∧
    (∀ what : String,
      (c.run (http.Handler.receive http.AsioError.success n
          (http.ParseResult.raised what))).reported =
        c.reported ++ [http.StdErrorCode.http http.error.ErrorCode.InvalidResponse]) ∧
    (∀ (processed : Nat) (done closing : Bool), processed ≠ n →
      (c.run (http.Handler.receive http.AsioError.success n
          (http.ParseResult.parsed processed none done closing))).reported =
        c.reported ++ [http.StdErrorCode.http http.error.ErrorCode.InvalidResponse]) := by
  have hconv : ∀ (c' : http.Client) (e : http.AsioError), e ≠ http.AsioError.success →
      (c'.invokeCallbackOnError e).1 = true ∧
      (c'.invokeCallbackOnError e).2.reported =
        c'.reported ++ [if e = http.AsioError.timed_out
          then http.StdErrorCode.http http.error.ErrorCode.Timeout
          else http.StdErrorCode.http http.error.ErrorCode.NetworkError] := by
    intro c' e he
    by_cases ht : e = http.AsioError.timed_out
    · simp [http.Client.invokeCallbackOnError, he, ht, http.convertError, http.Client.cb,
        http.StdErrorCode.isError, http.Client.report]
    · simp [http.Client.invokeCallbackOnError, he, ht, http.convertError, http.Client.cb,
        http.StdErrorCode.isError, http.Client.report]
  have hcancel : ∀ c' : http.Client, c'.timerCancel.reported = c'.reported := by
    intro c'
    unfold http.Client.timerCancel
    split <;> rfl
  refine ⟨⟨_, rfl, ?_⟩, ⟨_, rfl, ?_⟩, ?_, ?_, ?_, ?_⟩
  · simp [http.Client.performRequest, http.Client.socketClose, http.Client.cb,
      http.StdErrorCode.isError, http.Client.report, Sample.httpClient]
  · simp [http.Client.performRequest, http.Client.cb, http.StdErrorCode.isError,
      http.Client.report, Sample.httpClient]
  · intro he hopen
    have h := hconv c.timerCancel err he
    rcases hres : c.timerCancel.invokeCallbackOnError err with ⟨b, c₁⟩
    rw [hres] at h
    simp only at h
    obtain ⟨hb, hrep⟩ := h
    subst hb
    simp only [http.Client.run, hopen, hres, Bool.true_eq_false, if_false]
    rw [hrep, hcancel]
  · intro he
    constructor
    · have h := hconv c err he
      rcases hres : c.invokeCallbackOnError err with ⟨b, c₁⟩
      rw [hres] at h
      simp only at h
      obtain ⟨hb, hrep⟩ := h
      subst hb
      simp only [http.Client.run, hres]
      exact hrep
    · have h := hconv c.timerCancel err he
      rcases hres : c.timerCancel.invokeCallbackOnError err with ⟨b, c₁⟩
      rw [hres] at h
      simp only at h
      obtain ⟨hb, hrep⟩ := h
      subst hb
      simp only [http.Client.run, hres]
      rw [hrep, hcancel]
  · intro what
    simp [http.Client.run, http.Client.invokeCallbackOnError, http.Client.cb,
      http.StdErrorCode.isError, http.Client.report, hcancel]
  · intro processed done closing hne
    simp [http.Client.run, http.Client.invokeCallbackOnError, http.Client.cb,
      http.StdErrorCode.isError, http.Client.report, hcancel, hne]

/-- C15: `methodToString` gives "GET", "HEAD", "POST", "NOTIFY", "M-SEARCH", "SUBSCRIBE",
"UNSUBSCRIBE" for Get, Head, Post, Notify, Search, Subscribe, Unsubscribe; two methods with the
same token are the same method; every other value throws; `setMethodType` throws with it, and
otherwise sets the request line to the token, a blank, the path of the URL and " HTTP/1.1" with
CR LF. -/
theorem methodToString_tokens (c : http.Client) (m m' : http.Method) (value : Nat) :
    http.methodToString http.Method.Get = Except.ok "GET" ∧
    http.methodToString http.Method.Head = Except.ok "HEAD" ∧
    http.methodToString http.Method.Post = Except.ok "POST" ∧
    http.methodToString http.Method.Notify = Except.ok "NOTIFY" ∧
    http.methodToString http.Method.Search = Except.ok "M-SEARCH" ∧
    http.methodToString http.Method.Subscribe = Except.ok "SUBSCRIBE" ∧
    http.methodToString http.Method.Unsubscribe = Except.ok "UNSUBSCRIBE" ∧
    (∀ token : String, http.methodToString m = Except.ok token →
      http.methodToString m' = Except.ok token → m = m') ∧
    http.methodToString (http.Method.other value) =
      Except.error (Thrown.other "Invalid http method provided") ∧
    c.setMethodType (http.Method.other value) =
      Except.error (Thrown.other "Invalid http method provided") ∧
    (∀ token : String, http.methodToString m = Except.ok token →
      ∃ c₁ : http.Client, c.setMethodType m = Except.ok c₁ ∧
        c₁.m_request = token ++ " " ++ c.m_uri.path ++ " HTTP/1.1\r\n" ∧
        c₁.m_headers = c.m_headers ++ ["Host:" ++ c.m_uri.authority ++ "\r\n"]) := by
  refine ⟨rfl, rfl, rfl, rfl, rfl, rfl, rfl, ?_, rfl, rfl, ?_⟩
  · intro token h₁ h₂
    cases m <;> cases m' <;> simp [http.methodToString] at h₁ h₂ <;>
      first | rfl | (subst h₁; exact absurd h₂ (by decide))
  · intro token h
    simp only [http.Client.setMethodType, h]
    exact ⟨_, rfl, rfl, rfl⟩

/-- C15 (instance): a SUBSCRIBE request for the path /control. -/
theorem methodToString_tokens_witness :
    http.methodToString http.Method.Subscribe = Except.ok "SUBSCRIBE" ∧
    ∃ c₁ : http.Client,
      (Sample.httpClient 60000 0).setMethodType http.Method.Subscribe = Except.ok c₁ ∧
        c₁.m_request = "SUBSCRIBE /control HTTP/1.1\r\n" ∧
        c₁.m_headers = ["Host:renderer:8080\r\n"] := by
  have h := methodToString_tokens (Sample.httpClient 60000 0) http.Method.Subscribe
    http.Method.Subscribe 0
  obtain ⟨c₁, h₁, h₂, h₃⟩ := h.2.2.2.2.2.2.2.2.2.2 "SUBSCRIBE" rfl
  exact ⟨h.2.2.2.2.2.1, c₁, h₁, by rw [h₂]; decide, by rw [h₃]; decide⟩

/-! ## The event server of `Client2` -/

theorem initialise_skips {C : Type} (c : Client2 C) (name : String) (port : Nat) :
    ∀ (before rest : List InterfaceAddress),
      (∀ x ∈ before, ¬ (x.isIpv4 = true ∧ x.name = name)) →
      c.initialise name port (before ++ rest) = c.initialise name port rest
  | [], _, _ => rfl
  | x :: xs, rest, h => by
    have hx : ¬ (x.isIpv4 = true ∧ x.name = name) := h x (List.mem_cons_self _ _)
    have hcond : (x.isIpv4 && decide (x.name = name)) = false := by
      cases hv : x.isIpv4
      · rfl
      · have : x.name ≠ name := fun hn => hx ⟨hv, hn⟩
        simp [this]
    simp only [List.cons_append, Client2.initialise, hcond, Bool.false_eq_true, if_false]
    exact initialise_skips c name port xs rest (fun y hy => h y (List.mem_cons_of_mem _ hy))

/-- C16: `Client2::initialize(interfaceName, port)` over a list of interfaces creates the event
server on the address of the first IPv4 interface named `interfaceName`, with the port; when no
IPv4 interface has that name it throws and the client, so its missing event server, is as
before; without an event server `subscribeToService` throws before any SUBSCRIBE request is
made and registers nothing. -/
theorem initialise_event_server {C : Type} (c : Client2 C) (name : String) (port : Nat)
    (before after interfaces : List InterfaceAddress) (intf : InterfaceAddress)
    (publisherUrl : String) (timeout : Int) (cb : Int → String → Int → C)
    (reply : SubscribeReply) :
    ((∀ x ∈ before, ¬ (x.isIpv4 = true ∧ x.name = name)) →
      intf.isIpv4 = true → intf.name = name →
      c.initialise name port (before ++ intf :: after) =
        (Except.ok (), { c with m_eventServer := some (intf.address4, port) })) ∧
    ((∀ x ∈ interfaces, ¬ (x.isIpv4 = true ∧ x.name = name)) →
      c.initialise name port interfaces =
        (Except.error (Thrown.other ("Could not find network interface with name: " ++ name)),
          c)) ∧
    (c.m_eventServer = none →
      c.subscribeRequest publisherUrl timeout =
          Except.error (Thrown.other "UPnP library is not properly initialized") ∧
        c.subscribeToService publisherUrl timeout cb reply =
          Except.error (Thrown.other "UPnP library is not properly initialized")) := by
  refine ⟨?_, ?_, ?_⟩
  · intro hbefore hv hn
    rw [initialise_skips c name port before _ hbefore]
    simp [Client2.initialise, hv, hn]
  · intro hnone
    have h := initialise_skips c name port interfaces [] hnone
    rw [List.append_nil] at h
    rw [h]
    rfl
  · intro hnone
    simp [Client2.subscribeRequest, Client2.subscribeToService, hnone]

/-- C16 (instance): "eth0" is found at its first IPv4 address, after the loopback interface and
its own IPv6 address; "wlan0" is not found; a client without event server does not subscribe. -/
theorem initialise_event_server_witness :
    ({ Sample.client2 with m_eventServer := none } : Client2 Nat).initialise "eth0" 8080
        Sample.interfaces =
      (Except.ok (),
        { ({ Sample.client2 with m_eventServer := none } : Client2 Nat) with
          m_eventServer := some ("192.168.1.2", 8080) }) ∧
    (({ Sample.client2 with m_eventServer := none } : Client2 Nat).initialise "wlan0" 8080
        Sample.interfaces).2.m_eventServer = none ∧
    ({ Sample.client2 with m_eventServer := none } : Client2 Nat).subscribeRequest
        "http://renderer/event" 1801 =
      Except.error (Thrown.other "UPnP library is not properly initialized") := by
  have h₁ := (initialise_event_server
    ({ Sample.client2 with m_eventServer := none } : Client2 Nat) "eth0" 8080
    [⟨"lo", true, "127.0.0.1"⟩, ⟨"eth0", false, "fe80::1"⟩] [⟨"eth0", true, "10.0.0.7"⟩]
    Sample.interfaces ⟨"eth0", true, "192.168.1.2"⟩ "http://renderer/event" 1801
    (fun _ _ _ => 7) ⟨200, "uuid:sub1", 1800, ""⟩).1 (by decide) rfl rfl
  have h₂ := (initialise_event_server
    ({ Sample.client2 with m_eventServer := none } : Client2 Nat) "wlan0" 8080
    [] [] Sample.interfaces ⟨"eth0", true, "192.168.1.2"⟩ "http://renderer/event" 1801
    (fun _ _ _ => 7) ⟨200, "uuid:sub1", 1800, ""⟩)
  refine ⟨h₁, ?_, (h₂.2.2 rfl).1⟩
  rw [h₂.2.1 (by decide)]

/-! ## The variable store of a service host -/

theorem findEntry_assignEntries {K V : Type} [StdKey K] (k : K) (v : V) (q : K) :
    ∀ l : List (K × V),
      findEntry q (assignEntries k v l) = if keyEquiv k q then some v else findEntry q l
  | [] => by simp [assignEntries, findEntry]
  | (k', v') :: rest => by
    simp only [assignEntries]
    split
    · simp only [findEntry]
    · split
      · rename_i hlt
        simp only [findEntry]
        by_cases hq : keyEquiv k' q = true
        · have hkq : k' = q := (keyEquiv_iff k' q).mp hq
          subst hkq
          simp [(keyEquiv_of_less hlt).2, (keyEquiv_iff k' k').mpr rfl]
        · have hq' : keyEquiv k' q = false := by simpa using hq
          simp only [hq', Bool.false_eq_true, if_false]
          exact findEntry_assignEntries k v q rest
      · rename_i h₁ h₂
        have hkk : k = k' := keyLess_connex (by simpa using h₁) (by simpa using h₂)
        subst hkk
        simp only [findEntry]
        split <;> rfl

theorem find_assign {K V : Type} [StdKey K] (m : StdMap K V) (k q : K) (v : V) :
    (m.assign k v).find q = if keyEquiv k q then some v else m.find q := by
  simp only [StdMap.find, StdMap.assign, findEntry_assignEntries]

theorem store_keeps_instances {V : Type} [StdKey V] (d : DeviceService V) (id : Nat) (var : V)
    (sv : ServiceVariable) (q : Nat) (h : (d.m_Variables.find q).isSome = true) :
    ((d.store id var sv).m_Variables.find q).isSome = true := by
  simp only [DeviceService.store, find_assign]
  split
  · rfl
  · exact h

theorem apply_keeps_instances {V : Type} [StdKey V] (variableToString : V → String)
    (d : DeviceService V) (op : DeviceService.Op V) (q : Nat)
    (h : (d.m_Variables.find q).isSome = true) :
    ((d.apply variableToString op).m_Variables.find q).isSome = true := by
  cases op <;> exact store_keeps_instances d _ _ _ q h

theorem foldl_apply_keeps_instances {V : Type} [StdKey V] (variableToString : V → String)
    (q : Nat) :
    ∀ (ops : List (DeviceService.Op V)) (d : DeviceService V),
      (d.m_Variables.find q).isSome = true →
      ((ops.foldl (DeviceService.apply variableToString) d).m_Variables.find q).isSome = true
  | [], _, h => h
  | op :: rest, d, h =>
    foldl_apply_keeps_instances variableToString q rest _
      (apply_keeps_instances variableToString d op q h)

/-- C17: instance 0 is in the variable store of a newly constructed `DeviceService` and after
every sequence of `setVariable` and `setInstanceVariable` calls; no such call removes an
instance; so `getVariables()` returns (the `at(0)` does not throw) and `getVariable` reads
instance 0. -/
theorem instance_zero_present {V : Type} [StdKey V] (variableToString : V → String)
    (type : ServiceType) (ops : List (DeviceService.Op V)) (d : DeviceService V)
    (op : DeviceService.Op V) (id : Nat) (var : V) :
    ((DeviceService.new type : DeviceService V).m_Variables.find 0).isSome = true ∧
    ((DeviceService.afterCalls variableToString type ops).m_Variables.find 0).isSome = true ∧
    ((d.m_Variables.find id).isSome = true →
      ((d.apply variableToString op).m_Variables.find id).isSome = true) ∧
    (∃ vars : StdMap String String,
      DeviceService.getVariables variableToString
        (DeviceService.afterCalls variableToString type ops) = Except.ok vars) ∧
    (((DeviceService.afterCalls variableToString type ops).getVariable var).2.m_Variables.find
      0).isSome = true := by
  have hnew : ((DeviceService.new type : DeviceService V).m_Variables.find 0).isSome = true := by
    simp [DeviceService.new, StdMap.find, findEntry, (keyEquiv_iff (0 : Nat) 0).mpr rfl]
  have hafter : ((DeviceService.afterCalls variableToString type ops).m_Variables.find
      0).isSome = true :=
    foldl_apply_keeps_instances variableToString 0 ops _ hnew
  refine ⟨hnew, hafter, apply_keeps_instances variableToString d op id, ?_, ?_⟩
  · unfold DeviceService.getVariables
    cases hfind : (DeviceService.afterCalls variableToString type ops).m_Variables.find 0 with
    | none => rw [hfind] at hafter; simp at hafter
    | some vars => exact ⟨_, rfl⟩
  · unfold DeviceService.getVariable
    split
    · exact hafter
    · exact store_keeps_instances _ 0 var _ 0 hafter

/-- C17 (instance): the AVTransport service after a variable of instance 3 and one of instance
0 have been set. -/
theorem instance_zero_present_witness :
    ((DeviceService.afterCalls Sample.variableToString ⟨ServiceType.Tag.AVTransport, 1⟩
        [DeviceService.Op.setInstanceVariable 3 AVTransport.Variable.TransportState "PLAYING",
          DeviceService.Op.setVariable AVTransport.Variable.CurrentTrack
            "1"]).m_Variables.find 0).isSome = true ∧
    (DeviceService.afterCalls Sample.variableToString ⟨ServiceType.Tag.AVTransport, 1⟩
        [DeviceService.Op.setInstanceVariable 3 AVTransport.Variable.TransportState "PLAYING",
          DeviceService.Op.setVariable AVTransport.Variable.CurrentTrack
            "1"]).m_Variables.entries.map Prod.fst = [0, 3] :=
  ⟨(instance_zero_present Sample.variableToString ⟨ServiceType.Tag.AVTransport, 1⟩
      [DeviceService.Op.setInstanceVariable 3 AVTransport.Variable.TransportState "PLAYING",
        DeviceService.Op.setVariable AVTransport.Variable.CurrentTrack "1"]
      (DeviceService.new ⟨ServiceType.Tag.AVTransport, 1⟩)
      (DeviceService.Op.setVariable AVTransport.Variable.CurrentTrack "1") 0
      AVTransport.Variable.CurrentTrack).2.1, rfl⟩

/-! ## LastChange aggregation (`Service::setInstanceVariable`) -/

theorem getInstanceVariable_frame {V : Type} [StdKey V] (d : DeviceService V) (id : Nat)
    (var : V) :
    (d.getInstanceVariable id var).2.calls = d.calls ∧
    (d.getInstanceVariable id var).2.m_Type = d.m_Type := by
  unfold DeviceService.getInstanceVariable
  split
  · exact ⟨rfl, rfl⟩
  · split <;> exact ⟨rfl, rfl⟩

theorem forall₂_map_of {α β : Type} (g : α → β) (P : β → α → Prop) (h : ∀ a, P (g a) a) :
    ∀ l : List α, List.Forall₂ P (l.map g) l
  | [] => List.Forall₂.nil
  | a :: rest => List.Forall₂.cons (h a) (forall₂_map_of g P h rest)

theorem keyLess_nat (a b : Nat) : keyLess a b = true ↔ a < b := by
  simp only [keyLess, StdKey.rank, lexLess]
  by_cases h : a < b
  · simp [h]
  · simp [h]

theorem ascending_ids {V : Type} :
    ∀ l : List (Nat × V), Ascending l → (l.map Prod.fst).Pairwise (fun a b => a < b)
  | [], _ => List.Pairwise.nil
  | x :: rest, h => by
    simp only [Ascending, List.pairwise_cons] at h
    simp only [List.map_cons, List.pairwise_cons, List.mem_map]
    refine ⟨?_, ascending_ids rest h.2⟩
    rintro b ⟨y, hy, rfl⟩
    exact (keyLess_nat x.1 y.1).mp (h.1 y hy)

/-- C19: the document `getSubscriptionResponse()` returns has one child, an `e:propertyset`
(with the attribute `xmlns:e`) holding one `e:property` that holds one `LastChange` element,
whose value is the text of an `Event` element with `xmlns` the metadata URN of the service
type; the children of that element are, for the instances of the variable store in the order
of the store, that is by ascending id, one `InstanceID` element each with `val` the id, whose
children are the elements of the variables stored for the instance, one each and in the order
of the store. -/
theorem getSubscriptionResponse_complete (f : HostFunctions)
    (d : DeviceService AVTransport.Variable) (hasc : Ascending d.m_Variables.entries) :
    ∃ instances : List XmlNode,
      (AVTransport.Service.getSubscriptionResponse f d).children =
        [XmlNode.element "e:propertyset" [("xmlns:e", "urn:schemas-upnp-org:event-1-0")]
          [XmlNode.element "e:property" []
            [XmlNode.element "LastChange" []
              [XmlNode.text
                (f.toString
                  (XmlNode.element "Event"
                    [("xmlns", f.serviceTypeToUrnMetadataString d.m_Type)] instances))]]]] ∧
      List.Forall₂
        (fun node (entry : Nat × StdMap AVTransport.Variable ServiceVariable) =>
          ∃ elems : List XmlNode,
            node = XmlNode.element "InstanceID" [("val", toString entry.1)] elems ∧
            List.Forall₂
              (fun e (v : AVTransport.Variable × ServiceVariable) =>
                e = f.serviceVariableToElement v.2)
              elems entry.2.entries)
        instances d.m_Variables.entries ∧
      (d.m_Variables.entries.map Prod.fst).Pairwise (fun a b => a < b) := by
  refine ⟨_, rfl, ?_, ascending_ids _ hasc⟩
  apply forall₂_map_of
  intro entry
  exact ⟨_, rfl,
    forall₂_map_of (fun var : AVTransport.Variable × ServiceVariable =>
        f.serviceVariableToElement var.2)
      (fun e v => e = f.serviceVariableToElement v.2) (fun _ => rfl) entry.2.entries⟩

/-- C19 (instance): the service with TransportState PLAYING in instance 0 and STOPPED in
instance 3. -/
theorem getSubscriptionResponse_complete_witness :
    Ascending
      (DeviceService.afterCalls Sample.variableToString ⟨ServiceType.Tag.AVTransport, 1⟩
        [DeviceService.Op.setInstanceVariable 3 AVTransport.Variable.TransportState "STOPPED",
          DeviceService.Op.setVariable AVTransport.Variable.TransportState
            "PLAYING"]).m_Variables.entries ∧
    ∃ instances : List XmlNode,
      (AVTransport.Service.getSubscriptionResponse Sample.hostFunctions
        (DeviceService.afterCalls Sample.variableToString ⟨ServiceType.Tag.AVTransport, 1⟩
          [DeviceService.Op.setInstanceVariable 3 AVTransport.Variable.TransportState "STOPPED",
            DeviceService.Op.setVariable AVTransport.Variable.TransportState
              "PLAYING"])).children =
        [XmlNode.element "e:propertyset" [("xmlns:e", "urn:schemas-upnp-org:event-1-0")]
          [XmlNode.element "e:property" []
            [XmlNode.element "LastChange" []
              [XmlNode.text
                (Sample.hostFunctions.toString
                  (XmlNode.element "Event"
                    [("xmlns", "urn:schemas-upnp-org:metadata-1-0/AVT/")] instances))]]]] ∧
      instances =
        [XmlNode.element "InstanceID" [("val", "0")]
            [XmlNode.element "TransportState" [("val", "PLAYING")] []],
          XmlNode.element "InstanceID" [("val", "3")]
            [XmlNode.element "TransportState" [("val", "STOPPED")] []]] := by
  have hasc : Ascending
      (DeviceService.afterCalls Sample.variableToString ⟨ServiceType.Tag.AVTransport, 1⟩
        [DeviceService.Op.setInstanceVariable 3 AVTransport.Variable.TransportState "STOPPED",
          DeviceService.Op.setVariable AVTransport.Variable.TransportState
            "PLAYING"]).m_Variables.entries := by
    show List.Pairwise _ [(0, _), (3, _)]
    simp only [List.pairwise_cons, List.mem_singleton, List.not_mem_nil, false_implies,
      implies_true, List.Pairwise.nil, and_true, forall_eq]
    decide
  obtain ⟨instances, h₁, _, _⟩ := getSubscriptionResponse_complete Sample.hostFunctions _ hasc
  exact ⟨hasc, _, rfl, rfl⟩

theorem toUInt32_toInt32 (n : Nat) (h : n < 2 ^ 32) : toUInt32 (toInt32 n) = n := by
  unfold toUInt32 toInt32
  have hmod : n % 2 ^ 32 = n := Nat.mod_eq_of_lt h
  rw [hmod]
  split
  · have : ((n : Int) % 2 ^ 32) = n := Int.emod_eq_of_lt (by omega) (by omega)
    rw [this]
    simp
  · have : (((n : Int) - 2 ^ 32) % 2 ^ 32) = n := by
      rw [Int.sub_emod, Int.emod_self, sub_zero, Int.emod_emod_of_dvd _ (dvd_refl _)]
      exact Int.emod_eq_of_lt (by omega) (by omega)
    rw [this]
    simp

/-- C20: for an instance id that is in the store and every variable, `notifyVariableChange(var,
id)` returns having sent exactly one event to the root device, addressed to the id URN of the
service type, whose document is an `e:propertyset` with one `e:property` with one child named
`variableToString(var)` whose text is the value read for `var` in that instance (empty when
`var` has no entry); for an instance id that is not in the store it throws, the service is left
as it was and nothing is sent. -/
theorem notifyVariableChange_event {V : Type} [StdKey V] (f : HostFunctions)
    (variableToString : V → String) (d : DeviceService V) (var : V) (instanceId : Nat)
    (hid : instanceId < 2 ^ 32) :
    (∀ vars : StdMap V ServiceVariable, d.m_Variables.find instanceId = some vars →
      (d.notifyVariableChange f variableToString var instanceId).1 = Except.ok () ∧
      (d.notifyVariableChange f variableToString var instanceId).2.calls =
        d.calls ++
          [HostEffect.notifyEvent (f.serviceTypeToUrnIdString d.m_Type)
            ⟨[XmlNode.element "e:propertyset" []
              [XmlNode.element "e:property" []
                [XmlNode.element (variableToString var) []
                  [XmlNode.text
                    (match vars.find var with
                     | some sv => sv.value
                     | none => "")]]]]⟩]) ∧
    (d.m_Variables.find instanceId = none →
      d.notifyVariableChange f variableToString var instanceId =
        (Except.error (Thrown.other "map::at"), d)) := by
  constructor
  · intro vars hvars
    simp only [DeviceService.notifyVariableChange, DeviceService.addPropertyToElement,
      toUInt32_toInt32 instanceId hid, DeviceService.getInstanceVariable, hvars]
    cases vars.find var with
    | some sv => exact ⟨rfl, rfl⟩
    | none => exact ⟨rfl, rfl⟩
  · intro hnone
    simp only [DeviceService.notifyVariableChange, DeviceService.addPropertyToElement,
      toUInt32_toInt32 instanceId hid, DeviceService.getInstanceVariable, hnone]

/-- C20 (instance): TransportState of instance 0 is notified; instance 5 does not exist. -/
theorem notifyVariableChange_event_witness :
    (0 < 2 ^ 32 ∧ 5 < 2 ^ 32) ∧
    ((DeviceService.afterCalls Sample.variableToString ⟨ServiceType.Tag.AVTransport, 1⟩
        [DeviceService.Op.setVariable AVTransport.Variable.TransportState
          "PLAYING"]).notifyVariableChange Sample.hostFunctions Sample.variableToString
        AVTransport.Variable.TransportState 0).1 = Except.ok () ∧
    ((DeviceService.afterCalls Sample.variableToString ⟨ServiceType.Tag.AVTransport, 1⟩
        [DeviceService.Op.setVariable AVTransport.Variable.TransportState
          "PLAYING"]).notifyVariableChange Sample.hostFunctions Sample.variableToString
        AVTransport.Variable.TransportState 0).2.calls =
      [HostEffect.notifyEvent "urn:upnp-org:serviceId:AVTransport"
        ⟨[XmlNode.element "e:propertyset" []
          [XmlNode.element "e:property" []
            [XmlNode.element "TransportState" [] [XmlNode.text "PLAYING"]]]]⟩] ∧
    ((DeviceService.afterCalls Sample.variableToString ⟨ServiceType.Tag.AVTransport, 1⟩
        [DeviceService.Op.setVariable AVTransport.Variable.TransportState
          "PLAYING"]).notifyVariableChange Sample.hostFunctions Sample.variableToString
        AVTransport.Variable.TransportState 5).1 = Except.error (Thrown.other "map::at") := by
  have h₀ := notifyVariableChange_event Sample.hostFunctions Sample.variableToString
    (DeviceService.afterCalls Sample.variableToString ⟨ServiceType.Tag.AVTransport, 1⟩
      [DeviceService.Op.setVariable AVTransport.Variable.TransportState "PLAYING"])
    AVTransport.Variable.TransportState 0 (by decide)
  have h₅ := notifyVariableChange_event Sample.hostFunctions Sample.variableToString
    (DeviceService.afterCalls Sample.variableToString ⟨ServiceType.Tag.AVTransport, 1⟩
      [DeviceService.Op.setVariable AVTransport.Variable.TransportState "PLAYING"])
    AVTransport.Variable.TransportState 5 (by decide)
  refine ⟨⟨by decide, by decide⟩, (h₀.1 _ rfl).1, (h₀.1 _ rfl).2, ?_⟩
  rw [h₅.2 rfl]

/-! ## The namespace of the property set -/

/-- C21: the document `getSubscriptionResponse()` returns has the root `e:propertyset` with the
attribute `xmlns:e="urn:schemas-upnp-org:event-1-0"`, but the document that
`notifyVariableChange(var, instanceId)` sends, whenever it sends one, has a root `e:propertyset`
without any attribute: the namespace string the function declares is never added. -/
theorem notifyVariableChange_root_lacks_namespace {V : Type} [StdKey V] (f : HostFunctions)
    (variableToString : V → String) (g : DeviceService AVTransport.Variable)
    (d d' : DeviceService V) (var : V) (instanceId : Nat)
    (h : d.notifyVariableChange f variableToString var instanceId = (Except.ok (), d')) :
    (AVTransport.Service.getSubscriptionResponse f g).isEventPropertySet = true ∧
    ∃ (doc : XmlDocument) (property : XmlNode),
      d'.calls = d.calls ++ [HostEffect.notifyEvent (f.serviceTypeToUrnIdString d.m_Type) doc] ∧
      doc.children = [XmlNode.element "e:propertyset" [] [property]] ∧
      doc.root = some (XmlNode.element "e:propertyset" [] [property]) ∧
      (∀ name : String, (XmlNode.element "e:propertyset" [] [property]).attribute name = none) ∧
      doc.isEventPropertySet = false := by
  refine ⟨by simp [AVTransport.Service.getSubscriptionResponse, XmlDocument.isEventPropertySet,
    XmlDocument.root, XmlNode.name, XmlNode.attribute, XmlNode.attributes], ?_⟩
  unfold DeviceService.notifyVariableChange at h
  rcases hp : d.addPropertyToElement variableToString (toInt32 instanceId) var with ⟨r, d₁⟩
  rw [hp] at h
  have hcalls : d₁.calls = d.calls ∧ d₁.m_Type = d.m_Type := by
    unfold DeviceService.addPropertyToElement at hp
    have hf := getInstanceVariable_frame d (toUInt32 (toInt32 instanceId)) var
    rcases hg : d.getInstanceVariable (toUInt32 (toInt32 instanceId)) var with ⟨r', d₂⟩
    rw [hg] at hp hf
    cases r' with
    | error e => simp only [Prod.mk.injEq] at hp; rw [← hp.2]; exact hf
    | ok sv => simp only [Prod.mk.injEq] at hp; rw [← hp.2]; exact hf
  cases r with
  | error e => simp at h
  | ok property =>
    simp only [Prod.mk.injEq, true_and] at h
    subst h
    refine ⟨_, property, ?_, rfl, rfl, fun name => rfl, ?_⟩
    · simp only [hcalls.1, hcalls.2]
    · simp [XmlDocument.isEventPropertySet, XmlDocument.root, XmlNode.name, XmlNode.attribute,
        XmlNode.attributes]

/-- C21 (instance): the change of TransportState of instance 0 is notified with a property set
without `xmlns:e`. -/
theorem notifyVariableChange_root_lacks_namespace_witness :
    ∃ (doc : XmlDocument) (property : XmlNode),
      ((DeviceService.afterCalls Sample.variableToString ⟨ServiceType.Tag.AVTransport, 1⟩
        [DeviceService.Op.setVariable AVTransport.Variable.TransportState
          "PLAYING"]).notifyVariableChange Sample.hostFunctions Sample.variableToString
        AVTransport.Variable.TransportState 0).2.calls =
        [HostEffect.notifyEvent "urn:upnp-org:serviceId:AVTransport" doc] ∧
      doc.children = [XmlNode.element "e:propertyset" [] [property]] ∧
      doc.isEventPropertySet = false := by
  obtain ⟨_, doc, property, h₁, h₂, _, _, h₃⟩ :=
    notifyVariableChange_root_lacks_namespace Sample.hostFunctions Sample.variableToString
      (DeviceService.new ⟨ServiceType.Tag.AVTransport, 1⟩)
      (DeviceService.afterCalls Sample.variableToString ⟨ServiceType.Tag.AVTransport, 1⟩
        [DeviceService.Op.setVariable AVTransport.Variable.TransportState "PLAYING"])
      _ AVTransport.Variable.TransportState 0 rfl
  exact ⟨doc, property, h₁, h₂, h₃⟩

/-! ## `Service::setInstanceVariable` and the instances of the store -/

theorem entry_store_same {V : Type} [StdKey V] (d : DeviceService V) (id : Nat) (var : V)
    (sv : ServiceVariable) : (d.store id var sv).entry id var = some sv := by
  simp [DeviceService.entry, DeviceService.store, find_assign, (keyEquiv_iff id id).mpr rfl,
    (keyEquiv_iff var var).mpr rfl]

theorem entry_store_other {V : Type} [StdKey V] (d : DeviceService V) (id id' : Nat)
    (var var' : V) (sv : ServiceVariable) (hne : ¬ (id = id' ∧ var = var')) :
    (d.store id var sv).entry id' var' = d.entry id' var' := by
  simp only [DeviceService.entry, DeviceService.store, find_assign]
  by_cases hid : id = id'
  · subst hid
    have hvar : ¬ var = var' := fun h => hne ⟨rfl, h⟩
    have hk : keyEquiv var var' = false := by
      cases h : keyEquiv var var' with
      | false => rfl
      | true => exact absurd ((keyEquiv_iff var var').mp h) hvar
    simp only [(keyEquiv_iff id id).mpr rfl, if_true, find_assign, hk, Bool.false_eq_true,
      if_false, DeviceService.instanceVars]
    cases d.m_Variables.find id with
    | none => rfl
    | some vars => rfl
  · have hk : keyEquiv id id' = false := by
      cases h : keyEquiv id id' with
      | false => rfl
      | true => exact absurd ((keyEquiv_iff id id').mp h) hid
    simp [hk]

theorem entry_of_calls {V : Type} [StdKey V] (d : DeviceService V) (calls : List HostEffect)
    (id : Nat) (var : V) :
    ({ d with calls := calls } : DeviceService V).entry id var = d.entry id var := rfl

theorem getInstanceVariable_entry {V : Type} [StdKey V] (d : DeviceService V) (id : Nat)
    (var : V) (sv : ServiceVariable) (h : d.entry id var = some sv) :
    d.getInstanceVariable id var = (Except.ok sv, d) := by
  unfold DeviceService.entry at h
  unfold DeviceService.getInstanceVariable
  cases hf : d.m_Variables.find id with
  | none => rw [hf] at h; cases h
  | some vars =>
    rw [hf] at h
    simp only at h
    simp only [h]

/-- C23 (as amended): `Service::setInstanceVariable(id, var, value)` succeeds for every
instance id that is in the variable store; afterwards `getInstanceVariable(id, var)` reads a
variable whose value is `value` and leaves the store as it is, while every other (instance,
variable) entry is as before.  For an instance id that is not in the store it raises the
exception of `m_Variables.at(id)` and the service is left as it was: no instance is created. -/
theorem setInstanceVariable_on_stored_instance (variableToString : AVTransport.Variable → String)
    (d : DeviceService AVTransport.Variable) (id : Nat) (var : AVTransport.Variable)
    (value : String) :
    ((d.m_Variables.find id).isSome = true →
      (AVTransport.Service.setInstanceVariable variableToString d id var value).1 =
        Except.ok () ∧
      (∃ sv : ServiceVariable, sv.value = value ∧
        (AVTransport.Service.setInstanceVariable variableToString d id var
            value).2.getInstanceVariable id var =
          (Except.ok sv,
            (AVTransport.Service.setInstanceVariable variableToString d id var value).2)) ∧
      (∀ (id' : Nat) (var' : AVTransport.Variable), ¬ (id = id' ∧ var = var') →
        (AVTransport.Service.setInstanceVariable variableToString d id var value).2.entry
            id' var' = d.entry id' var')) ∧
    (d.m_Variables.find id = none →
      AVTransport.Service.setInstanceVariable variableToString d id var value =
        (Except.error (Thrown.other "map::at"), d)) := by
  constructor
  · intro hsome
    obtain ⟨vars, hvars⟩ := Option.isSome_iff_exists.mp hsome
    unfold AVTransport.Service.setInstanceVariable
    have hread : ∃ stored d₁, d.getInstanceVariable id var = (Except.ok stored, d₁) ∧
        d₁.entry id var = some stored ∧
        (∀ (id' : Nat) (var' : AVTransport.Variable), ¬ (id = id' ∧ var = var') →
          d₁.entry id' var' = d.entry id' var') := by
      unfold DeviceService.getInstanceVariable
      cases hv : vars.find var with
      | some sv =>
        refine ⟨sv, d, by simp only [hvars, hv], ?_, fun _ _ _ => rfl⟩
        simp [DeviceService.entry, hvars, hv]
      | none =>
        exact ⟨{}, d.store id var {}, by simp only [hvars, hv], entry_store_same d id var {},
          fun id' var' hne => entry_store_other d id id' var var' {} hne⟩
    obtain ⟨stored, d₁, hget, hentry, hothers⟩ := hread
    rw [hget]
    simp only
    split
    · rename_i heq
      exact ⟨rfl, ⟨stored, heq, getInstanceVariable_entry d₁ id var stored hentry⟩, hothers⟩
    · have hnew : (d₁.setInstanceVariable variableToString id var value).entry id var =
          some { name := variableToString var, value := value } := by
        exact entry_store_same d₁ id var _
      have hrest : ∀ (id' : Nat) (var' : AVTransport.Variable), ¬ (id = id' ∧ var = var') →
          (d₁.setInstanceVariable variableToString id var value).entry id' var' =
            d.entry id' var' := by
        intro id' var' hne
        exact (entry_store_other d₁ id id' var var' _ hne).trans (hothers id' var' hne)
      split
      · exact ⟨rfl, ⟨{ name := variableToString var, value := value }, rfl,
          getInstanceVariable_entry _ id var _ hnew⟩, hrest⟩
      · refine ⟨rfl, ⟨{ name := variableToString var, value := value }, rfl,
          getInstanceVariable_entry _ id var _ ?_⟩, ?_⟩
        · rw [entry_of_calls]; exact hnew
        · intro id' var' hne
          rw [entry_of_calls]; exact hrest id' var' hne
  · intro hnone
    simp only [AVTransport.Service.setInstanceVariable, DeviceService.getInstanceVariable, hnone]

/-- C23 (instance): TransportState of instance 0 is set on a new service; CurrentTrack keeps
its entry. -/
theorem setInstanceVariable_on_stored_instance_witness :
    (AVTransport.Service.setInstanceVariable Sample.variableToString
        (DeviceService.afterCalls Sample.variableToString ⟨ServiceType.Tag.AVTransport, 1⟩
          [DeviceService.Op.setVariable AVTransport.Variable.CurrentTrack "3"])
        0 AVTransport.Variable.TransportState "PLAYING").1 = Except.ok () ∧
    (AVTransport.Service.setInstanceVariable Sample.variableToString
        (DeviceService.afterCalls Sample.variableToString ⟨ServiceType.Tag.AVTransport, 1⟩
          [DeviceService.Op.setVariable AVTransport.Variable.CurrentTrack "3"])
        0 AVTransport.Variable.TransportState "PLAYING").2.entry 0
        AVTransport.Variable.CurrentTrack =
      some { name := "CurrentTrack", value := "3" } :=
  ⟨((setInstanceVariable_on_stored_instance Sample.variableToString
      (DeviceService.afterCalls Sample.variableToString ⟨ServiceType.Tag.AVTransport, 1⟩
        [DeviceService.Op.setVariable AVTransport.Variable.CurrentTrack "3"])
      0 AVTransport.Variable.TransportState "PLAYING").1 rfl).1,
    (((setInstanceVariable_on_stored_instance Sample.variableToString
      (DeviceService.afterCalls Sample.variableToString ⟨ServiceType.Tag.AVTransport, 1⟩
        [DeviceService.Op.setVariable AVTransport.Variable.CurrentTrack "3"])
      0 AVTransport.Variable.TransportState "PLAYING").1 rfl).2.2 0
        AVTransport.Variable.CurrentTrack (by decide)).trans rfl⟩

/-- C23 (counterexample): on a new service, whose store holds instance 0 only,
`setInstanceVariable(5, TransportState, "PLAYING")` raises and the store still holds instance 0
only. -/
theorem setInstanceVariable_raises_for_new_instance :
    (AVTransport.Service.setInstanceVariable Sample.variableToString
        (DeviceService.new ⟨ServiceType.Tag.AVTransport, 1⟩) 5
        AVTransport.Variable.TransportState "PLAYING").1 =
      Except.error (Thrown.other "map::at") ∧
    (AVTransport.Service.setInstanceVariable Sample.variableToString
        (DeviceService.new ⟨ServiceType.Tag.AVTransport, 1⟩) 5
        AVTransport.Variable.TransportState "PLAYING").2.m_Variables.entries.map Prod.fst =
      [0] :=
  ⟨rfl, rfl⟩

/-! ## `vectorToCSV` -/

theorem string_eq_empty_of_length (s : String) (h : s.length = 0) : s = "" := by
  apply String.ext
  exact List.length_eq_zero.mp h

theorem string_append_ne_empty (a b : String) (h : ¬ b = "") : ¬ a ++ b = "" := by
  intro hab
  have hlen : (a ++ b).length = 0 := by rw [hab]; rfl
  rw [String.length_append] at hlen
  have hb : b.length = 0 := by omega
  exact h (string_eq_empty_of_length b hb)

theorem string_append_ne_empty_left (a b : String) (h : ¬ a = "") : ¬ a ++ b = "" := by
  intro hab
  have hlen : (a ++ b).length = 0 := by rw [hab]; rfl
  rw [String.length_append] at hlen
  have ha : a.length = 0 := by omega
  exact h (string_eq_empty_of_length a ha)

theorem foldl_vectorToCSVStep_go :
    ∀ (rest : List String) (acc : String), ¬ acc = "" →
      rest.foldl vectorToCSVStep acc = String.intercalate.go acc "," rest
  | [], _, _ => rfl
  | item :: rest, acc, h => by
    simp only [List.foldl_cons, String.intercalate.go]
    have hstep : vectorToCSVStep acc item = acc ++ "," ++ item := by
      simp [vectorToCSVStep, h]
    rw [hstep]
    exact foldl_vectorToCSVStep_go rest _
      (string_append_ne_empty_left _ _ (string_append_ne_empty acc "," (by decide)))

theorem vectorToCSV_dropWhile :
    ∀ items : List String,
      items.foldl vectorToCSVStep "" =
        String.intercalate "," (items.dropWhile (fun item => decide (item = "")))
  | [] => rfl
  | item :: rest => by
    by_cases h : item = ""
    · subst h
      have hstep : vectorToCSVStep "" "" = "" := by decide
      simp only [List.foldl_cons, hstep, List.dropWhile_cons, decide_True, if_true]
      exact vectorToCSV_dropWhile rest
    · have hstep : vectorToCSVStep "" item = item := by
        simp [vectorToCSVStep]
      simp only [List.foldl_cons, hstep, List.dropWhile_cons, h, decide_False,
        Bool.false_eq_true, if_false, String.intercalate]
      exact foldl_vectorToCSVStep_go rest item h

theorem length_intercalate_go :
    ∀ (rest : List String) (acc : String),
      (String.intercalate.go acc "," rest).length =
        acc.length + (rest.map String.length).sum + rest.length
  | [], _ => by simp [String.intercalate.go]
  | item :: rest, acc => by
    simp only [String.intercalate.go, List.map_cons, List.sum_cons, List.length_cons]
    rw [length_intercalate_go rest, String.length_append, String.length_append]
    have : ",".length = 1 := rfl
    omega

theorem foldl_vectorToCSVWith {T : Type} (toStringFunc : T → String) :
    ∀ (items : List T) (acc : String),
      items.foldl (fun ss item => (if ¬ ss = "" then ss ++ "," else ss) ++ toStringFunc item)
          acc =
        (items.map toStringFunc).foldl vectorToCSVStep acc
  | [], _ => rfl
  | item :: rest, acc => by
    simp only [List.foldl_cons, List.map_cons]
    exact foldl_vectorToCSVWith toStringFunc rest _

/-- C29 (as amended): `vectorToCSV(items)` equals the items that follow the leading empty
strings, joined with "," as separator; so for a list whose first item is not empty it is the
join of all items, with exactly one separator less than items (its length is the sum of the
lengths of the items plus their number less one), and for the empty list it is the empty string;
the overload with a conversion function equals `vectorToCSV` of the converted items. -/
theorem vectorToCSV_joins_after_leading_empty (items : List String) :
    vectorToCSV items =
      String.intercalate "," (items.dropWhile (fun item => decide (item = ""))) ∧
    (∀ (first : String) (rest : List String), items = first :: rest → ¬ first = "" →
      vectorToCSV items = String.intercalate "," items ∧
      (vectorToCSV items).length = (items.map String.length).sum + (items.length - 1)) ∧
    vectorToCSV [] = "" ∧
    (∀ (T : Type) (converted : List T) (toStringFunc : T → String),
      vectorToCSVWith converted toStringFunc = vectorToCSV (converted.map toStringFunc)) := by
  refine ⟨vectorToCSV_dropWhile items, ?_, rfl, fun T converted toStringFunc =>
    foldl_vectorToCSVWith toStringFunc converted ""⟩
  intro first rest hitems hfirst
  subst hitems
  have hjoin : vectorToCSV (first :: rest) = String.intercalate "," (first :: rest) := by
    have h := vectorToCSV_dropWhile (first :: rest)
    simp only [List.dropWhile_cons, hfirst, decide_False, Bool.false_eq_true, if_false] at h
    exact h
  refine ⟨hjoin, ?_⟩
  rw [hjoin]
  simp only [String.intercalate, length_intercalate_go, List.map_cons, List.sum_cons,
    List.length_cons]
  omega

/-- C29 (instance): three play modes, and a list that starts with an empty string. -/
theorem vectorToCSV_joins_after_leading_empty_witness :
    vectorToCSV ["NORMAL", "", "SHUFFLE"] = "NORMAL,,SHUFFLE" ∧
    (vectorToCSV ["NORMAL", "", "SHUFFLE"]).length = 15 ∧
    vectorToCSV ["", "", "NORMAL", ""] = "NORMAL," :=
  ⟨((vectorToCSV_joins_after_leading_empty ["NORMAL", "", "SHUFFLE"]).2.1 "NORMAL"
      ["", "SHUFFLE"] rfl (by decide)).1.trans (by decide),
    ((vectorToCSV_joins_after_leading_empty ["NORMAL", "", "SHUFFLE"]).2.1 "NORMAL"
      ["", "SHUFFLE"] rfl (by decide)).2.trans (by decide),
    (vectorToCSV_joins_after_leading_empty ["", "", "NORMAL", ""]).1.trans (by decide)⟩

/-- C29 (counterexample): for the two items "" and "a" the result is "a", with no separator,
while the items joined with "," are ",a". -/
theorem vectorToCSV_drops_leading_empty_item :
    vectorToCSV ["", "a"] = "a" ∧ String.intercalate "," ["", "a"] = ",a" ∧
    vectorToCSV ["", ""] = "" ∧ String.intercalate "," ["", ""] = "," := by
  decide

/-! ## Unknown variables in a LastChange event -/

theorem insertVars_of_unknown {κ D E A V : Type} [StdKey V] (traits : ServiceTraits A V)
    (xml : XmlAdapter D E) :
    ∀ (elems : List E) (vars : StdMap V String) (s : State κ A V),
      (∃ elem ∈ elems, ∃ (n : String) (e : Thrown), xml.getName elem = Except.ok n ∧
        traits.variableFromString n = Except.error e) →
      ∃ e : Thrown, (ServiceClientBase.insertVars traits xml elems vars s).1 = Except.error e
  | [], _, _, h => by
    obtain ⟨elem, hmem, _⟩ := h
    cases hmem
  | elem :: rest, vars, s, h => by
    unfold ServiceClientBase.insertVars
    cases ha : xml.getAttribute elem "val" with
    | error e => exact ⟨e, rfl⟩
    | ok str =>
      simp only
      cases hn : xml.getName elem with
      | error e => exact ⟨e, rfl⟩
      | ok name =>
        simp only
        cases hv : traits.variableFromString name with
        | error e => exact ⟨e, rfl⟩
        | ok v =>
          simp only
          apply insertVars_of_unknown traits xml rest
          obtain ⟨x, hmem, n, e, hxn, hxv⟩ := h
          rcases List.mem_cons.mp hmem with rfl | hrest
          · rw [hn] at hxn
            cases hxn
            rw [hv] at hxv
            cases hxv
          · exact ⟨x, hrest, n, e, hxn, hxv⟩

/-- C28 (as amended): an event with the client's subscription id, whose property set holds one
property with one variable named LastChange, whose value parses to a document whose InstanceID
element has the children `elems`: if one of `elems` has a name that is not a known variable,
`eventOccurred` returns without calling `handleStateVariableEvent` or `StateVariableEvent` at
all, whatever recognised variables the other elements hold: the whole LastChange variable is
ignored. -/
theorem eventOccurred_unknown_variable_drops_event {κ D E A V : Type} [StdKey V]
    (traits : ServiceTraits A V) (xml : XmlAdapter D E) (pEvent : Upnp_Event D)
    (s : State κ A V) (propertySet property var eventNode instanceID : E) (text : String)
    (changeDoc : D) (lastChange : V) (elems : List E)
    (hsid : pEvent.Sid = s.self.m_SubscriptionId)
    (hset : xml.getFirstChild pEvent.ChangedVariables = Except.ok propertySet)
    (hprops : xml.getChildNodes propertySet = Except.ok [property])
    (hvars : xml.getChildNodes property = Except.ok [var])
    (hname : xml.getName var = Except.ok "LastChange")
    (hlast : traits.variableFromString "LastChange" = Except.ok lastChange)
    (hvalue : xml.getValue var = Except.ok text)
    (hparse : xml.parse text = Except.ok changeDoc)
    (hevent : xml.getFirstChild changeDoc = Except.ok eventNode)
    (hinst : xml.getChildElement eventNode "InstanceID" = Except.ok instanceID)
    (helems : xml.getChildNodes instanceID = Except.ok elems)
    (hunknown : ∃ elem ∈ elems, ∃ (n : String) (e : Thrown), xml.getName elem = Except.ok n ∧
      traits.variableFromString n = Except.error e) :
    (ServiceClientBase.eventOccurred traits xml pEvent s).1 = Except.ok () ∧
    (ServiceClientBase.eventOccurred traits xml pEvent s).2.calls = s.calls := by
  refine ⟨(eventOccurred_frame traits xml pEvent s).1, ?_⟩
  obtain ⟨e, he⟩ := insertVars_of_unknown traits xml elems StdMap.empty s hunknown
  have hfr := insertVars_frame traits xml elems StdMap.empty s
  rcases hres : ServiceClientBase.insertVars traits xml elems StdMap.empty s with ⟨r, s₁⟩
  rw [hres] at he hfr
  simp only at he hfr
  subst he
  unfold ServiceClientBase.eventOccurred
  rw [if_pos hsid]
  simp only [ServiceClientBase.eventOccurredBody, hset, hprops, ServiceClientBase.eachProperty,
    hvars, ServiceClientBase.eachVariable, ServiceClientBase.variableChangedGuarded,
    ServiceClientBase.variableChanged, ServiceClientBase.instanceIDNode, hname, hlast, hvalue,
    hparse, hevent, hinst, helems, hres]
  cases xml.toString var with
  | error e' => exact hfr.2.2
  | ok t => exact hfr.2.2

/-- C28 (instance): the event with TransportState PLAYING and Volume 10 under InstanceID 0. -/
theorem eventOccurred_unknown_variable_drops_event_witness :
    (ServiceClientBase.eventOccurred Sample.traits Sample.xmlMixed
        ⟨"uuid:sub1", Sample.propertySetDoc Sample.mixedChangeText⟩
        (Sample.state "uuid:sub1")).1 = Except.ok () ∧
    (ServiceClientBase.eventOccurred Sample.traits Sample.xmlMixed
        ⟨"uuid:sub1", Sample.propertySetDoc Sample.mixedChangeText⟩
        (Sample.state "uuid:sub1")).2.calls = [] :=
  eventOccurred_unknown_variable_drops_event Sample.traits Sample.xmlMixed
    ⟨"uuid:sub1", Sample.propertySetDoc Sample.mixedChangeText⟩ (Sample.state "uuid:sub1")
    (Sample.Node.element "e:propertyset" [] ""
      [Sample.Node.element "e:property" [] ""
        [Sample.Node.element "LastChange" [] Sample.mixedChangeText []]])
    (Sample.Node.element "e:property" [] ""
      [Sample.Node.element "LastChange" [] Sample.mixedChangeText []])
    (Sample.Node.element "LastChange" [] Sample.mixedChangeText [])
    (Sample.Node.element "Event" [] ""
      [Sample.Node.element "InstanceID" [("val", "0")] ""
        [Sample.Node.element "TransportState" [("val", "PLAYING")] "" [],
          Sample.Node.element "Volume" [("val", "10")] "" []]])
    (Sample.Node.element "InstanceID" [("val", "0")] ""
      [Sample.Node.element "TransportState" [("val", "PLAYING")] "" [],
        Sample.Node.element "Volume" [("val", "10")] "" []])
    Sample.mixedChangeText Sample.mixedChangeDoc AVTransport.Variable.LastChange
    [Sample.Node.element "TransportState" [("val", "PLAYING")] "" [],
      Sample.Node.element "Volume" [("val", "10")] "" []]
    rfl rfl rfl rfl rfl rfl rfl rfl rfl rfl rfl
    ⟨Sample.Node.element "Volume" [("val", "10")] "" [], by simp, "Volume",
      Thrown.other "Unknown variable: Volume", rfl, rfl⟩

/-- C28 (counterexample): the event with TransportState PLAYING and Volume 10 under InstanceID
0 reaches no handler, although TransportState is a known variable; the same event without the
Volume element is delivered with the map TransportState -> "PLAYING". -/
theorem eventOccurred_drops_recognised_variables :
    (ServiceClientBase.eventOccurred Sample.traits Sample.xmlMixed
        ⟨"uuid:sub1", Sample.propertySetDoc Sample.mixedChangeText⟩
        (Sample.state "uuid:sub1")).2.calls = [] ∧
    (ServiceClientBase.eventOccurred Sample.traits Sample.xmlMixed
        ⟨"uuid:sub1", Sample.propertySetDoc Sample.mixedChangeText⟩
        (Sample.state "uuid:sub1")).2.log =
      [(LogLevel.debug, "TransportState PLAYING"), (LogLevel.debug, "Volume 10"),
        (LogLevel.warn, "Unknown event variable ignored: Unknown variable: Volume"),
        (LogLevel.debug, "LastChange")] ∧
    (ServiceClientBase.eventOccurred Sample.traits Sample.xmlMixed
        ⟨"uuid:sub1", Sample.propertySetDoc Sample.lastChangeText⟩
        (Sample.state "uuid:sub1")).2.calls =
      [Effect.handleStateVariableEvent AVTransport.Variable.LastChange
          [(AVTransport.Variable.TransportState, "PLAYING")],
        Effect.LastChangeEvent [(AVTransport.Variable.TransportState, "PLAYING")],
        Effect.StateVariableEvent AVTransport.Variable.LastChange
          [(AVTransport.Variable.TransportState, "PLAYING")]] :=
  ⟨rfl, rfl, rfl⟩

/-! ## The loop of `getStateVariables` -/

theorem stateVariablesRound_iter (vars : List (String × String)) (iter : Nat)
    (pairs : List XmlNode) (next : Nat × List XmlNode)
    (h : AVTransport.Service.stateVariablesRound vars iter pairs = some next) :
    next.1 = iter := by
  unfold AVTransport.Service.stateVariablesRound at h
  cases hget : vars.get? iter with
  | none => rw [hget] at h; cases h
  | some entry =>
    rw [hget] at h
    simp only at h
    split at h
    · cases h; rfl
    · cases h; rfl

theorem stateVariablesLoop_of_entry (vars : List (String × String)) :
    ∀ (fuel iter : Nat) (pairs : List XmlNode), iter < vars.length →
      AVTransport.Service.stateVariablesLoop vars fuel iter pairs = none
  | 0, _, _, _ => rfl
  | fuel + 1, iter, pairs, hlt => by
    unfold AVTransport.Service.stateVariablesLoop
    cases hround : AVTransport.Service.stateVariablesRound vars iter pairs with
    | none =>
      unfold AVTransport.Service.stateVariablesRound at hround
      rw [List.get?_eq_get hlt] at hround
      simp only at hround
      split at hround <;> cases hround
    | some next =>
      simp only
      have hiter := stateVariablesRound_iter vars iter pairs next hround
      rw [hiter]
      exact stateVariablesLoop_of_entry vars fuel iter next.2 hlt

theorem stateVariablesLoop_of_empty (fuel : Nat) (pairs : List XmlNode) :
    AVTransport.Service.stateVariablesLoop [] (fuel + 1) 0 pairs = some pairs := rfl

/-- C25: the loop of `getStateVariables` over the collected variables does not advance: a
round at an entry, excluded or not, leaves the iterator where it is, so from any entry the loop
is still running after any number of rounds, and `getStateVariables` does not return for any
instance and list for which at least one variable is collected; it returns only when no
variable is collected, without any round at an entry. -/
theorem getStateVariables_loop_never_advances {Doc R : Type}
    (env : AVTransport.ServiceEnv Doc R) (d : DeviceService AVTransport.Variable) (id : Nat)
    (variableList : String) :
    (∀ (vars : List (String × String)) (iter : Nat) (pairs : List XmlNode)
        (next : Nat × List XmlNode),
      AVTransport.Service.stateVariablesRound vars iter pairs = some next → next.1 = iter) ∧
    (∀ (vars : List (String × String)) (fuel iter : Nat) (pairs : List XmlNode),
      iter < vars.length →
        AVTransport.Service.stateVariablesLoop vars fuel iter pairs = none) ∧
    (∀ (vars : StdMap String String) (d₁ : DeviceService AVTransport.Variable),
      AVTransport.Service.collectedVariables env d id variableList = (Except.ok vars, d₁) →
      (vars.entries ≠ [] →
        ∀ fuel : Nat, AVTransport.Service.getStateVariables env d id variableList fuel = none) ∧
      (vars.entries = [] →
        ∀ fuel : Nat, AVTransport.Service.getStateVariables env d id variableList (fuel + 1) =
          some (Except.ok ⟨[]⟩, d₁))) := by
  refine ⟨stateVariablesRound_iter, stateVariablesLoop_of_entry, ?_⟩
  intro vars d₁ hcollected
  constructor
  · intro hne fuel
    have hlt : 0 < vars.entries.length := List.length_pos.mpr hne
    simp only [AVTransport.Service.getStateVariables, AVTransport.Service.getStateVariablesBody,
      hcollected, stateVariablesLoop_of_entry vars.entries fuel 0 [] hlt]
  · intro hnil fuel
    simp only [AVTransport.Service.getStateVariables, AVTransport.Service.getStateVariablesBody,
      hcollected, hnil, stateVariablesLoop_of_empty]

/-- C25 (instance): for the list "TransportState" on a service whose instance 0 holds
TransportState PLAYING, one variable is collected and no number of rounds ends the loop; on a
new service the list "*" collects nothing and the function returns. -/
theorem getStateVariables_loop_never_advances_witness :
    (AVTransport.Service.collectedVariables (Sample.hostEnv false Sample.goodTransport)
        Sample.playingService.store 0 "TransportState").1 =
      Except.ok ⟨[("TransportState", "PLAYING")]⟩ ∧
    (∀ fuel : Nat,
      AVTransport.Service.getStateVariables (Sample.hostEnv false Sample.goodTransport)
        Sample.playingService.store 0 "TransportState" fuel = none) ∧
    (AVTransport.Service.getStateVariables (Sample.hostEnv false Sample.goodTransport)
        Sample.newService.store 0 "*" 1).isSome = true :=
  ⟨rfl,
    ((getStateVariables_loop_never_advances (Sample.hostEnv false Sample.goodTransport)
      Sample.playingService.store 0 "TransportState").2.2
        ⟨[("TransportState", "PLAYING")]⟩ _ rfl).1 (by simp),
    rfl⟩

/-! ## The document of `getStateVariables` -/

theorem getInstanceVariable_of_instance {V : Type} [StdKey V] (d : DeviceService V) (id : Nat)
    (var : V) (h : (d.m_Variables.find id).isSome = true) :
    ∃ (sv : ServiceVariable) (d₁ : DeviceService V),
      d.getInstanceVariable id var = (Except.ok sv, d₁) ∧
      (d₁.m_Variables.find id).isSome = true := by
  obtain ⟨vars, hvars⟩ := Option.isSome_iff_exists.mp h
  unfold DeviceService.getInstanceVariable
  cases hv : vars.find var with
  | some sv => exact ⟨sv, d, by simp only [hvars, hv], h⟩
  | none =>
    exact ⟨{}, d.store id var {}, by simp only [hvars, hv],
      store_keeps_instances d id var {} id h⟩

theorem collectVariables_of_unknown {Doc R : Type} (env : AVTransport.ServiceEnv Doc R)
    (id : Nat)
    (hthrows : ∀ (name : String) (e : HostThrown),
      env.variableFromString name = Except.error e → e.isException = true) :
    ∀ (names : List String) (vars : StdMap String String)
      (d : DeviceService AVTransport.Variable),
      (d.m_Variables.find id).isSome = true →
      (∃ name ∈ names, ∃ e : HostThrown, env.variableFromString name = Except.error e) →
      ∃ (e : HostThrown) (d₁ : DeviceService AVTransport.Variable),
        AVTransport.Service.collectVariables env id names vars d = (Except.error e, d₁) ∧
        e.isException = true
  | [], _, _, _, h => by
    obtain ⟨name, hmem, _⟩ := h
    cases hmem
  | var :: rest, vars, d, hinst, h => by
    unfold AVTransport.Service.collectVariables
    cases hv : env.variableFromString var with
    | error e => exact ⟨e, d, rfl, hthrows var e hv⟩
    | ok v =>
      simp only
      obtain ⟨sv, d₁, hget, hinst₁⟩ := getInstanceVariable_of_instance d id v hinst
      rw [hget]
      simp only
      apply collectVariables_of_unknown env id hthrows rest _ d₁ hinst₁
      obtain ⟨name, hmem, e, he⟩ := h
      rcases List.mem_cons.mp hmem with rfl | hrest
      · rw [hv] at he
        cases he
      · exact ⟨name, hrest, e, he⟩

/-- C24: whenever `getStateVariables(id, list)` returns a document, the document has no child,
so no `stateVariableValuePairs` element, and no variable was collected: for a list or an
instance with at least one variable the loop does not end, and the element that is filled is
never appended to the document.  A list (other than "*") that names an unknown variable, for an
instance of the store, does raise `InvalidStateVariableListException`, `variableFromString`
throwing an `Exception` for such a name. -/
theorem getStateVariables_returns_empty_document {Doc R : Type}
    (env : AVTransport.ServiceEnv Doc R) (d : DeviceService AVTransport.Variable) (id : Nat)
    (variableList : String) :
    (∀ (fuel : Nat) (doc : XmlDocument) (d₁ : DeviceService AVTransport.Variable),
      AVTransport.Service.getStateVariables env d id variableList fuel =
          some (Except.ok doc, d₁) →
        doc.children = [] ∧
        ∃ vars : StdMap String String,
          AVTransport.Service.collectedVariables env d id variableList = (Except.ok vars, d₁) ∧
          vars.entries = []) ∧
    (¬ variableList = "*" → (d.m_Variables.find id).isSome = true →
      (∀ (name : String) (e : HostThrown),
        env.variableFromString name = Except.error e → e.isException = true) →
      (∃ name ∈ env.csvToVector variableList, ∃ e : HostThrown,
        env.variableFromString name = Except.error e) →
      ∀ fuel : Nat, ∃ d₁ : DeviceService AVTransport.Variable,
        AVTransport.Service.getStateVariables env d id variableList fuel =
          some (Except.error HostThrown.InvalidStateVariableListException, d₁)) := by
  constructor
  · intro fuel doc d₁ h
    unfold AVTransport.Service.getStateVariables AVTransport.Service.getStateVariablesBody at h
    rcases hc : AVTransport.Service.collectedVariables env d id variableList with ⟨r, d₂⟩
    rw [hc] at h
    cases r with
    | error e =>
      simp only at h
      split at h <;> simp at h
    | ok vars =>
      simp only at h
      cases hloop : AVTransport.Service.stateVariablesLoop vars.entries fuel 0 [] with
      | none => rw [hloop] at h; simp at h
      | some pairs =>
        rw [hloop] at h
        simp only [Option.some.injEq, Prod.mk.injEq, Except.ok.injEq] at h
        obtain ⟨hdoc, hd⟩ := h
        subst hdoc
        subst hd
        refine ⟨rfl, vars, rfl, ?_⟩
        cases hentries : vars.entries with
        | nil => rfl
        | cons entry rest =>
          have hlt : 0 < vars.entries.length := by rw [hentries]; simp
          rw [stateVariablesLoop_of_entry vars.entries fuel 0 [] hlt] at hloop
          cases hloop
  · intro hstar hinst hthrows hunknown fuel
    obtain ⟨e, d₁, hcollect, hexc⟩ :=
      collectVariables_of_unknown env id hthrows (env.csvToVector variableList) StdMap.empty d
        hinst hunknown
    refine ⟨d₁, ?_⟩
    simp only [AVTransport.Service.getStateVariables, AVTransport.Service.getStateVariablesBody,
      AVTransport.Service.collectedVariables, if_neg hstar, hcollect, hexc, if_true]

/-- C24 (instance): on a new service the list "*" gives a document without children; on a
service with TransportState PLAYING in instance 0, the list "TransportState,Volume" raises
`InvalidStateVariableListException`, and the list "TransportState" gives no result whatever
the number of rounds. -/
theorem getStateVariables_returns_empty_document_witness :
    (∃ d₁ : DeviceService AVTransport.Variable,
      AVTransport.Service.getStateVariables (Sample.hostEnv false Sample.goodTransport)
        Sample.newService.store 0 "*" 1 = some (Except.ok ⟨[]⟩, d₁)) ∧
    (∃ d₁ : DeviceService AVTransport.Variable,
      AVTransport.Service.getStateVariables (Sample.hostEnv false Sample.goodTransport)
        Sample.playingService.store 0 "TransportState,Volume" 1 =
          some (Except.error HostThrown.InvalidStateVariableListException, d₁)) ∧
    ¬ ∃ fuel : Nat,
      (AVTransport.Service.getStateVariables (Sample.hostEnv false Sample.goodTransport)
        Sample.playingService.store 0 "TransportState" fuel).isSome = true := by
  have h := getStateVariables_returns_empty_document
    (Sample.hostEnv false Sample.goodTransport) Sample.playingService.store 0
  refine ⟨⟨_, rfl⟩, ?_, ?_⟩
  · refine (h "TransportState,Volume").2 (by decide) rfl ?_ ⟨"Volume", by decide, _, rfl⟩ 1
    intro name e he
    simp only [Sample.hostEnv] at he
    split at he
    · cases he
    · cases he; rfl
  · rintro ⟨fuel, hsome⟩
    obtain ⟨⟨r, d₁⟩, hres⟩ := Option.isSome_iff_exists.mp hsome
    cases r with
    | error e =>
      have hcollected : AVTransport.Service.collectedVariables
          (Sample.hostEnv false Sample.goodTransport) Sample.playingService.store 0
          "TransportState" = (Except.ok ⟨[("TransportState", "PLAYING")]⟩,
            Sample.playingService.store) := rfl
      have hlt : 0 < [("TransportState", "PLAYING")].length := by decide
      simp only [AVTransport.Service.getStateVariables,
        AVTransport.Service.getStateVariablesBody, hcollected,
        stateVariablesLoop_of_entry [("TransportState", "PLAYING")] fuel 0 [] hlt] at hres
      cases hres
    | ok doc =>
      obtain ⟨_, vars, hvars, hnil⟩ := (h "TransportState").1 fuel doc d₁ hres
      have hcollected : AVTransport.Service.collectedVariables
          (Sample.hostEnv false Sample.goodTransport) Sample.playingService.store 0
          "TransportState" = (Except.ok ⟨[("TransportState", "PLAYING")]⟩,
            Sample.playingService.store) := rfl
      rw [hcollected] at hvars
      simp only [Prod.mk.injEq, Except.ok.injEq] at hvars
      rw [← hvars.1] at hnil
      cases hnil

/-! ## `onAction` of the AVTransport service -/

theorem onAction_of_action {Doc R : Type} (env : AVTransport.ServiceEnv Doc R)
    (action : String) (doc : Doc) (req : R) (text : String) (n : Nat) (a : AVTransport.Action)
    (fuel : Nat) (st : AVTransport.ServiceState)
    (hdoc : env.getFirstChild doc = Except.ok req)
    (hid : env.getChildNodeValue req "InstanceID" = Except.ok text)
    (hn : env.stoul text = Except.ok n)
    (hact : env.actionFromString action = Except.ok a) :
    AVTransport.Service.onAction env action doc fuel st =
      AVTransport.Service.onActionHandler
        (AVTransport.Service.dispatch env req (n % 2 ^ 32)
          ⟨action, ServiceType.Tag.AVTransport, []⟩ fuel st a) := by
  simp only [AVTransport.Service.onAction, AVTransport.Service.onActionBody, hdoc, hid, hn,
    hact]

/-- C22: for the action SetRecordQualityMode, `onAction` reads the request argument whose name
is U+FFFC followed by "NewRecordQualityMode", which is not the name "NewRecordQualityMode":
the call `setRecordQualityMode(id, mode)` is made with the value of the argument of that
prefixed name, and when the request has no argument of that name `onAction` raises
`InvalidActionException` without calling the transport implementation, whatever the request
holds under "NewRecordQualityMode". -/
theorem onAction_setRecordQualityMode_reads_prefixed_name {Doc R : Type}
    (env : AVTransport.ServiceEnv Doc R) (action : String) (doc : Doc) (req : R)
    (text : String) (n fuel : Nat) (st : AVTransport.ServiceState)
    (hdoc : env.getFirstChild doc = Except.ok req)
    (hid : env.getChildNodeValue req "InstanceID" = Except.ok text)
    (hn : env.stoul text = Except.ok n)
    (hact : env.actionFromString action = Except.ok AVTransport.Action.SetRecordQualityMode) :
    ¬ "\uFFFCNewRecordQualityMode" = "NewRecordQualityMode" ∧
    (∀ e : HostThrown,
      env.getChildNodeValue req "\uFFFCNewRecordQualityMode" = Except.error e →
      AVTransport.Service.onAction env action doc fuel st =
        some (Except.error HostThrown.InvalidActionException, st)) ∧
    (∀ mode : String,
      env.getChildNodeValue req "\uFFFCNewRecordQualityMode" = Except.ok mode →
      ∃ r : Except HostThrown ActionResponse,
        AVTransport.Service.onAction env action doc fuel st =
          some (r, { st with transportCalls := st.transportCalls ++
            [AVTransport.TransportCall.setRecordQualityMode (n % 2 ^ 32) mode] })) := by
  rw [onAction_of_action env action doc req text n _ fuel st hdoc hid hn hact]
  refine ⟨by decide, ?_, ?_⟩
  · intro e he
    simp only [AVTransport.Service.dispatch, AVTransport.Service.invoke, he, bind, Except.bind,
      AVTransport.Service.onActionHandler]
  · intro mode hmode
    simp only [AVTransport.Service.dispatch, AVTransport.Service.invoke, hmode, bind,
      Except.bind, pure, Except.pure]
    cases env.transport (AVTransport.TransportCall.setRecordQualityMode (n % 2 ^ 32) mode) with
    | error e => exact ⟨_, rfl⟩
    | ok result => exact ⟨_, rfl⟩

/-- C22 (instance): the request SetRecordQualityMode with InstanceID 0 and
NewRecordQualityMode "0:BASIC" is answered with `InvalidActionException`, and
`setRecordQualityMode` is not called. -/
theorem onAction_setRecordQualityMode_reads_prefixed_name_witness :
    AVTransport.Service.onAction (Sample.hostEnv false Sample.goodTransport)
        "SetRecordQualityMode" [[("InstanceID", "0"), ("NewRecordQualityMode", "0:BASIC")]] 0
        Sample.newService =
      some (Except.error HostThrown.InvalidActionException, Sample.newService) ∧
    Sample.newService.transportCalls = [] :=
  ⟨(onAction_setRecordQualityMode_reads_prefixed_name
      (Sample.hostEnv false Sample.goodTransport) "SetRecordQualityMode"
      [[("InstanceID", "0"), ("NewRecordQualityMode", "0:BASIC")]]
      [("InstanceID", "0"), ("NewRecordQualityMode", "0:BASIC")] "0" 0 0 Sample.newService
      rfl rfl rfl rfl).2.1 (HostThrown.exception "No child node: \uFFFCNewRecordQualityMode")
      rfl, rfl⟩

theorem onActionHandler_of_error (e : HostThrown) (st : AVTransport.ServiceState) :
    AVTransport.Service.onActionHandler (some (Except.error e, st)) =
      some (Except.error HostThrown.InvalidActionException, st) := rfl

theorem onActionHandler_outcome
    (x : Option (Except HostThrown ActionResponse × AVTransport.ServiceState))
    (r : Except HostThrown ActionResponse) (st₁ : AVTransport.ServiceState)
    (h : AVTransport.Service.onActionHandler x = some (r, st₁)) :
    (∃ response : ActionResponse, r = Except.ok response) ∨
      r = Except.error HostThrown.InvalidActionException := by
  cases x with
  | none => cases h
  | some p =>
    obtain ⟨r', st'⟩ := p
    cases r' with
    | error e =>
      simp only [AVTransport.Service.onActionHandler, Option.some.injEq, Prod.mk.injEq] at h
      exact Or.inr h.1.symm
    | ok response =>
      simp only [AVTransport.Service.onActionHandler, Option.some.injEq, Prod.mk.injEq] at h
      exact Or.inl ⟨response, h.1.symm⟩

theorem respond_of_missing_instance (st : AVTransport.ServiceState) (id : Nat)
    (response : ActionResponse) (arg : String × AVTransport.Variable)
    (args : List (String × AVTransport.Variable))
    (h : st.store.m_Variables.find id = none) :
    AVTransport.Service.respond st id response (arg :: args) =
      (Except.error (HostThrown.standard "map::at"), st) := by
  obtain ⟨name, var⟩ := arg
  simp only [AVTransport.Service.respond, AVTransport.Service.addVariableArguments,
    DeviceService.getInstanceVariable, h]
  rfl

theorem invoke_of_failing_transport {Doc R : Type} (env : AVTransport.ServiceEnv Doc R)
    (st : AVTransport.ServiceState) (answer : String → ActionResponse)
    (call : Except HostThrown AVTransport.TransportCall)
    (h : ∀ c : AVTransport.TransportCall, ∃ e : HostThrown, env.transport c = Except.error e) :
    ∃ (e : HostThrown) (st₁ : AVTransport.ServiceState),
      AVTransport.Service.invoke env st answer call = (Except.error e, st₁) := by
  unfold AVTransport.Service.invoke
  cases call with
  | error e => exact ⟨e, st, rfl⟩
  | ok c =>
    obtain ⟨e, he⟩ := h c
    simp only [he]
    exact ⟨e, _, rfl⟩

theorem dispatch_of_caller {Doc R : Type} (env : AVTransport.ServiceEnv Doc R) (req : R)
    (id : Nat) (response : ActionResponse) (fuel : Nat) (st : AVTransport.ServiceState)
    (a : AVTransport.Action) (h : a ∈ AVTransport.Service.callers) :
    (∃ (answer : String → ActionResponse) (call : Except HostThrown AVTransport.TransportCall),
      AVTransport.Service.dispatch env req id response fuel st a =
        some (AVTransport.Service.invoke env st answer call)) ∨
    AVTransport.Service.dispatch env req id response fuel st a =
      some (Except.error HostThrown.InvalidActionException, st) := by
  cases hav : env.m_avTransport3 <;> cases a <;>
    first
    | exact absurd h (by decide)
    | exact Or.inr (by simp only [AVTransport.Service.dispatch, hav]; rfl)
    | exact Or.inl ⟨_, _, by simp only [AVTransport.Service.dispatch, hav]; rfl⟩

theorem dispatch_of_reader {Doc R : Type} (env : AVTransport.ServiceEnv Doc R) (req : R)
    (id : Nat) (response : ActionResponse) (fuel : Nat) (st : AVTransport.ServiceState)
    (a : AVTransport.Action) (h : a ∈ AVTransport.Service.readers)
    (hmissing : st.store.m_Variables.find id = none) :
    ∃ e : HostThrown,
      AVTransport.Service.dispatch env req id response fuel st a = some (Except.error e, st) := by
  cases hav : env.m_avTransport3 <;> cases a <;>
    first
    | exact absurd h (by decide)
    | exact ⟨_, by
        simp only [AVTransport.Service.dispatch, hav,
          respond_of_missing_instance st id response _ _ hmissing]; rfl⟩

theorem dispatch_without_avTransport3 {Doc R : Type} (env : AVTransport.ServiceEnv Doc R)
    (req : R) (id : Nat) (response : ActionResponse) (fuel : Nat)
    (st : AVTransport.ServiceState) (a : AVTransport.Action)
    (h : a ∈ AVTransport.Service.avTransport3Actions) (hav : env.m_avTransport3 = false) :
    AVTransport.Service.dispatch env req id response fuel st a =
      some (Except.error HostThrown.InvalidActionException, st) := by
  cases a <;>
    first
    | exact absurd h (by decide)
    | (simp only [AVTransport.Service.dispatch, hav]; rfl)

theorem dispatch_returns {Doc R : Type} (env : AVTransport.ServiceEnv Doc R) (req : R)
    (id : Nat) (response : ActionResponse) (fuel : Nat) (st : AVTransport.ServiceState)
    (a : AVTransport.Action) (h : ¬ a = AVTransport.Action.GetStateVariables) :
    (AVTransport.Service.dispatch env req id response fuel st a).isSome = true := by
  cases hav : env.m_avTransport3 <;> cases a <;>
    first
    | exact absurd rfl h
    | (simp only [AVTransport.Service.dispatch, hav]; rfl)

theorem onActionHandler_isSome
    (x : Option (Except HostThrown ActionResponse × AVTransport.ServiceState))
    (h : x.isSome = true) : (AVTransport.Service.onActionHandler x).isSome = true := by
  cases x with
  | none => cases h
  | some p =>
    obtain ⟨r, st⟩ := p
    cases r <;> rfl

/-- C27 (as amended): `Service::onAction`, whenever it completes, has returned a response or
raised `InvalidActionException`, and it completes for every action but GetStateVariables
(whose loop may not end).  A document without first child, a missing InstanceID, an InstanceID
that `std::stoul` rejects and an unknown action name surface as `InvalidActionException`, the
service left as it was.  For an action that answers with state variables, an instance id that
is not in the store surfaces as `InvalidActionException`; Stop, which only calls the transport
implementation, passes any id on to it and returns the response.  When the calls of the
transport implementation fail, every action that calls it raises `InvalidActionException`.
Every AVTransport:3 action on a service without `IAVTransport3` raises
`InvalidActionException` and the transport implementation is not called. -/
theorem onAction_raises_InvalidActionException {Doc R : Type}
    (env : AVTransport.ServiceEnv Doc R) (action : String) (doc : Doc) (fuel : Nat)
    (st : AVTransport.ServiceState) :
    (∀ (r : Except HostThrown ActionResponse) (st₁ : AVTransport.ServiceState),
      AVTransport.Service.onAction env action doc fuel st = some (r, st₁) →
        (∃ response : ActionResponse, r = Except.ok response) ∨
          r = Except.error HostThrown.InvalidActionException) ∧
    ((∃ e : HostThrown, env.getFirstChild doc = Except.error e) →
      AVTransport.Service.onAction env action doc fuel st =
        some (Except.error HostThrown.InvalidActionException, st)) ∧
    (∀ req : R, env.getFirstChild doc = Except.ok req →
      ((∃ e : HostThrown, env.getChildNodeValue req "InstanceID" = Except.error e) →
        AVTransport.Service.onAction env action doc fuel st =
          some (Except.error HostThrown.InvalidActionException, st)) ∧
      (∀ text : String, env.getChildNodeValue req "InstanceID" = Except.ok text →
        ((∃ e : HostThrown, env.stoul text = Except.error e) →
          AVTransport.Service.onAction env action doc fuel st =
            some (Except.error HostThrown.InvalidActionException, st)) ∧
        (∀ n : Nat, env.stoul text = Except.ok n →
          ((∃ e : HostThrown, env.actionFromString action = Except.error e) →
            AVTransport.Service.onAction env action doc fuel st =
              some (Except.error HostThrown.InvalidActionException, st)) ∧
          (∀ a : AVTransport.Action, env.actionFromString action = Except.ok a →
            (¬ a = AVTransport.Action.GetStateVariables →
              (AVTransport.Service.onAction env action doc fuel st).isSome = true) ∧
            (a ∈ AVTransport.Service.readers →
              st.store.m_Variables.find (n % 2 ^ 32) = none →
              AVTransport.Service.onAction env action doc fuel st =
                some (Except.error HostThrown.InvalidActionException, st)) ∧
            (a = AVTransport.Action.Stop →
              ∀ result : String,
                env.transport (AVTransport.TransportCall.stop (n % 2 ^ 32)) =
                  Except.ok result →
                AVTransport.Service.onAction env action doc fuel st =
                  some (Except.ok ⟨action, ServiceType.Tag.AVTransport, []⟩,
                    { st with transportCalls := st.transportCalls ++
                      [AVTransport.TransportCall.stop (n % 2 ^ 32)] })) ∧
            (a ∈ AVTransport.Service.callers →
              (∀ c : AVTransport.TransportCall, ∃ e : HostThrown,
                env.transport c = Except.error e) →
              ∃ st₁ : AVTransport.ServiceState,
                AVTransport.Service.onAction env action doc fuel st =
                  some (Except.error HostThrown.InvalidActionException, st₁)) ∧
            (a ∈ AVTransport.Service.avTransport3Actions → env.m_avTransport3 = false →
              AVTransport.Service.onAction env action doc fuel st =
                some (Except.error HostThrown.InvalidActionException, st)))))) := by
  refine ⟨fun r st₁ h => onActionHandler_outcome _ r st₁ h, ?_, ?_⟩
  · rintro ⟨e, he⟩
    simp only [AVTransport.Service.onAction, AVTransport.Service.onActionBody, he,
      onActionHandler_of_error]
  intro req hdoc
  constructor
  · rintro ⟨e, he⟩
    simp only [AVTransport.Service.onAction, AVTransport.Service.onActionBody, hdoc, he,
      onActionHandler_of_error]
  intro text hid
  constructor
  · rintro ⟨e, he⟩
    simp only [AVTransport.Service.onAction, AVTransport.Service.onActionBody, hdoc, hid, he,
      onActionHandler_of_error]
  intro n hn
  constructor
  · rintro ⟨e, he⟩
    simp only [AVTransport.Service.onAction, AVTransport.Service.onActionBody, hdoc, hid, hn,
      he, onActionHandler_of_error]
  intro a hact
  rw [onAction_of_action env action doc req text n a fuel st hdoc hid hn hact]
  refine ⟨fun hne => onActionHandler_isSome _ (dispatch_returns env req _ _ fuel st a hne),
    ?_, ?_, ?_, ?_⟩
  · intro hreader hmissing
    obtain ⟨e, he⟩ := dispatch_of_reader env req _ ⟨action, ServiceType.Tag.AVTransport, []⟩
      fuel st a hreader hmissing
    rw [he, onActionHandler_of_error]
  · intro hstop result hresult
    subst hstop
    simp only [AVTransport.Service.dispatch, AVTransport.Service.invoke, pure, Except.pure,
      hresult, AVTransport.Service.onActionHandler]
  · intro hcaller hfail
    rcases dispatch_of_caller env req (n % 2 ^ 32) ⟨action, ServiceType.Tag.AVTransport, []⟩
      fuel st a hcaller with ⟨answer, call, hd⟩ | hd
    · obtain ⟨e, st₁, hinv⟩ := invoke_of_failing_transport env st answer call hfail
      rw [hd, hinv, onActionHandler_of_error]
      exact ⟨st₁, rfl⟩
    · rw [hd, onActionHandler_of_error]
      exact ⟨st, rfl⟩
  · intro hav3 hav
    rw [dispatch_without_avTransport3 env req _ _ fuel st a hav3 hav, onActionHandler_of_error]

/-- C27 (instance): a request without InstanceID, the unknown action "Eject", the action
GetMediaInfo for instance 7, which is not in the store, the action Play with a transport
implementation that fails, and the AVTransport:3 action SyncStop without `IAVTransport3`. -/
theorem onAction_raises_InvalidActionException_witness :
    AVTransport.Service.onAction (Sample.hostEnv false Sample.goodTransport) "Stop"
        [[("Speed", "1")]] 0 Sample.newService =
      some (Except.error HostThrown.InvalidActionException, Sample.newService) ∧
    AVTransport.Service.onAction (Sample.hostEnv false Sample.goodTransport) "Eject"
        [[("InstanceID", "0")]] 0 Sample.newService =
      some (Except.error HostThrown.InvalidActionException, Sample.newService) ∧
    AVTransport.Service.onAction (Sample.hostEnv false Sample.goodTransport) "GetMediaInfo"
        [[("InstanceID", "7")]] 0 Sample.newService =
      some (Except.error HostThrown.InvalidActionException, Sample.newService) ∧
    (∃ st₁ : AVTransport.ServiceState,
      AVTransport.Service.onAction (Sample.hostEnv false Sample.badTransport) "Play"
          [[("InstanceID", "0"), ("Speed", "1")]] 0 Sample.newService =
        some (Except.error HostThrown.InvalidActionException, st₁)) ∧
    AVTransport.Service.onAction (Sample.hostEnv false Sample.goodTransport) "SyncStop"
        [[("InstanceID", "0"), ("StopTime", "0"), ("ReferenceClockId", "c")]] 0
        Sample.newService =
      some (Except.error HostThrown.InvalidActionException, Sample.newService) :=
  ⟨((onAction_raises_InvalidActionException (Sample.hostEnv false Sample.goodTransport) "Stop"
      [[("Speed", "1")]] 0 Sample.newService).2.2 [("Speed", "1")] rfl).1 ⟨_, rfl⟩,
    (((((onAction_raises_InvalidActionException (Sample.hostEnv false Sample.goodTransport)
      "Eject" [[("InstanceID", "0")]] 0 Sample.newService).2.2 [("InstanceID", "0")] rfl).2
        "0" rfl).2 0 rfl).1) ⟨_, rfl⟩,
    (((((onAction_raises_InvalidActionException (Sample.hostEnv false Sample.goodTransport)
      "GetMediaInfo" [[("InstanceID", "7")]] 0 Sample.newService).2.2 [("InstanceID", "7")]
        rfl).2 "7" rfl).2 7 rfl).2 AVTransport.Action.GetMediaInfo rfl).2.1 (by decide) rfl,
    (((((onAction_raises_InvalidActionException (Sample.hostEnv false Sample.badTransport)
      "Play" [[("InstanceID", "0"), ("Speed", "1")]] 0 Sample.newService).2.2
        [("InstanceID", "0"), ("Speed", "1")] rfl).2 "0" rfl).2 0 rfl).2
          AVTransport.Action.Play rfl).2.2.2.1 (by decide) (fun _ => ⟨_, rfl⟩),
    (((((onAction_raises_InvalidActionException (Sample.hostEnv false Sample.goodTransport)
      "SyncStop" [[("InstanceID", "0"), ("StopTime", "0"), ("ReferenceClockId", "c")]] 0
        Sample.newService).2.2
        [("InstanceID", "0"), ("StopTime", "0"), ("ReferenceClockId", "c")] rfl).2 "0" rfl).2
          0 rfl).2 AVTransport.Action.SyncStop rfl).2.2.2.2 (by decide) rfl⟩

/-- C27 (counterexample): on a new service, whose store holds instance 0 only, the action Stop
for instance 7 returns a response, `stop(7)` having been called; and the action
GetStateVariables for the variable TransportState of a service that holds it neither returns
nor raises, whatever the number of rounds of its loop. -/
theorem onAction_stop_passes_unknown_instance :
    Sample.newService.store.m_Variables.find 7 = none ∧
    AVTransport.Service.onAction (Sample.hostEnv false Sample.goodTransport) "Stop"
        [[("InstanceID", "7")]] 0 Sample.newService =
      some (Except.ok ⟨"Stop", ServiceType.Tag.AVTransport, []⟩,
        { Sample.newService with transportCalls := [AVTransport.TransportCall.stop 7] }) ∧
    ¬ ∃ fuel : Nat,
      (AVTransport.Service.onAction (Sample.hostEnv false Sample.goodTransport)
        "GetStateVariables" [[("InstanceID", "0"), ("StateVariableList", "TransportState")]]
        fuel Sample.playingService).isSome = true := by
  refine ⟨rfl, rfl, ?_⟩
  rintro ⟨fuel, hsome⟩
  have hcollected : AVTransport.Service.collectedVariables
      (Sample.hostEnv false Sample.goodTransport) Sample.playingService.store 0
      "TransportState" = (Except.ok ⟨[("TransportState", "PLAYING")]⟩,
        Sample.playingService.store) := rfl
  have hlt : 0 < [("TransportState", "PLAYING")].length := by decide
  have hnone : AVTransport.Service.getStateVariables
      (Sample.hostEnv false Sample.goodTransport) Sample.playingService.store 0
      "TransportState" fuel = none := by
    simp only [AVTransport.Service.getStateVariables, AVTransport.Service.getStateVariablesBody,
      hcollected, stateVariablesLoop_of_entry [("TransportState", "PLAYING")] fuel 0 [] hlt]
  have hres : AVTransport.Service.onAction (Sample.hostEnv false Sample.goodTransport)
      "GetStateVariables" [[("InstanceID", "0"), ("StateVariableList", "TransportState")]]
      fuel Sample.playingService = none := by
    rw [onAction_of_action (Sample.hostEnv false Sample.goodTransport) "GetStateVariables"
      [[("InstanceID", "0"), ("StateVariableList", "TransportState")]]
      [("InstanceID", "0"), ("StateVariableList", "TransportState")] "0" 0
      AVTransport.Action.GetStateVariables fuel Sample.playingService rfl rfl rfl rfl]
    have harg : (Sample.hostEnv false Sample.goodTransport).getChildNodeValue
        [("InstanceID", "0"), ("StateVariableList", "TransportState")] "StateVariableList" =
        Except.ok "TransportState" := rfl
    simp only [AVTransport.Service.dispatch, harg]
    have hid : (0 : Nat) % 2 ^ 32 = 0 := rfl
    rw [hid, hnone]
    rfl
  rw [hres] at hsome
  cases hsome

/-! ## Responses of the service, decoded by the client -/

theorem getInstanceVariable_valueOf (d : DeviceService AVTransport.Variable) (id : Nat)
    (var : AVTransport.Variable) (sv : ServiceVariable)
    (d₁ : DeviceService AVTransport.Variable)
    (h : d.getInstanceVariable id var = (Except.ok sv, d₁)) :
    sv.value = d.valueOf id var ∧
    ∀ var' : AVTransport.Variable, d₁.valueOf id var' = d.valueOf id var' := by
  unfold DeviceService.getInstanceVariable at h
  cases hf : d.m_Variables.find id with
  | none => rw [hf] at h; cases h
  | some vars =>
    rw [hf] at h
    simp only at h
    cases hv : vars.find var with
    | some sv' =>
      rw [hv] at h
      simp only [Prod.mk.injEq, Except.ok.injEq] at h
      obtain ⟨hsv, hd⟩ := h
      subst hsv
      subst hd
      refine ⟨?_, fun _ => rfl⟩
      simp only [DeviceService.valueOf, DeviceService.entry, hf, hv]
    | none =>
      rw [hv] at h
      simp only [Prod.mk.injEq, Except.ok.injEq] at h
      obtain ⟨hsv, hd⟩ := h
      subst hsv
      subst hd
      have hentry : d.entry id var = none := by
        simp only [DeviceService.entry, hf, hv]
      refine ⟨?_, fun var' => ?_⟩
      · simp only [DeviceService.valueOf, hentry]
      · by_cases hvar : var = var'
        · subst hvar
          simp only [DeviceService.valueOf, entry_store_same, hentry]
        · simp only [DeviceService.valueOf,
            entry_store_other d id id var var' {} (fun h => hvar h.2)]

theorem addVariableArguments_arguments (id : Nat) :
    ∀ (args : List (String × AVTransport.Variable)) (response r : ActionResponse)
      (d d₁ : DeviceService AVTransport.Variable),
      AVTransport.Service.addVariableArguments id args response d = (Except.ok r, d₁) →
      r.arguments = response.arguments ++ args.map (fun arg => (arg.1, d.valueOf id arg.2))
  | [], response, r, d, d₁, h => by
    simp only [AVTransport.Service.addVariableArguments, Prod.mk.injEq, Except.ok.injEq] at h
    rw [← h.1]
    simp
  | (name, var) :: rest, response, r, d, d₁, h => by
    unfold AVTransport.Service.addVariableArguments at h
    rcases hget : d.getInstanceVariable id var with ⟨res, d₂⟩
    rw [hget] at h
    cases res with
    | error e => simp at h
    | ok sv =>
      simp only at h
      obtain ⟨hvalue, hrest⟩ := getInstanceVariable_valueOf d id var sv d₂ hget
      have ih := addVariableArguments_arguments id rest _ r d₂ d₁ h
      rw [ih]
      simp only [ActionResponse.addArgument, List.map_cons, List.append_assoc,
        List.singleton_append, hvalue, hrest]

theorem onAction_of_respond {Doc R : Type} (env : AVTransport.ServiceEnv Doc R)
    (action : String) (doc : Doc) (req : R) (text : String) (n : Nat) (a : AVTransport.Action)
    (fuel : Nat) (st st₁ : AVTransport.ServiceState) (response : ActionResponse)
    (args : List (String × AVTransport.Variable))
    (hdoc : env.getFirstChild doc = Except.ok req)
    (hid : env.getChildNodeValue req "InstanceID" = Except.ok text)
    (hn : env.stoul text = Except.ok n)
    (hact : env.actionFromString action = Except.ok a)
    (hdispatch : AVTransport.Service.dispatch env req (n % 2 ^ 32)
        ⟨action, ServiceType.Tag.AVTransport, []⟩ fuel st a =
      some (AVTransport.Service.respond st (n % 2 ^ 32)
        ⟨action, ServiceType.Tag.AVTransport, []⟩ args))
    (h : AVTransport.Service.onAction env action doc fuel st =
      some (Except.ok response, st₁)) :
    response.arguments = args.map (fun arg => (arg.1, st.store.valueOf (n % 2 ^ 32) arg.2)) := by
  rw [onAction_of_action env action doc req text n a fuel st hdoc hid hn hact, hdispatch] at h
  unfold AVTransport.Service.respond at h
  rcases hadd : AVTransport.Service.addVariableArguments (n % 2 ^ 32) args
    ⟨action, ServiceType.Tag.AVTransport, []⟩ st.store with ⟨r, d⟩
  rw [hadd] at h
  cases r with
  | error e => simp [AVTransport.Service.onActionHandler] at h
  | ok r' =>
    simp only [AVTransport.Service.onActionHandler, Option.some.injEq, Prod.mk.injEq,
      Except.ok.injEq] at h
    rw [← h.1, addVariableArguments_arguments _ args _ r' st.store d hadd]
    simp

/-- C26: the response of `onAction` for GetMediaInfo, decoded by `Client::getMediaInfo`.  With
`value var` the text `getInstanceVariable(id, var).getValue()` of the instance of the request,
the response holds the arguments NrTracks, MediaDuration, CurrentURI, CurrentURIMetaData,
NextURI, NextURIMetaData, PlayMedium, RecordMedium and WriteStatus; the decoder, which looks for
"CurrentUri" and "CurrentUriMetaData", leaves `currentURI` and `currentURIMetaData` empty
whatever the service put under CurrentURI and CurrentURIMetaData, while the other members are
the values of their arguments.  For GetPositionInfo and GetTransportInfo every member is the
value of its argument (converted, for the numbers and the enumerations). -/
theorem getMediaInfo_leaves_currentURI_empty {Doc R : Type}
    (env : AVTransport.ServiceEnv Doc R) (f : AVTransport.DecoderFunctions) (action : String)
    (doc : Doc) (req : R) (text : String) (n fuel : Nat) (st st₁ : AVTransport.ServiceState)
    (response : ActionResponse)
    (hdoc : env.getFirstChild doc = Except.ok req)
    (hid : env.getChildNodeValue req "InstanceID" = Except.ok text)
    (hn : env.stoul text = Except.ok n)
    (h : AVTransport.Service.onAction env action doc fuel st =
      some (Except.ok response, st₁)) :
    (env.actionFromString action = Except.ok AVTransport.Action.GetMediaInfo →
      response.arguments =
        [("NrTracks", st.store.valueOf (n % 2 ^ 32) AVTransport.Variable.NumberOfTracks),
          ("MediaDuration",
            st.store.valueOf (n % 2 ^ 32) AVTransport.Variable.CurrentMediaDuration),
          ("CurrentURI", st.store.valueOf (n % 2 ^ 32) AVTransport.Variable.CurrentTrackURI),
          ("CurrentURIMetaData",
            st.store.valueOf (n % 2 ^ 32) AVTransport.Variable.CurrentTrackMetaData),
          ("NextURI", st.store.valueOf (n % 2 ^ 32) AVTransport.Variable.NextAVTransportURI),
          ("NextURIMetaData",
            st.store.valueOf (n % 2 ^ 32) AVTransport.Variable.NextAVTransportURIMetaData),
          ("PlayMedium",
            st.store.valueOf (n % 2 ^ 32) AVTransport.Variable.PlaybackStorageMedium),
          ("RecordMedium",
            st.store.valueOf (n % 2 ^ 32) AVTransport.Variable.RecordStorageMedium),
          ("WriteStatus",
            st.store.valueOf (n % 2 ^ 32) AVTransport.Variable.RecordMediumWriteStatus)] ∧
      ∀ tracks : Nat,
        f.optionalStringToUnsignedNumeric
            (st.store.valueOf (n % 2 ^ 32) AVTransport.Variable.NumberOfTracks) =
          Except.ok tracks →
        AVTransport.Client.getMediaInfo f 200 (Except.ok response.arguments) =
          (200,
            { numberOfTracks := tracks
              mediaDuration :=
                st.store.valueOf (n % 2 ^ 32) AVTransport.Variable.CurrentMediaDuration
              currentURI := ""
              currentURIMetaData := ""
              nextURI := st.store.valueOf (n % 2 ^ 32) AVTransport.Variable.NextAVTransportURI
              nextURIMetaData :=
                st.store.valueOf (n % 2 ^ 32) AVTransport.Variable.NextAVTransportURIMetaData
              playMedium :=
                st.store.valueOf (n % 2 ^ 32) AVTransport.Variable.PlaybackStorageMedium
              recordMedium :=
                st.store.valueOf (n % 2 ^ 32) AVTransport.Variable.RecordStorageMedium
              writeStatus :=
                st.store.valueOf (n % 2 ^ 32) AVTransport.Variable.RecordMediumWriteStatus })) ∧
    (env.actionFromString action = Except.ok AVTransport.Action.GetPositionInfo →
      ∀ (track : Nat) (relativeCount absoluteCount : Int),
        f.optionalStringToUnsignedNumeric
            (st.store.valueOf (n % 2 ^ 32) AVTransport.Variable.CurrentTrack) =
          Except.ok track →
        f.optionalStringToUnsignedNumericInt
            (st.store.valueOf (n % 2 ^ 32) AVTransport.Variable.RelativeCounterPosition) =
          Except.ok relativeCount →
        f.optionalStringToUnsignedNumericInt
            (st.store.valueOf (n % 2 ^ 32) AVTransport.Variable.AbsoluteCounterPosition) =
          Except.ok absoluteCount →
        AVTransport.Client.getPositionInfo f 200 (Except.ok response.arguments) =
          (200,
            { track := track
              trackDuration :=
                st.store.valueOf (n % 2 ^ 32) AVTransport.Variable.CurrentTrackDuration
              trackMetaData :=
                st.store.valueOf (n % 2 ^ 32) AVTransport.Variable.CurrentTrackMetaData
              trackURI := st.store.valueOf (n % 2 ^ 32) AVTransport.Variable.CurrentTrackURI
              relativeTime :=
                st.store.valueOf (n % 2 ^ 32) AVTransport.Variable.RelativeTimePosition
              absoluteTime :=
                st.store.valueOf (n % 2 ^ 32) AVTransport.Variable.AbsoluteTimePosition
              relativeCount := relativeCount
              absoluteCount := absoluteCount })) ∧
    (env.actionFromString action = Except.ok AVTransport.Action.GetTransportInfo →
      ∀ state status : Nat,
        f.stateFromString
            (st.store.valueOf (n % 2 ^ 32) AVTransport.Variable.TransportState) =
          Except.ok state →
        f.statusFromString
            (st.store.valueOf (n % 2 ^ 32) AVTransport.Variable.TransportStatus) =
          Except.ok status →
        AVTransport.Client.getTransportInfo f 200 (Except.ok response.arguments) =
          (200,
            { currentTransportState := some state
              currentTransportStatus := some status
              currentSpeed :=
                st.store.valueOf (n % 2 ^ 32) AVTransport.Variable.TransportPlaySpeed })) := by
  refine ⟨fun hact => ?_, fun hact => ?_, fun hact => ?_⟩
  · have hargs := onAction_of_respond env action doc req text n _ fuel st st₁ response _
      hdoc hid hn hact rfl h
    simp only [List.map_cons, List.map_nil] at hargs
    generalize n % 2 ^ 32 = id at hargs ⊢
    refine ⟨hargs, fun tracks htracks => ?_⟩
    rw [hargs]
    simp [AVTransport.Client.getMediaInfo, AVTransport.optionalChildValue,
      AVTransport.first_node, List.find?, htracks]
  · have hargs := onAction_of_respond env action doc req text n _ fuel st st₁ response _
      hdoc hid hn hact rfl h
    simp only [List.map_cons, List.map_nil] at hargs
    generalize n % 2 ^ 32 = id at hargs ⊢
    intro track relativeCount absoluteCount htrack hrel habs
    rw [hargs]
    simp [AVTransport.Client.getPositionInfo, AVTransport.optionalChildValue,
      AVTransport.first_node, List.find?, htrack, hrel, habs]
  · have hargs := onAction_of_respond env action doc req text n _ fuel st st₁ response _
      hdoc hid hn hact rfl h
    simp only [List.map_cons, List.map_nil] at hargs
    generalize n % 2 ^ 32 = id at hargs ⊢
    intro state status hstate hstatus
    rw [hargs]
    simp [AVTransport.Client.getTransportInfo, AVTransport.first_node, List.find?, hstate,
      hstatus, Except.map]

/-- C26 (instance): a service with one track, http://server/track.mp3; its response to
GetMediaInfo carries the URI and its metadata, the record decoded from it does not. -/
theorem getMediaInfo_leaves_currentURI_empty_witness :
    (AVTransport.Service.onAction (Sample.hostEnv false Sample.goodTransport) "GetMediaInfo"
        [[("InstanceID", "0")]] 0 Sample.mediaService).map Prod.fst =
      some (Except.ok ⟨"GetMediaInfo", ServiceType.Tag.AVTransport,
        [("NrTracks", "1"), ("MediaDuration", ""), ("CurrentURI", "http://server/track.mp3"),
          ("CurrentURIMetaData", "<DIDL-Lite/>"), ("NextURI", ""), ("NextURIMetaData", ""),
          ("PlayMedium", ""), ("RecordMedium", ""), ("WriteStatus", "")]⟩) ∧
    AVTransport.Client.getMediaInfo Sample.decoderFunctions 200
        (Except.ok
          [("NrTracks", "1"), ("MediaDuration", ""), ("CurrentURI", "http://server/track.mp3"),
            ("CurrentURIMetaData", "<DIDL-Lite/>"), ("NextURI", ""), ("NextURIMetaData", ""),
            ("PlayMedium", ""), ("RecordMedium", ""), ("WriteStatus", "")]) =
      (200, { numberOfTracks := 1, currentURI := "", currentURIMetaData := "" }) := by
  have hsome : ∃ st₁ : AVTransport.ServiceState,
      AVTransport.Service.onAction (Sample.hostEnv false Sample.goodTransport) "GetMediaInfo"
        [[("InstanceID", "0")]] 0 Sample.mediaService =
      some (Except.ok ⟨"GetMediaInfo", ServiceType.Tag.AVTransport,
        [("NrTracks", "1"), ("MediaDuration", ""), ("CurrentURI", "http://server/track.mp3"),
          ("CurrentURIMetaData", "<DIDL-Lite/>"), ("NextURI", ""), ("NextURIMetaData", ""),
          ("PlayMedium", ""), ("RecordMedium", ""), ("WriteStatus", "")]⟩, st₁) := ⟨_, rfl⟩
  obtain ⟨st₁, h⟩ := hsome
  have hthm := getMediaInfo_leaves_currentURI_empty (Sample.hostEnv false Sample.goodTransport)
    Sample.decoderFunctions "GetMediaInfo" [[("InstanceID", "0")]] [("InstanceID", "0")] "0" 0
    0 Sample.mediaService st₁ _ rfl rfl rfl h
  exact ⟨by rw [h]; rfl, (hthm.1 rfl).2 1 rfl⟩

/-! ## Queueing items at the control point -/

theorem run_of_returning (env : ControlPointEnv)
    (hreturns : ∀ c : ControlPointCall, env.outcome c = Except.ok ()) :
    ∀ (l calls : List ControlPointCall), ControlPoint.run env l calls = (Except.ok (), calls ++ l)
  | [], calls => by simp [ControlPoint.run]
  | c :: rest, calls => by
    simp only [ControlPoint.run, hreturns c, run_of_returning env hreturns rest,
      List.append_assoc, List.singleton_append]

theorem run_extends (env : ControlPointEnv) :
    ∀ (l calls : List ControlPointCall),
      ∃ made : List ControlPointCall, (ControlPoint.run env l calls).2 = calls ++ made
  | [], calls => ⟨[], by simp [ControlPoint.run]⟩
  | c :: rest, calls => by
    unfold ControlPoint.run
    cases env.outcome c with
    | error e => exact ⟨[c], rfl⟩
    | ok u =>
      obtain ⟨made, hmade⟩ := run_extends env rest (calls ++ [c])
      exact ⟨c :: made, by simp only [hmade, List.append_assoc, List.singleton_append]⟩

theorem run_extends_of (env : ControlPointEnv) (l calls calls₁ : List ControlPointCall)
    (r : Except Thrown Unit) (h : ControlPoint.run env l calls = (r, calls₁)) :
    ∃ made : List ControlPointCall, calls₁ = calls ++ made := by
  obtain ⟨made, hmade⟩ := run_extends env l calls
  rw [h] at hmade
  exact ⟨made, hmade⟩

theorem prepareConnection_extends (env : ControlPointEnv) (resource : Resource)
    (calls : List ControlPointCall) :
    ∃ made : List ControlPointCall,
      (ControlPoint.prepareConnection env resource calls).2 = calls ++ made := by
  unfold ControlPoint.prepareConnection
  split
  · split
    · rcases h₁ : ControlPoint.run env [ControlPointCall.serverPrepareConnection resource]
        calls with ⟨r₁, calls₁⟩
      obtain ⟨made₁, hmade₁⟩ := run_extends_of env _ _ _ _ h₁
      cases r₁ with
      | error e => exact ⟨made₁, hmade₁⟩
      | ok u =>
        simp only
        rcases h₂ : ControlPoint.run env
          [ControlPointCall.rendererPrepareConnection (env.serverPrepared resource)]
          calls₁ with ⟨r₂, calls₂⟩
        obtain ⟨made₂, hmade₂⟩ := run_extends_of env _ _ _ _ h₂
        cases r₂ with
        | error e => exact ⟨made₁ ++ made₂, by simp only [hmade₂, hmade₁, List.append_assoc]⟩
        | ok u => exact ⟨made₁ ++ made₂, by simp only [hmade₂, hmade₁, List.append_assoc]⟩
    · rcases h₁ : ControlPoint.run env [ControlPointCall.rendererPrepareConnection resource]
        calls with ⟨r₁, calls₁⟩
      obtain ⟨made₁, hmade₁⟩ := run_extends_of env _ _ _ _ h₁
      cases r₁ with
      | error e => exact ⟨made₁, hmade₁⟩
      | ok u => exact ⟨made₁, hmade₁⟩
  · rcases h₁ : ControlPoint.run env
      [ControlPointCall.serverUseDefaultConnection,
        ControlPointCall.rendererUseDefaultConnection] calls with ⟨r₁, calls₁⟩
    obtain ⟨made₁, hmade₁⟩ := run_extends_of env _ _ _ _ h₁
    cases r₁ with
    | error e => exact ⟨made₁, hmade₁⟩
    | ok u => exact ⟨made₁, hmade₁⟩

theorem prepareConnection_of_returning (env : ControlPointEnv)
    (hreturns : ∀ c : ControlPointCall, env.outcome c = Except.ok ()) (resource : Resource)
    (calls : List ControlPointCall) :
    ∃ (prepared : Resource) (preparation : List ControlPointCall),
      ControlPoint.prepareConnection env resource calls =
        (Except.ok prepared, calls ++ preparation) ∧
      ∀ r : Resource, ControlPointCall.rendererSetNextTransportItem r ∉ preparation := by
  unfold ControlPoint.prepareConnection
  simp only [run_of_returning env hreturns]
  split
  · split
    · exact ⟨env.rendererPrepared (env.serverPrepared resource),
        [ControlPointCall.serverPrepareConnection resource,
          ControlPointCall.rendererPrepareConnection (env.serverPrepared resource)],
        by simp, fun r => by simp⟩
    · exact ⟨_, [ControlPointCall.rendererPrepareConnection resource], rfl, fun r => by simp⟩
  · exact ⟨_, [ControlPointCall.serverUseDefaultConnection,
      ControlPointCall.rendererUseDefaultConnection], rfl, fun r => by simp⟩

/-- C30: `queueItemsAsPlaylist` called with exactly one item is `playItem` on that item, not
`queueItem`: when the renderer supports the item, the first call is the renderer's `stop`, and
when every call returns, the calls are `stop`, the preparation of the connection, then
`setTransportItem` on the server and on the renderer and `play`, none of them
`setNextTransportItem`, while `queueItem` makes the one call `setNextTransportItem`.  With an
empty list it raises and makes no call. -/
theorem queueItemsAsPlaylist_single_item_plays (env : ControlPointEnv) (item : Item)
    (calls : List ControlPointCall) :
    ControlPoint.queueItemsAsPlaylist env [item] calls = ControlPoint.playItem env item calls ∧
    (∀ resource : Resource, env.supportsPlayback item = (true, resource) →
      (∃ rest : List ControlPointCall,
        (ControlPoint.queueItemsAsPlaylist env [item] calls).2 =
          calls ++ ControlPointCall.rendererStop :: rest) ∧
      ((∀ c : ControlPointCall, env.outcome c = Except.ok ()) →
        (∃ (prepared : Resource) (preparation : List ControlPointCall),
          ControlPoint.queueItemsAsPlaylist env [item] calls =
            (Except.ok (),
              calls ++ ControlPointCall.rendererStop :: preparation ++
                [ControlPointCall.serverSetTransportItem prepared,
                  ControlPointCall.rendererSetTransportItem prepared,
                  ControlPointCall.rendererPlay]) ∧
          ∀ r : Resource, ControlPointCall.rendererSetNextTransportItem r ∉ preparation) ∧
        ControlPoint.queueItem env item calls =
          (Except.ok (), calls ++ [ControlPointCall.rendererSetNextTransportItem resource]))) ∧
    ControlPoint.queueItemsAsPlaylist env [] calls =
      (Except.error (Thrown.other "No items provided for queueing"), calls) := by
  refine ⟨rfl, ?_, rfl⟩
  intro resource hsupports
  constructor
  · show ∃ rest, (ControlPoint.playItem env item calls).2 = _
    simp only [ControlPoint.playItem, hsupports, ControlPoint.stopPlaybackIfNecessary]
    rcases hprep : ControlPoint.prepareConnection env resource
      (calls ++ [ControlPointCall.rendererStop]) with ⟨r, calls₁⟩
    obtain ⟨made, hmade⟩ := prepareConnection_extends env resource
      (calls ++ [ControlPointCall.rendererStop])
    rw [hprep] at hmade
    simp only at hmade
    cases r with
    | error e =>
      exact ⟨made, by simp only [hmade, List.append_assoc, List.singleton_append]⟩
    | ok prepared =>
      simp only
      obtain ⟨made₂, hmade₂⟩ := run_extends env
        [ControlPointCall.serverSetTransportItem prepared,
          ControlPointCall.rendererSetTransportItem prepared, ControlPointCall.rendererPlay]
        calls₁
      rw [hmade₂, hmade]
      exact ⟨made ++ made₂, by simp⟩
  · intro hreturns
    constructor
    · show ∃ prepared preparation, ControlPoint.playItem env item calls = _ ∧ _
      obtain ⟨prepared, preparation, hprep, hnone⟩ :=
        prepareConnection_of_returning env hreturns resource
          (calls ++ [ControlPointCall.rendererStop])
      refine ⟨prepared, preparation, ?_, hnone⟩
      simp [ControlPoint.playItem, hsupports, ControlPoint.stopPlaybackIfNecessary, hprep,
        run_of_returning env hreturns]
    · simp only [ControlPoint.queueItem, hsupports, run_of_returning env hreturns]

/-- C30 (instance): one track queued as a playlist on a renderer that supports it: playback
is stopped, the track becomes the transport item and is played; `queueItem` on the same track
sets it as the next transport item. -/
theorem queueItemsAsPlaylist_single_item_plays_witness :
    ControlPoint.queueItemsAsPlaylist Sample.controlPointEnv [Sample.track] [] =
      (Except.ok (),
        [ControlPointCall.rendererStop, ControlPointCall.serverUseDefaultConnection,
          ControlPointCall.rendererUseDefaultConnection,
          ControlPointCall.serverSetTransportItem
            { m_Url := "http://server/track.mp3", m_ProtocolInfo := "http-get:*:audio/mpeg:*" },
          ControlPointCall.rendererSetTransportItem
            { m_Url := "http://server/track.mp3", m_ProtocolInfo := "http-get:*:audio/mpeg:*" },
          ControlPointCall.rendererPlay]) ∧
    ControlPoint.queueItem Sample.controlPointEnv Sample.track [] =
      (Except.ok (),
        [ControlPointCall.rendererSetNextTransportItem
          { m_Url := "http://server/track.mp3",
            m_ProtocolInfo := "http-get:*:audio/mpeg:*" }]) ∧
    ControlPoint.queueItemsAsPlaylist Sample.controlPointEnv [] [] =
      (Except.error (Thrown.other "No items provided for queueing"), []) :=
  ⟨(queueItemsAsPlaylist_single_item_plays Sample.controlPointEnv Sample.track []).1.trans rfl,
    (((queueItemsAsPlaylist_single_item_plays Sample.controlPointEnv Sample.track []).2.1
      { m_Url := "http://server/track.mp3", m_ProtocolInfo := "http-get:*:audio/mpeg:*" }
      rfl).2 (fun _ => rfl)).2,
    (queueItemsAsPlaylist_single_item_plays Sample.controlPointEnv Sample.track []).2.2⟩

end upnp
